import Mathlib

/-!
# Telemetry pipeline of the boiler dashboard

Shallow embedding of the message handler, the rolling history window, the
derived metrics, the durable writer and the history loader of

* `src/components/Dashboard.jsx` (namespace `Dashboard`),
* `src/components/ZeladorDashboard.jsx` (namespace `ZeladorDashboard`),
* `dashboard/src/components/Dashboard.jsx` (namespace `LegacyDashboard`),

and of the alert evaluations of

* `dashboard/src/components/ConsumptionAlerts.jsx` (namespace `ConsumptionAlerts`),
* `dashboard/src/components/AlertsManagement.jsx` (namespace `AlertsManagement`),
* `src/components/WeatherAlerts.jsx` (namespace `WeatherAlerts`),
* `src/services/weatherService.js` (namespace `WeatherService`).

Numbers: a finite double is represented by its exact rational value and `NaN`
by a separate constructor; `+`, `-` and `*` are exact on finite values, and the
literals `0.1` and `8.00` are the rationals `1 / 10` and `8`.  Rounding and
overflow to an infinity are outside the model: the operators agree with those
of the language where no intermediate result is rounded, as on natural numbers
whose results stay below `2 ^ 53`.  Statements that give a computed number in
closed form are therefore made on such inputs only; the others either evaluate
the code on one input or do not depend on how a result is rounded.  Field values are the
primitive values a decoded JSON field or a returned store column can hold;
nested arrays and objects as field values are outside the model.
-/

/-! ## Values of the host language -/

/-- A number of the host language: a finite value or `NaN`. -/
inductive JsNum where
  | fin (q : ℚ)
  | nan
  deriving DecidableEq

namespace JsNum

/-- The operator `*` on two numbers: `NaN` as soon as one operand is, else the
exact product (the language rounds it to the nearest double). -/
def mul : JsNum → JsNum → JsNum
  | fin a, fin b => fin (a * b)
  | _, _ => nan

/-- The operator `+` on two numbers: `NaN` as soon as one operand is, else the
exact sum (the language rounds it to the nearest double). -/
def add : JsNum → JsNum → JsNum
  | fin a, fin b => fin (a + b)
  | _, _ => nan

/-- The comparison `a <= b` on two numbers (false as soon as one is `NaN`). -/
def le : JsNum → JsNum → Prop
  | fin a, fin b => a ≤ b
  | _, _ => False

/-- A number is finite when it is not `NaN`. -/
def isFinite : JsNum → Bool
  | fin _ => true
  | nan => false

end JsNum

/-- A primitive value: what a field of a decoded message, a column of a
returned row or the `code` of an error object can hold. -/
inductive JsVal where
  | undefined
  | null
  | bool (b : Bool)
  | num (x : JsNum)
  | str (s : String)
  deriving DecidableEq

namespace JsVal

/-- The number literal `q` as a value. -/
def ofRat (q : ℚ) : JsVal := num (JsNum.fin q)

/-- Truthiness (`ToBoolean`): `undefined`, `null`, `false`, `0`, `NaN` and the
empty string are falsy, everything else is truthy. -/
def truthy : JsVal → Bool
  | undefined => false
  | null => false
  | bool b => b
  | num (JsNum.fin q) => decide (q ≠ 0)
  | num JsNum.nan => false
  | str s => decide (s ≠ "")

/-- The operator `a || b`. -/
def or (a b : JsVal) : JsVal := if a.truthy then a else b

/-- The operator `a === b`: same type and same value, `NaN` equal to nothing. -/
def strictEq : JsVal → JsVal → Bool
  | undefined, undefined => true
  | null, null => true
  | bool a, bool b => decide (a = b)
  | num (JsNum.fin a), num (JsNum.fin b) => decide (a = b)
  | str a, str b => decide (a = b)
  | _, _ => false

/-- A value is a finite number. -/
def isFiniteNumber : JsVal → Bool
  | num x => x.isFinite
  | _ => false

end JsVal

/-- Built-in conversions of the host language that the pipeline calls and
whose definition is not part of the repository: `ToNumber` and `parseFloat` on
a string, and the two `Date` renderings of a stored `reading_time`. -/
structure Host where
  stringToNumber : String → JsNum
  parseFloatString : String → JsNum
  toLocaleTimeString : JsVal → String
  getTime : JsVal → JsNum

namespace Host

/-- The conversion `ToNumber`, applied by `*` to its operands. -/
def toNumber (h : Host) : JsVal → JsNum
  | JsVal.undefined => JsNum.nan
  | JsVal.null => JsNum.fin 0
  | JsVal.bool b => JsNum.fin (if b then 1 else 0)
  | JsVal.num x => x
  | JsVal.str s => h.stringToNumber s

/-- The function `parseFloat`: its argument is first rendered as a string, so
only numbers and strings can give a number. -/
def parseFloat (h : Host) : JsVal → JsNum
  | JsVal.num x => x
  | JsVal.str s => h.parseFloatString s
  | _ => JsNum.nan

end Host

/-- A decoded object: its own properties. -/
abbrev JsObject := List (String × JsVal)

/-- Property access `data.key`: `undefined` when the property is absent. -/
def getProp (data : JsObject) (key : String) : JsVal :=
  (data.lookup key).getD JsVal.undefined

/-- The reading held in `sensorData` and handed to the writer. -/
structure SensorData where
  temp_ida : JsVal
  temp_retorno : JsVal
  deltaT : JsVal
  vazao_L_s : JsVal
  potencia_kW : JsVal
  energia_kWh : JsVal
  deriving DecidableEq

/-- A point of `historyData`. Points appended live carry no `timestamp`
property; points loaded from the store do. -/
structure HistoryPoint where
  time : String
  timestamp : Option JsNum
  temp_ida : JsVal
  temp_retorno : JsVal
  deltaT : JsVal
  vazao : JsVal
  potencia : JsVal
  energia : JsVal
  gas : JsNum
  deriving DecidableEq

/-- The method `xs.slice(-n)` for a positive `n`: the last `n` elements, or
all of them when there are fewer. -/
def sliceLast {α : Type} (n : Nat) (xs : List α) : List α :=
  xs.drop (xs.length - n)

/-! ## `src/components/Dashboard.jsx` -/

namespace Dashboard

/-- The constant `maxHistoryPoints`. -/
def maxHistoryPoints : Nat := 50

/-- The constant `maxHistoryLoad`. -/
def maxHistoryLoad : Nat := 100

/-- The constant `intervaloMedicao`. -/
def intervaloMedicao : ℚ := 5

/-- The object `processedData` built by the message handler from the decoded
message `data`. -/
def processedData (data : JsObject) : SensorData :=
  { temp_ida :=
      if (getProp data "temp_ida").strictEq (JsVal.ofRat (-127)) then JsVal.ofRat 0
      else getProp data "temp_ida"
    temp_retorno :=
      if (getProp data "temp_retorno").strictEq (JsVal.ofRat (-127)) then JsVal.ofRat 0
      else getProp data "temp_retorno"
    deltaT := (getProp data "deltaT").or (JsVal.ofRat 0)
    vazao_L_s := (getProp data "vazao_L_s").or (JsVal.ofRat 0)
    potencia_kW := (getProp data "potencia_kW").or (JsVal.ofRat 0)
    energia_kWh := (getProp data "energia_kWh").or (JsVal.ofRat 0) }

/-- The object `historyPoint` built from `processedData` and the clock string
`timestamp`. -/
def historyPoint (h : Host) (timestamp : String) (p : SensorData) : HistoryPoint :=
  { time := timestamp
    timestamp := none
    temp_ida := p.temp_ida
    temp_retorno := p.temp_retorno
    deltaT := p.deltaT
    vazao := p.vazao_L_s
    potencia := p.potencia_kW
    energia := p.energia_kWh
    gas := (h.toNumber p.potencia_kW).mul (JsNum.fin (1 / 10)) }

/-- The updater passed to `setHistoryData` by the message handler. -/
def appendPoint (prev : List HistoryPoint) (point : HistoryPoint) : List HistoryPoint :=
  sliceLast maxHistoryPoints (prev ++ [point])

/-- The derived value `vazaoAcumulada`: a `reduce` over `historyData` from 0. -/
def vazaoAcumulada (h : Host) (historyData : List HistoryPoint) : JsNum :=
  historyData.foldl
    (fun total ponto => total.add ((h.toNumber ponto.vazao).mul (JsNum.fin intervaloMedicao)))
    (JsNum.fin 0)

end Dashboard

/-! ## Shared shapes of the handlers, the writer and the loader -/

/-- What `JSON.parse(message.toString())` gives the handler: a syntax error
(thrown), the value `null` (whose property access throws), or a value whose
properties can be read. -/
inductive Decoded where
  | malformed
  | null
  | value (data : JsObject)

/-- The row object passed to `.insert(...)`. -/
structure InsertRow where
  device_id : JsVal
  temp_ida : JsVal
  temp_retorno : JsVal
  deltaT : JsVal
  vazao_L_s : JsVal
  potencia_kW : JsVal
  energia_kWh : JsVal
  deriving DecidableEq

/-- How one awaited `.insert(...)` ends: resolved without error, resolved with
an error object (of which only `code` is read), or thrown. -/
inductive InsertOutcome where
  | ok
  | error (code : JsVal)
  | thrown
  deriving DecidableEq

/-- An insert outcome is transient when it is neither a success nor the
error with code `'23503'`. -/
def InsertOutcome.transient : InsertOutcome → Bool
  | InsertOutcome.ok => false
  | InsertOutcome.error code => !(code.strictEq (JsVal.str "23503"))
  | InsertOutcome.thrown => true

/-- The observable steps of the writer, in the order they happen. -/
inductive WriterEvent where
  | insert (attempt : Nat) (row : InsertRow)
  | wait (ms : Nat)
  | setDbConnected (b : Bool)
  deriving DecidableEq

/-- The state the writer acts on: the flag `dbConnected` and the trace of
its steps so far. -/
structure WriterState where
  dbConnected : Bool
  trace : List WriterEvent
  deriving DecidableEq

namespace WriterState

/-- Append a step to the trace. -/
def record (st : WriterState) (e : WriterEvent) : WriterState :=
  { st with trace := st.trace ++ [e] }

/-- The call `setDbConnected(b)`. -/
def setDb (st : WriterState) (b : Bool) : WriterState :=
  { dbConnected := b, trace := st.trace ++ [WriterEvent.setDbConnected b] }

/-- Number of insert attempts in the trace. -/
def attempts (st : WriterState) : Nat :=
  (st.trace.filter (fun e => match e with
    | WriterEvent.insert _ _ => true
    | _ => false)).length

/-- The backoff waits of the trace, in order. -/
def waits (st : WriterState) : List Nat :=
  st.trace.filterMap (fun e => match e with
    | WriterEvent.wait ms => some ms
    | _ => none)

end WriterState

/-- A row returned by the history query. -/
structure StoreRow where
  reading_time : JsVal
  temp_ida : JsVal
  temp_retorno : JsVal
  deltaT : JsVal
  vazao_L_s : JsVal
  potencia_kW : JsVal
  energia_kWh : JsVal
  deriving DecidableEq

/-- How the awaited history query ends: resolved with an error, resolved with
`data` (`none` for `null`), or thrown. -/
inductive QueryOutcome where
  | error
  | data (rows : Option (List StoreRow))
  | thrown

/-- The component state the pipeline reads and writes. -/
structure State where
  sensorData : SensorData
  historyData : List HistoryPoint
  deviceId : JsVal
  isConnected : Bool
  dbConnected : Bool
  loadingHistory : Bool
  deriving DecidableEq

/-- The initial values given to `useState`. -/
def State.initial : State :=
  { sensorData :=
      { temp_ida := JsVal.ofRat 0, temp_retorno := JsVal.ofRat 0, deltaT := JsVal.ofRat 0,
        vazao_L_s := JsVal.ofRat 0, potencia_kW := JsVal.ofRat 0, energia_kWh := JsVal.ofRat 0 }
    historyData := []
    deviceId := JsVal.null
    isConnected := false
    dbConnected := false
    loadingHistory := false }

namespace Dashboard

/-- The handler of `client.on('message', ...)`: the new state and the reading
handed to `saveToDatabase` (not awaited), or the unchanged state when the
`try` block throws. -/
def onMessage (h : Host) (timestamp : String) (message : Decoded) (s : State) :
    State × Option SensorData :=
  match message with
  | Decoded.malformed => (s, none)
  | Decoded.null => (s, none)
  | Decoded.value data =>
    ({ s with
        sensorData := processedData data
        historyData := appendPoint s.historyData (historyPoint h timestamp (processedData data)) },
      some (processedData data))

/-- The object passed to `.insert(...)` by `saveToDatabase`. -/
def insertRow (deviceId : JsVal) (data : SensorData) : InsertRow :=
  { device_id := deviceId
    temp_ida := data.temp_ida.or JsVal.null
    temp_retorno := data.temp_retorno.or JsVal.null
    deltaT := data.deltaT.or JsVal.null
    vazao_L_s := data.vazao_L_s.or JsVal.null
    potencia_kW := data.potencia_kW.or JsVal.null
    energia_kWh := data.energia_kWh.or JsVal.null }

/-- The `for` loop of `saveToDatabase` from iteration `attempt` on; `outcome a`
is how the insert of attempt `a` ends. The first argument bounds the number of
iterations examined. -/
def saveLoop (outcome : Nat → InsertOutcome) (row : InsertRow) (retries : Nat) :
    Nat → Nat → WriterState → WriterState
  | 0, _, st => st
  | fuel + 1, attempt, st =>
    if attempt ≤ retries then
      match outcome attempt with
      | InsertOutcome.ok =>
        ((st.record (WriterEvent.insert attempt row)).setDb true)
      | InsertOutcome.error code =>
        if code.strictEq (JsVal.str "23503") then
          ((st.record (WriterEvent.insert attempt row)).setDb false)
        else if attempt < retries then
          saveLoop outcome row retries fuel (attempt + 1)
            ((st.record (WriterEvent.insert attempt row)).record
              (WriterEvent.wait (1000 * attempt)))
        else
          saveLoop outcome row retries fuel (attempt + 1)
            ((st.record (WriterEvent.insert attempt row)).setDb false)
      | InsertOutcome.thrown =>
        if attempt < retries then
          saveLoop outcome row retries fuel (attempt + 1)
            ((st.record (WriterEvent.insert attempt row)).record
              (WriterEvent.wait (1000 * attempt)))
        else
          saveLoop outcome row retries fuel (attempt + 1)
            ((st.record (WriterEvent.insert attempt row)).setDb false)
    else st

/-- The function `saveToDatabase(data, retries)`, run to completion: the loop
from `attempt = 1`, with one more iteration allowed than it can use. -/
def saveToDatabase (outcome : Nat → InsertOutcome) (deviceId : JsVal) (data : SensorData)
    (retries : Nat) (st : WriterState) : WriterState :=
  saveLoop outcome (insertRow deviceId data) retries (retries + 1) 1 st

/-- The default value of the parameter `retries`. -/
def defaultRetries : Nat := 3

/-- The mapping applied by `loadHistoryFromDatabase` to each returned row. -/
def formatRow (h : Host) (item : StoreRow) : HistoryPoint :=
  { time := h.toLocaleTimeString item.reading_time
    timestamp := some (h.getTime item.reading_time)
    temp_ida := (JsVal.num (h.parseFloat item.temp_ida)).or (JsVal.ofRat 0)
    temp_retorno := (JsVal.num (h.parseFloat item.temp_retorno)).or (JsVal.ofRat 0)
    deltaT := (JsVal.num (h.parseFloat item.deltaT)).or (JsVal.ofRat 0)
    vazao := (JsVal.num (h.parseFloat item.vazao_L_s)).or (JsVal.ofRat 0)
    potencia := (JsVal.num (h.parseFloat item.potencia_kW)).or (JsVal.ofRat 0)
    energia := (JsVal.num (h.parseFloat item.energia_kWh)).or (JsVal.ofRat 0)
    gas :=
      (h.toNumber ((JsVal.num (h.parseFloat item.potencia_kW)).or (JsVal.ofRat 0))).mul
        (JsNum.fin (1 / 10)) }

/-- The value `formattedData`: the returned rows reversed, then formatted. -/
def formattedData (h : Host) (data : List StoreRow) : List HistoryPoint :=
  data.reverse.map (formatRow h)

/-- The function `loadHistoryFromDatabase`, run to completion on the outcome
of its query. -/
def loadHistoryFromDatabase (h : Host) (query : QueryOutcome) (s : State) : State :=
  if !s.deviceId.truthy then s
  else
    match query with
    | QueryOutcome.error => { s with dbConnected := false, loadingHistory := false }
    | QueryOutcome.data (some (r :: rs)) =>
      { s with
          dbConnected := true
          historyData := sliceLast maxHistoryPoints (formattedData h (r :: rs))
          loadingHistory := false }
    | QueryOutcome.data _ => { s with dbConnected := true, loadingHistory := false }
    | QueryOutcome.thrown => { s with dbConnected := false, loadingHistory := false }

end Dashboard

/-! ## `src/components/ZeladorDashboard.jsx` -/

namespace ZeladorDashboard

/-- The constant `maxHistoryPoints`. -/
def maxHistoryPoints : Nat := 50

/-- The constant `intervaloMedicao`. -/
def intervaloMedicao : ℚ := 5

/-- The object `processedData` built by the message handler from the decoded
message `data`. -/
def processedData (data : JsObject) : SensorData :=
  { temp_ida :=
      if (getProp data "temp_ida").strictEq (JsVal.ofRat (-127)) then JsVal.ofRat 0
      else getProp data "temp_ida"
    temp_retorno :=
      if (getProp data "temp_retorno").strictEq (JsVal.ofRat (-127)) then JsVal.ofRat 0
      else getProp data "temp_retorno"
    deltaT := (getProp data "deltaT").or (JsVal.ofRat 0)
    vazao_L_s := (getProp data "vazao_L_s").or (JsVal.ofRat 0)
    potencia_kW := (getProp data "potencia_kW").or (JsVal.ofRat 0)
    energia_kWh := (getProp data "energia_kWh").or (JsVal.ofRat 0) }

/-- The derived value `vazaoAcumulada`: a `reduce` over `historyData` from 0. -/
def vazaoAcumulada (h : Host) (historyData : List HistoryPoint) : JsNum :=
  historyData.foldl
    (fun total ponto => total.add ((h.toNumber ponto.vazao).mul (JsNum.fin intervaloMedicao)))
    (JsNum.fin 0)

/-- The object passed to `.insert(...)` by `saveToDatabase`. -/
def insertRow (deviceId : JsVal) (data : SensorData) : InsertRow :=
  { device_id := deviceId
    temp_ida := data.temp_ida.or JsVal.null
    temp_retorno := data.temp_retorno.or JsVal.null
    deltaT := data.deltaT.or JsVal.null
    vazao_L_s := data.vazao_L_s.or JsVal.null
    potencia_kW := data.potencia_kW.or JsVal.null
    energia_kWh := data.energia_kWh.or JsVal.null }

/-- The `for` loop of `saveToDatabase` from iteration `attempt` on; `outcome a`
is how the insert of attempt `a` ends. The first argument bounds the number of
iterations examined. -/
def saveLoop (outcome : Nat → InsertOutcome) (row : InsertRow) (retries : Nat) :
    Nat → Nat → WriterState → WriterState
  | 0, _, st => st
  | fuel + 1, attempt, st =>
    if attempt ≤ retries then
      match outcome attempt with
      | InsertOutcome.ok =>
        ((st.record (WriterEvent.insert attempt row)).setDb true)
      | InsertOutcome.error code =>
        if code.strictEq (JsVal.str "23503") then
          ((st.record (WriterEvent.insert attempt row)).setDb false)
        else if attempt < retries then
          saveLoop outcome row retries fuel (attempt + 1)
            ((st.record (WriterEvent.insert attempt row)).record
              (WriterEvent.wait (1000 * attempt)))
        else
          saveLoop outcome row retries fuel (attempt + 1)
            ((st.record (WriterEvent.insert attempt row)).setDb false)
      | InsertOutcome.thrown =>
        if attempt < retries then
          saveLoop outcome row retries fuel (attempt + 1)
            ((st.record (WriterEvent.insert attempt row)).record
              (WriterEvent.wait (1000 * attempt)))
        else
          saveLoop outcome row retries fuel (attempt + 1)
            ((st.record (WriterEvent.insert attempt row)).setDb false)
    else st

/-- The function `saveToDatabase(data, retries)`, run to completion: the loop
from `attempt = 1`, with one more iteration allowed than it can use. -/
def saveToDatabase (outcome : Nat → InsertOutcome) (deviceId : JsVal) (data : SensorData)
    (retries : Nat) (st : WriterState) : WriterState :=
  saveLoop outcome (insertRow deviceId data) retries (retries + 1) 1 st

/-- The default value of the parameter `retries`. -/
def defaultRetries : Nat := 3

end ZeladorDashboard

/-! ## `dashboard/src/components/Dashboard.jsx` -/

namespace LegacyDashboard

/-- The constant `maxHistoryPoints`. -/
def maxHistoryPoints : Nat := 50

/-- The constant `intervaloMedicao`. -/
def intervaloMedicao : ℚ := 5

/-- The object `processedData` built by the message handler from the decoded
message `data`. -/
def processedData (data : JsObject) : SensorData :=
  { temp_ida :=
      if (getProp data "temp_ida").strictEq (JsVal.ofRat (-127)) then JsVal.ofRat 0
      else getProp data "temp_ida"
    temp_retorno :=
      if (getProp data "temp_retorno").strictEq (JsVal.ofRat (-127)) then JsVal.ofRat 0
      else getProp data "temp_retorno"
    deltaT := (getProp data "deltaT").or (JsVal.ofRat 0)
    vazao_L_s := (getProp data "vazao_L_s").or (JsVal.ofRat 0)
    potencia_kW := (getProp data "potencia_kW").or (JsVal.ofRat 0)
    energia_kWh := (getProp data "energia_kWh").or (JsVal.ofRat 0) }

/-- The derived value `vazaoAcumulada`: a `reduce` over `historyData` from 0. -/
def vazaoAcumulada (h : Host) (historyData : List HistoryPoint) : JsNum :=
  historyData.foldl
    (fun total ponto => total.add ((h.toNumber ponto.vazao).mul (JsNum.fin intervaloMedicao)))
    (JsNum.fin 0)

end LegacyDashboard

/-! ## Reference quantities used in the statements -/

/-- The flow term of a window point: `vazao * 5` as the code computes it. -/
def flowTerm (h : Host) (p : HistoryPoint) : JsNum :=
  (h.toNumber p.vazao).mul (JsNum.fin 5)

/-- Sum of a list of numbers with the operator `+`, from 0, left to right. -/
def jsSum (xs : List JsNum) : JsNum :=
  xs.foldl JsNum.add (JsNum.fin 0)

/-- The rational value of `parseFloat(x) || 0`: the parsed number when it is
finite and non-zero, else 0. -/
def parseFloatOrZero (h : Host) (x : JsVal) : ℚ :=
  match h.parseFloat x with
  | JsNum.fin q => q
  | JsNum.nan => 0

/-- Cumulative flow recomputed directly from returned rows: the sum over the
rows of `(parseFloat(vazao_L_s) || 0) * 5`. -/
def directFlow (h : Host) (rows : List StoreRow) : ℚ :=
  (rows.map (fun r => parseFloatOrZero h r.vazao_L_s * 5)).sum

/-- A host whose string conversions always give `NaN`, used to evaluate the
model on inputs that hold no string, or only strings that are no numerals
(such as `"abc"`, which the language converts to `NaN` too). -/
def numericHost : Host :=
  { stringToNumber := fun _ => JsNum.nan
    parseFloatString := fun _ => JsNum.nan
    toLocaleTimeString := fun _ => ""
    getTime := fun _ => JsNum.nan }

/-- A live point with the given clock string and flow rate, the other values 0. -/
def pointWithFlow (time : String) (vazao : ℚ) : HistoryPoint :=
  { time := time, timestamp := none, temp_ida := JsVal.ofRat 0, temp_retorno := JsVal.ofRat 0,
    deltaT := JsVal.ofRat 0, vazao := JsVal.ofRat vazao, potencia := JsVal.ofRat 0,
    energia := JsVal.ofRat 0, gas := JsNum.fin 0 }

/-- A returned row with the given flow rate, the other columns `null`. -/
def rowWithFlow (vazao : ℚ) : StoreRow :=
  { reading_time := JsVal.null, temp_ida := JsVal.null, temp_retorno := JsVal.null,
    deltaT := JsVal.null, vazao_L_s := JsVal.ofRat vazao, potencia_kW := JsVal.null,
    energia_kWh := JsVal.null }

/-- The flow rate of a window point when it is a finite number, else 0. -/
def flowOf (p : HistoryPoint) : ℚ :=
  match p.vazao with
  | JsVal.num (JsNum.fin q) => q
  | _ => 0

/-- The points `0, 1, ..., n-1`: point `i` has flow rate `i`, so that the points
are pairwise distinct. -/
def numberedPoints (n : Nat) : List HistoryPoint :=
  (List.range n).map (fun i => pointWithFlow "" (i : ℚ))

/-- The message of the scenario
`{temp_ida:-127, temp_retorno:40, deltaT:5, vazao_L_s:0.5, potencia_kW:10, energia_kWh:2}`. -/
def scenarioMessage : JsObject :=
  [("temp_ida", JsVal.ofRat (-127)), ("temp_retorno", JsVal.ofRat 40),
    ("deltaT", JsVal.ofRat 5), ("vazao_L_s", JsVal.ofRat (1 / 2)),
    ("potencia_kW", JsVal.ofRat 10), ("energia_kWh", JsVal.ofRat 2)]

/-- Fifty appends of flow rate 1 followed by one append of flow rate 0. -/
def fullThenZero : List HistoryPoint :=
  List.replicate 50 (pointWithFlow "" 1) ++ [pointWithFlow "" 0]

/-- The state of a session in which the device `"caldeira-01"` is selected. -/
def sessionWithDevice : State :=
  { State.initial with deviceId := JsVal.str "caldeira-01" }

/-- The steps of `k` consecutive failed attempts, numbered from `attempt`, each
followed by its backoff wait of `1000 * attempt` milliseconds. -/
def retryEvents (row : InsertRow) : Nat → Nat → List WriterEvent
  | _, 0 => []
  | attempt, k + 1 =>
    WriterEvent.insert attempt row :: WriterEvent.wait (1000 * attempt) ::
      retryEvents row (attempt + 1) k

/-- A reading with all six values 0. -/
def zeroReading : SensorData :=
  { temp_ida := JsVal.ofRat 0, temp_retorno := JsVal.ofRat 0, deltaT := JsVal.ofRat 0,
    vazao_L_s := JsVal.ofRat 0, potencia_kW := JsVal.ofRat 0, energia_kWh := JsVal.ofRat 0 }

/-- The writer state before a save: flag `b`, empty trace. -/
def WriterState.start (b : Bool) : WriterState :=
  { dbConnected := b, trace := [] }

/-- Insert outcomes in which attempt 2 returns the error with code `'23503'` and
every other attempt throws. -/
def terminalAtSecond : Nat → InsertOutcome :=
  fun a => if a = 2 then InsertOutcome.error (JsVal.str "23503") else InsertOutcome.thrown

/-- Insert outcomes in which attempt 2 succeeds and every other attempt returns
an error with code `'08006'`. -/
def successAtSecond : Nat → InsertOutcome :=
  fun a => if a = 2 then InsertOutcome.ok else InsertOutcome.error (JsVal.str "08006")


/-! ## Further operators on numbers -/

namespace JsNum

/-- The operator `-` on two numbers: `NaN` as soon as one operand is, else the
exact difference (the language rounds it to the nearest double). -/
def sub : JsNum → JsNum → JsNum
  | fin a, fin b => fin (a - b)
  | _, _ => nan

/-- The function `Math.abs`. -/
def abs : JsNum → JsNum
  | fin a => fin |a|
  | nan => nan

/-- The comparison `a >= b` on two numbers (false as soon as one is `NaN`). -/
def ge : JsNum → JsNum → Bool
  | fin a, fin b => decide (b ≤ a)
  | _, _ => false

/-- The comparison `a > b` on two numbers (false as soon as one is `NaN`). -/
def gt : JsNum → JsNum → Bool
  | fin a, fin b => decide (b < a)
  | _, _ => false

end JsNum

/-- Renderings of a number as text that the alert messages use and whose
definition is not part of the repository: `x.toFixed(n)` and the interpolation
of a number in a template string. -/
structure Render where
  toFixed : JsNum → Nat → String
  display : JsNum → String

/-! ## Transport events -/

/-- The events of the MQTT client that the dashboards may handle. -/
inductive TransportEvent where
  | connect
  | error
  | close
  deriving DecidableEq

namespace Dashboard

/-- The handlers of `client.on('connect')`, `client.on('error')` and
`client.on('close')`, as far as the component state goes. -/
def onTransport (e : TransportEvent) (s : State) : State :=
  match e with
  | TransportEvent.connect => { s with isConnected := true }
  | TransportEvent.error => { s with isConnected := false }
  | TransportEvent.close => { s with isConnected := false }

/-- The message handler run over a sequence of messages, each with the clock
string of its arrival; the persist requests are dropped. -/
def runMessages (h : Host) (messages : List (String × Decoded)) (s : State) : State :=
  messages.foldl (fun st m => (onMessage h m.1 m.2 st).1) s

end Dashboard

namespace ZeladorDashboard

/-- The handlers of `client.on('connect')` and `client.on('error')`; the
component registers no handler for `'close'`, which therefore changes nothing. -/
def onTransport (e : TransportEvent) (s : State) : State :=
  match e with
  | TransportEvent.connect => { s with isConnected := true }
  | TransportEvent.error => { s with isConnected := false }
  | TransportEvent.close => s

/-- The mapping applied by `loadHistoryFromDatabase` to each returned row. -/
def formatRow (h : Host) (item : StoreRow) : HistoryPoint :=
  { time := h.toLocaleTimeString item.reading_time
    timestamp := some (h.getTime item.reading_time)
    temp_ida := (JsVal.num (h.parseFloat item.temp_ida)).or (JsVal.ofRat 0)
    temp_retorno := (JsVal.num (h.parseFloat item.temp_retorno)).or (JsVal.ofRat 0)
    deltaT := (JsVal.num (h.parseFloat item.deltaT)).or (JsVal.ofRat 0)
    vazao := (JsVal.num (h.parseFloat item.vazao_L_s)).or (JsVal.ofRat 0)
    potencia := (JsVal.num (h.parseFloat item.potencia_kW)).or (JsVal.ofRat 0)
    energia := (JsVal.num (h.parseFloat item.energia_kWh)).or (JsVal.ofRat 0)
    gas :=
      (h.toNumber ((JsVal.num (h.parseFloat item.potencia_kW)).or (JsVal.ofRat 0))).mul
        (JsNum.fin (1 / 10)) }

/-- The value `formattedData`: the returned rows reversed, then formatted. -/
def formattedData (h : Host) (data : List StoreRow) : List HistoryPoint :=
  data.reverse.map (formatRow h)

/-- The function `loadHistoryFromDatabase`, run to completion on the outcome
of its query. -/
def loadHistoryFromDatabase (h : Host) (query : QueryOutcome) (s : State) : State :=
  if !s.deviceId.truthy then s
  else
    match query with
    | QueryOutcome.error => { s with dbConnected := false, loadingHistory := false }
    | QueryOutcome.data (some (r :: rs)) =>
      { s with
          dbConnected := true
          historyData := sliceLast maxHistoryPoints (formattedData h (r :: rs))
          loadingHistory := false }
    | QueryOutcome.data _ => { s with dbConnected := true, loadingHistory := false }
    | QueryOutcome.thrown => { s with dbConnected := false, loadingHistory := false }

end ZeladorDashboard

namespace LegacyDashboard

/-- The handlers of `client.on('connect')`, `client.on('error')` and
`client.on('close')`; of the state only `isConnected` (and the reading and
window, untouched here) exist in this component. -/
def onTransport (e : TransportEvent) (s : State) : State :=
  match e with
  | TransportEvent.connect => { s with isConnected := true }
  | TransportEvent.error => { s with isConnected := false }
  | TransportEvent.close => { s with isConnected := false }

end LegacyDashboard

/-! ## Consumption alerts -/

/-- An alert object built by `checkAlerts` / `checkConsumptionAlerts`. -/
structure ConsumptionAlert where
  type : String
  message : String
  value : JsNum
  limit : JsNum
  timestamp : String
  deriving DecidableEq

/-- The state of the consumption alerts: the two limits, the current
aggregate and cost, the alert list (`alerts`, named `consumptionAlerts` in
`AlertsManagement.jsx`) and the loading flag. -/
structure ConsumptionState where
  gasLimit : JsNum
  costLimit : JsNum
  alerts : List ConsumptionAlert
  currentConsumption : JsNum
  currentCost : JsNum
  loading : Bool
  deriving DecidableEq

/-- The initial values given to `useState`. -/
def ConsumptionState.initial : ConsumptionState :=
  { gasLimit := JsNum.fin 100, costLimit := JsNum.fin 800, alerts := [],
    currentConsumption := JsNum.fin 0, currentCost := JsNum.fin 0, loading := false }

/-- How the awaited consumption query ends: resolved with `data` (the
`potencia_kW` of each returned row, `none` for `null`) and a flag telling
whether `error` is set, or thrown. -/
inductive ConsumptionQuery where
  | resolved (data : Option (List JsVal)) (error : Bool)
  | thrown

namespace ConsumptionAlerts

/-- The constant `GAS_PRICE_PER_M3`. -/
def GAS_PRICE_PER_M3 : ℚ := 8

/-- The value `totalConsumption`: a `reduce` over the returned rows from 0. -/
def totalConsumption (h : Host) (data : List JsVal) : JsNum :=
  data.foldl
    (fun sum item =>
      sum.add ((h.toNumber ((JsVal.num (h.parseFloat item)).or (JsVal.ofRat 0))).mul
        (JsNum.fin (1 / 10))))
    (JsNum.fin 0)

/-- The function `loadCurrentConsumption`, run to completion on the outcome
of its query. -/
def loadCurrentConsumption (h : Host) (deviceId : JsVal) (query : ConsumptionQuery)
    (s : ConsumptionState) : ConsumptionState :=
  if !deviceId.truthy then s
  else
    match query with
    | ConsumptionQuery.resolved (some data) false =>
      { s with
          currentConsumption := totalConsumption h data
          currentCost := (totalConsumption h data).mul (JsNum.fin GAS_PRICE_PER_M3)
          loading := false }
    | _ => { s with loading := false }

/-- The array `newAlerts` built by `checkAlerts` from the aggregate, cost and
limits it reads (those of the render the function was created in). -/
def newAlerts (r : Render) (now : String) (s : ConsumptionState) : List ConsumptionAlert :=
  (if s.currentConsumption.ge s.gasLimit then
      [{ type := "gas"
         message := "⚠️ Consumo de gás ultrapassou o limite: " ++ r.toFixed s.currentConsumption 4
           ++ " m³ (limite: " ++ r.display s.gasLimit ++ " m³)"
         value := s.currentConsumption
         limit := s.gasLimit
         timestamp := now }]
    else []) ++
  (if s.currentCost.ge s.costLimit then
      [{ type := "cost"
         message := "⚠️ Custo ultrapassou o limite: R$ " ++ r.toFixed s.currentCost 2
           ++ " (limite: R$ " ++ r.toFixed s.costLimit 2 ++ ")"
         value := s.currentCost
         limit := s.costLimit
         timestamp := now }]
    else [])

/-- The function `checkAlerts` created in the render whose values are `s`: it
reads that render's aggregate, cost and limits and ends with
`setAlerts(newAlerts)`.  The component calls it only from its interval, see
`ConsumptionAlerts.intervalFires`. -/
def checkAlerts (r : Render) (now : String) (s : ConsumptionState) : ConsumptionState :=
  { s with alerts := newAlerts r now s }

end ConsumptionAlerts

namespace AlertsManagement

/-- The constant `GAS_PRICE_PER_M3`. -/
def GAS_PRICE_PER_M3 : ℚ := 8

/-- The value `totalConsumption`: a `reduce` over the returned rows from 0. -/
def totalConsumption (h : Host) (data : List JsVal) : JsNum :=
  data.foldl
    (fun sum item =>
      sum.add ((h.toNumber ((JsVal.num (h.parseFloat item)).or (JsVal.ofRat 0))).mul
        (JsNum.fin (1 / 10))))
    (JsNum.fin 0)

/-- The function `loadCurrentConsumption`, run to completion on the outcome
of its query. -/
def loadCurrentConsumption (h : Host) (deviceId : JsVal) (query : ConsumptionQuery)
    (s : ConsumptionState) : ConsumptionState :=
  if !deviceId.truthy then s
  else
    match query with
    | ConsumptionQuery.resolved (some data) false =>
      { s with
          currentConsumption := totalConsumption h data
          currentCost := (totalConsumption h data).mul (JsNum.fin GAS_PRICE_PER_M3)
          loading := false }
    | _ => { s with loading := false }

/-- The array `newAlerts` built by `checkConsumptionAlerts` from the
aggregate, cost and limits it reads. -/
def newAlerts (r : Render) (now : String) (s : ConsumptionState) : List ConsumptionAlert :=
  (if s.currentConsumption.ge s.gasLimit then
      [{ type := "gas"
         message := "⚠️ Consumo de gás ultrapassou o limite: " ++ r.toFixed s.currentConsumption 4
           ++ " m³ (limite: " ++ r.display s.gasLimit ++ " m³)"
         value := s.currentConsumption
         limit := s.gasLimit
         timestamp := now }]
    else []) ++
  (if s.currentCost.ge s.costLimit then
      [{ type := "cost"
         message := "⚠️ Custo ultrapassou o limite: R$ " ++ r.toFixed s.currentCost 2
           ++ " (limite: R$ " ++ r.toFixed s.costLimit 2 ++ ")"
         value := s.currentCost
         limit := s.costLimit
         timestamp := now }]
    else [])

/-- The function `checkConsumptionAlerts`: it ends with
`setConsumptionAlerts(newAlerts)`. -/
def checkConsumptionAlerts (r : Render) (now : String) (s : ConsumptionState) :
    ConsumptionState :=
  { s with alerts := newAlerts r now s }

end AlertsManagement

/-! ## Temperature alerts -/

/-- An alert object built by `checkTemperatureAlerts`. -/
structure WeatherAlert where
  type : String
  message : String
  temperature : JsNum
  variation : String
  timestamp : String
  deriving DecidableEq

namespace WeatherAlerts

/-- The alert object pushed by `checkTemperatureAlerts` for the current and
previous temperatures. -/
def temperatureAlert (r : Render) (now : String) (currentTemp previousTemp : JsNum) :
    WeatherAlert :=
  { type := if currentTemp.gt previousTemp then "increase" else "decrease"
    message :=
      if currentTemp.gt previousTemp then
        "⚠️ Aumento significativo de temperatura detectado: "
          ++ r.toFixed (currentTemp.sub previousTemp).abs 1
          ++ "°C. Considere reduzir o setpoint da caldeira."
      else
        "⚠️ Queda significativa de temperatura detectada: "
          ++ r.toFixed (currentTemp.sub previousTemp).abs 1
          ++ "°C. Considere aumentar o setpoint da caldeira."
    temperature := currentTemp
    variation := r.toFixed (currentTemp.sub previousTemp).abs 1
    timestamp := now }

/-- The function `checkTemperatureAlerts(weather)`, run to the end of the
callback of its query: `temperatura` is `weather.temperatura`, `data` the
`temperatura_ambiente` of the rows the query returned (newest first, at most
two, `none` for `null`), `alerts` the alert state before and the result the
alert state after. -/
def checkTemperatureAlerts (h : Host) (r : Render) (now : String)
    (temperatureThreshold temperatura : JsNum) (data : Option (List JsVal))
    (alerts : List WeatherAlert) : List WeatherAlert :=
  match data with
  | some (_ :: previous :: _) =>
    if ((temperatura.sub (h.toNumber previous)).abs).ge temperatureThreshold then
      [temperatureAlert r now temperatura (h.toNumber previous)]
    else alerts
  | _ => alerts

/-- The query of `checkTemperatureAlerts` on the stored samples (newest first):
descending by `reading_time`, limit 2. -/
def recentRows (stored : List JsVal) : List JsVal :=
  stored.take 2

/-- The branch of `loadWeatherData` for a fetched `weather`: first
`checkTemperatureAlerts(weather)`, whose query is issued on the samples stored
so far, then the insert of the new sample. The result is the alert state and
the stored samples (newest first). -/
def onWeather (h : Host) (r : Render) (now : String) (temperatureThreshold temperatura : JsNum)
    (stored : List JsVal) (alerts : List WeatherAlert) : List WeatherAlert × List JsVal :=
  (checkTemperatureAlerts h r now temperatureThreshold temperatura (some (recentRows stored))
      alerts,
    JsVal.num temperatura :: stored)

end WeatherAlerts

namespace AlertsManagement

/-- The alert object pushed by `checkTemperatureAlerts` for the current and
previous temperatures. -/
def temperatureAlert (r : Render) (now : String) (currentTemp previousTemp : JsNum) :
    WeatherAlert :=
  { type := if currentTemp.gt previousTemp then "increase" else "decrease"
    message :=
      if currentTemp.gt previousTemp then
        "⚠️ Aumento significativo de temperatura detectado: "
          ++ r.toFixed (currentTemp.sub previousTemp).abs 1
          ++ "°C. Considere reduzir o setpoint da caldeira."
      else
        "⚠️ Queda significativa de temperatura detectada: "
          ++ r.toFixed (currentTemp.sub previousTemp).abs 1
          ++ "°C. Considere aumentar o setpoint da caldeira."
    temperature := currentTemp
    variation := r.toFixed (currentTemp.sub previousTemp).abs 1
    timestamp := now }

/-- The function `checkTemperatureAlerts(weather)`, run to the end of the
callback of its query, on the alert state `weatherAlerts`. -/
def checkTemperatureAlerts (h : Host) (r : Render) (now : String)
    (temperatureThreshold temperatura : JsNum) (data : Option (List JsVal))
    (weatherAlerts : List WeatherAlert) : List WeatherAlert :=
  match data with
  | some (_ :: previous :: _) =>
    if ((temperatura.sub (h.toNumber previous)).abs).ge temperatureThreshold then
      [temperatureAlert r now temperatura (h.toNumber previous)]
    else weatherAlerts
  | _ => weatherAlerts

end AlertsManagement

/-! ## Further reference values used in the statements -/

/-- A number rendering that gives the empty text, used to evaluate the alert
functions where the message does not matter. -/
def plainRender : Render :=
  { toFixed := fun _ _ => ""
    display := fun _ => "" }

/-- The state of a component after the transport events `es`, from `s`. -/
def runTransport (step : TransportEvent → State → State) (es : List TransportEvent)
    (s : State) : State :=
  es.foldl (fun st e => step e st) s

/-- An alert of type `'increase'` left by an earlier evaluation. -/
def staleIncrease : WeatherAlert :=
  { type := "increase", message := "", temperature := JsNum.fin 30, variation := "10.0",
    timestamp := "" }

/-- A returned row with the given `reading_time`, the other columns `null`. -/
def rowAt (reading_time : ℚ) : StoreRow :=
  { reading_time := JsVal.ofRat reading_time, temp_ida := JsVal.null,
    temp_retorno := JsVal.null, deltaT := JsVal.null, vazao_L_s := JsVal.null,
    potencia_kW := JsVal.null, energia_kWh := JsVal.null }

/-- A host whose `getTime` reads a numeric `reading_time` as its own value
(a time given in milliseconds), the other conversions as in `numericHost`. -/
def epochHost : Host :=
  { stringToNumber := fun _ => JsNum.nan
    parseFloatString := fun _ => JsNum.nan
    toLocaleTimeString := fun _ => ""
    getTime := fun v =>
      match v with
      | JsVal.num x => x
      | _ => JsNum.nan }

/-- The timestamp of a window point, `NaN` when the point has none. -/
def stampOf (p : HistoryPoint) : JsNum :=
  p.timestamp.getD JsNum.nan

/-- A decoded message is malformed when `JSON.parse` throws on it. -/
def Decoded.isMalformed : Decoded → Bool
  | Decoded.malformed => true
  | _ => false


/-! ## Device selection, loads in flight and the listener closure -/

namespace Dashboard

/-- The call `setDeviceId(id)` made when a device is selected. -/
def selectDevice (id : JsVal) (s : State) : State :=
  { s with deviceId := id }

/-- The part of `loadHistoryFromDatabase` before its awaited query, for a
selected device: `setLoadingHistory(true)`. -/
def startLoad (s : State) : State :=
  { s with loadingHistory := true }

/-- The part of `loadHistoryFromDatabase` after its awaited query: it runs when
the query ends, on the state of that moment, with the outcome of the query; it
reads no state. -/
def completeLoad (h : Host) (query : QueryOutcome) (s : State) : State :=
  match query with
  | QueryOutcome.error => { s with dbConnected := false, loadingHistory := false }
  | QueryOutcome.data (some (r :: rs)) =>
    { s with
        dbConnected := true
        historyData := sliceLast maxHistoryPoints (formattedData h (r :: rs))
        loadingHistory := false }
  | QueryOutcome.data _ => { s with dbConnected := true, loadingHistory := false }
  | QueryOutcome.thrown => { s with dbConnected := false, loadingHistory := false }

/-- The effect on `[userInfo, deviceId]` after the device `id` is selected, with
its history load run to completion on the outcome `query`. -/
def switchDevice (h : Host) (id : JsVal) (query : QueryOutcome) (s : State) : State :=
  loadHistoryFromDatabase h query (selectDevice id s)

/-- The `deviceId` read by the `saveToDatabase` that the message handler calls.
The handler is registered once, by the effect with the empty dependency list
that runs after the first render; it calls the `saveToDatabase` of that render,
whose `deviceId` is the initial value given to `useState`. -/
def listenerDeviceId : JsVal :=
  State.initial.deviceId

/-- The row submitted for a decoded message handled in the state `s`: the
handler passes `processedData` to the `saveToDatabase` it closed over. -/
def submittedRow (_s : State) (data : JsObject) : InsertRow :=
  insertRow listenerDeviceId (processedData data)

/-- The state after the write started for `data` has ended with the insert
outcomes `outcome`: `saveToDatabase` calls no setter but `setDbConnected`. -/
def applySave (outcome : Nat → InsertOutcome) (data : SensorData) (retries : Nat)
    (s : State) : State :=
  { s with
      dbConnected :=
        (saveToDatabase outcome listenerDeviceId data retries
          (WriterState.start s.dbConnected)).dbConnected }

end Dashboard

/-- The row the store returns for a submitted row: the same six columns, with
the `reading_time` the store gave it. -/
def rowAsStored (reading_time : JsVal) (row : InsertRow) : StoreRow :=
  { reading_time := reading_time
    temp_ida := row.temp_ida
    temp_retorno := row.temp_retorno
    deltaT := row.deltaT
    vazao_L_s := row.vazao_L_s
    potencia_kW := row.potencia_kW
    energia_kWh := row.energia_kWh }

/-- A reading has its six fields finite numbers. -/
def SensorData.allFinite (p : SensorData) : Bool :=
  p.temp_ida.isFiniteNumber && p.temp_retorno.isFiniteNumber && p.deltaT.isFiniteNumber &&
    p.vazao_L_s.isFiniteNumber && p.potencia_kW.isFiniteNumber && p.energia_kWh.isFiniteNumber

/-- A window point carries the sentinel -127 in one of its temperatures. -/
def hasSentinel (p : HistoryPoint) : Bool :=
  decide (p.temp_ida = JsVal.ofRat (-127)) || decide (p.temp_retorno = JsVal.ofRat (-127))

/-- A returned row with the given `temp_ida`, the other columns `null`. -/
def rowWithTempIda (temp_ida : ℚ) : StoreRow :=
  { reading_time := JsVal.null, temp_ida := JsVal.ofRat temp_ida, temp_retorno := JsVal.null,
    deltaT := JsVal.null, vazao_L_s := JsVal.null, potencia_kW := JsVal.null,
    energia_kWh := JsVal.null }

/-! ## `src/services/weatherService.js` and `loadWeatherData` -/

/-- The fields of the weather response that `fetchCurrentWeather` reads:
`main.temp`, `main.humidity`, `main.pressure`, `wind?.speed` and
`weather[0]?.description`. -/
structure WeatherBody where
  temp : JsNum
  humidity : JsVal
  pressure : JsVal
  windSpeed : JsVal
  description : JsVal
  deriving DecidableEq

/-- The object returned by `fetchCurrentWeather`. -/
structure Weather where
  temperatura : JsNum
  umidade : JsVal
  pressao : JsVal
  velocidade_vento : JsVal
  descricao : JsVal
  deriving DecidableEq

/-- The object returned by `getCoordinatesFromAddress`. -/
structure Coords where
  lat : JsVal
  lon : JsVal
  deriving DecidableEq

/-- How an awaited `fetch` and the reading of its body end: thrown, or a
response with its `ok` flag and its decoded body (`none` when decoding the body
or reading the fields throws). -/
inductive FetchOutcome (β : Type) where
  | thrown
  | response (ok : Bool) (body : Option β)

namespace WeatherService

/-- The function `fetchCurrentWeather`, run to completion on the outcome of its
`fetch`; `apiKey` is the constant `WEATHER_API_KEY`. -/
def fetchCurrentWeather (apiKey : String) (fetch : FetchOutcome WeatherBody) : Option Weather :=
  if apiKey = "" then none
  else
    match fetch with
    | FetchOutcome.thrown => none
    | FetchOutcome.response false _ => none
    | FetchOutcome.response true none => none
    | FetchOutcome.response true (some data) =>
      some
        { temperatura := data.temp
          umidade := data.humidity
          pressao := data.pressure
          velocidade_vento := data.windSpeed.or (JsVal.ofRat 0)
          descricao := data.description.or (JsVal.str "") }

/-- The function `getCoordinatesFromAddress`, run to completion on the outcome
of its `fetch`, whose body is the decoded array of matches. -/
def getCoordinatesFromAddress (apiKey : String) (fetch : FetchOutcome (List Coords)) :
    Option Coords :=
  if apiKey = "" then none
  else
    match fetch with
    | FetchOutcome.thrown => none
    | FetchOutcome.response false _ => none
    | FetchOutcome.response true none => none
    | FetchOutcome.response true (some []) => none
    | FetchOutcome.response true (some (first :: _)) => some { lat := first.lat, lon := first.lon }

end WeatherService

/-- What `loadWeatherData` does outside the component state, in order. -/
inductive WeatherEffect where
  | queryAddress
  | geocode
  | fetchWeather
  | checkTemperature
  | insertSample (temperatura : JsNum)
  deriving DecidableEq

/-- The state around `loadWeatherData`: the component state (`weatherData`,
`alerts`, `loading`, `temperatureThreshold`), the stored ambient samples
(newest first) and the effects performed so far. -/
structure WeatherState where
  weatherData : Option Weather
  alerts : List WeatherAlert
  loading : Bool
  temperatureThreshold : JsNum
  stored : List JsVal
  effects : List WeatherEffect
  deriving DecidableEq

/-- The initial values given to `useState`, with the given stored samples. -/
def WeatherState.initial (stored : List JsVal) : WeatherState :=
  { weatherData := none, alerts := [], loading := false,
    temperatureThreshold := JsNum.fin 5, stored := stored, effects := [] }

/-- How the awaited query of the condominium address ends: thrown, or resolved
with `condominioData?.endereco`. -/
inductive AddressOutcome where
  | thrown
  | endereco (value : JsVal)

namespace WeatherAlerts

/-- The function `loadWeatherData`, run to completion: `condominio_id` is
`userInfo?.condominio_id`, `address` the outcome of the address query,
`geo` and `current` the outcomes of the two fetches, `insertThrows` tells
whether the awaited insert throws. -/
def loadWeatherData (h : Host) (r : Render) (now : String) (apiKey : String)
    (condominio_id : JsVal) (address : AddressOutcome) (geo : FetchOutcome (List Coords))
    (current : FetchOutcome WeatherBody) (insertThrows : Bool) (s : WeatherState) :
    WeatherState :=
  if !condominio_id.truthy then s
  else
    match address with
    | AddressOutcome.thrown =>
      { s with loading := false, effects := s.effects ++ [WeatherEffect.queryAddress] }
    | AddressOutcome.endereco value =>
      if !value.truthy then
        { s with loading := false, effects := s.effects ++ [WeatherEffect.queryAddress] }
      else
        match WeatherService.getCoordinatesFromAddress apiKey geo with
        | none =>
          { s with
              loading := false
              effects := s.effects ++ [WeatherEffect.queryAddress, WeatherEffect.geocode] }
        | some _ =>
          match WeatherService.fetchCurrentWeather apiKey current with
          | none =>
            { s with
                loading := false
                effects := s.effects ++
                  [WeatherEffect.queryAddress, WeatherEffect.geocode,
                    WeatherEffect.fetchWeather] }
          | some weather =>
            { s with
                weatherData := some weather
                alerts :=
                  (onWeather h r now s.temperatureThreshold weather.temperatura s.stored
                    s.alerts).1
                loading := false
                stored :=
                  if insertThrows then s.stored
                  else
                    (onWeather h r now s.temperatureThreshold weather.temperatura s.stored
                      s.alerts).2
                effects := s.effects ++
                  [WeatherEffect.queryAddress, WeatherEffect.geocode,
                    WeatherEffect.fetchWeather, WeatherEffect.checkTemperature,
                    WeatherEffect.insertSample weather.temperatura] }

end WeatherAlerts

/-! ## The alert interval of `ConsumptionAlerts.jsx` -/

/-- The mounted component `ConsumptionAlerts` with a device selected: its
state, and the values of the render whose `checkAlerts` the running interval
calls.  The interval is set by `setInterval(checkAlerts, 60000)` in an effect
with the dependencies `[deviceId, gasLimit, costLimit]`, so it is set again
only when one of these changes. -/
structure MountedAlerts where
  state : ConsumptionState
  registered : ConsumptionState
  deriving DecidableEq

namespace ConsumptionAlerts

/-- The first render with a device: the effect sets the interval with the
`checkAlerts` of that render, whose values are the initial ones. -/
def mount : MountedAlerts :=
  { state := ConsumptionState.initial, registered := ConsumptionState.initial }

/-- The completion of `loadCurrentConsumption`: the state changes, and as no
dependency of the interval effect does, the interval stays as it was set. -/
def completeLoad (h : Host) (deviceId : JsVal) (query : ConsumptionQuery)
    (m : MountedAlerts) : MountedAlerts :=
  { m with state := loadCurrentConsumption h deviceId query m.state }

/-- The user edits the limits (`setGasLimit`, `setCostLimit`): when a limit
changes, the effect runs again and sets the interval with the `checkAlerts` of
the new render. -/
def editLimits (gasLimit costLimit : JsNum) (m : MountedAlerts) : MountedAlerts :=
  if gasLimit = m.state.gasLimit ∧ costLimit = m.state.costLimit then m
  else
    { state := { m.state with gasLimit := gasLimit, costLimit := costLimit }
      registered := { m.state with gasLimit := gasLimit, costLimit := costLimit } }

/-- The interval fires: the `checkAlerts` it was set with runs, and its
`setAlerts(newAlerts)` replaces the alerts of the state. -/
def intervalFires (r : Render) (now : String) (m : MountedAlerts) : MountedAlerts :=
  { m with state := { m.state with alerts := (checkAlerts r now m.registered).alerts } }

end ConsumptionAlerts

/-! ## Threshold limits in the durable store -/

/-- A row of `configuracao_sistema`, as far as the limits go: its `id` and the
two limit columns, which hold `null` (`none`) or a number. -/
structure LimitsRow where
  id : Nat
  limite_consumo_gas : Option JsNum
  limite_custo : Option JsNum
  deriving DecidableEq

/-- Modelled from the spec: the table `configuracao_sistema` of the durable
store, which is not part of the repository.  Its rows are scoped per
`(condominio_id, device_id)`, the conflict key on which `SystemConfig.jsx`
upserts into it, so the table is given by the row it holds for each pair, if
any. -/
def LimitsTable : Type := JsVal → JsVal → Option LimitsRow

/-- The table without rows. -/
def LimitsTable.empty : LimitsTable := fun _ _ => none

/-- Modelled from the spec: the read contract of the durable store for
`.eq('condominio_id', c).eq('device_id', d).single()`: the row of that pair, or
no data when there is none. -/
def singleRow (table : LimitsTable) (condominio_id device_id : JsVal) : Option LimitsRow :=
  table condominio_id device_id

/-- Modelled from the spec: the write contract of the durable store for
`.update({...}).eq('id', id)`: the two limits of the rows with that `id` are
replaced. -/
def updateLimits (table : LimitsTable) (id : Nat) (gasLimit costLimit : JsNum) : LimitsTable :=
  fun c d =>
    (table c d).map (fun row =>
      if row.id = id then
        { row with limite_consumo_gas := some gasLimit, limite_custo := some costLimit }
      else row)

/-- Modelled from the spec: the write contract of the durable store for
`.insert({...})`: the row of the pair is created, with the `id` the store
gives it. -/
def insertLimits (table : LimitsTable) (newId : Nat) (condominio_id device_id : JsVal)
    (gasLimit costLimit : JsNum) : LimitsTable :=
  fun c d =>
    if c = condominio_id ∧ d = device_id then
      some { id := newId, limite_consumo_gas := some gasLimit, limite_custo := some costLimit }
    else table c d

namespace AlertsManagement

/-- The function `saveLimits`, run to completion on the table, all requests
being served; `newId` is the `id` the store gives to a row it inserts. -/
def saveLimits (condominio_id deviceId : JsVal) (gasLimit costLimit : JsNum) (newId : Nat)
    (table : LimitsTable) : LimitsTable :=
  if !condominio_id.truthy || !deviceId.truthy then table
  else
    match singleRow table condominio_id deviceId with
    | some existing => updateLimits table existing.id gasLimit costLimit
    | none => insertLimits table newId condominio_id deviceId gasLimit costLimit

/-- The effect that saves the limits when they change: it calls `saveLimits`
under its guard (`deviceId`, `userInfo`, the consumption section being active
and `limitsLoaded` are taken as given; `gasLimit || costLimit` is tested). -/
def saveLimitsEffect (condominio_id deviceId : JsVal) (gasLimit costLimit : JsNum)
    (newId : Nat) (table : LimitsTable) : LimitsTable :=
  if ((JsVal.num gasLimit).or (JsVal.num costLimit)).truthy then
    saveLimits condominio_id deviceId gasLimit costLimit newId table
  else table

/-- The function `loadLimits`, run to completion on the table, the request
being served: the limits of the state afterwards. -/
def loadLimits (condominio_id deviceId : JsVal) (table : LimitsTable)
    (s : ConsumptionState) : ConsumptionState :=
  if !condominio_id.truthy || !deviceId.truthy then s
  else
    match singleRow table condominio_id deviceId with
    | some data =>
      { s with
          gasLimit :=
            match data.limite_consumo_gas with
            | some x => if (JsVal.num x).truthy then x else s.gasLimit
            | none => s.gasLimit
          costLimit :=
            match data.limite_custo with
            | some x => if (JsVal.num x).truthy then x else s.costLimit
            | none => s.costLimit }
    | none => s

end AlertsManagement

/-! ## Further reference states used in the statements -/

/-- A session with the device `"caldeira-01"` selected whose window holds one
live point, appended at `"12:00:00"` with flow rate 1. -/
def sessionWithLivePoint : State :=
  { sessionWithDevice with historyData := [pointWithFlow "12:00:00" 1] }

/-- The window points of the returned rows `rows`: the 50 most recent, oldest
first, formatted. -/
def loadedPoints (h : Host) (rows : List StoreRow) : List HistoryPoint :=
  ((rows.take 50).reverse).map (Dashboard.formatRow h)

/-- A session with device `"A"` selected whose window holds the point loaded
from one row of device `"A"` (flow rate 1). -/
def sessionOfDeviceA : State :=
  { State.initial with
      deviceId := JsVal.str "A"
      historyData := loadedPoints numericHost [rowWithFlow 1] }

/-- A value is a number (`NaN` included). -/
def JsVal.isNumber : JsVal → Bool
  | JsVal.num _ => true
  | _ => false

/-- The row the store holds for the message `data` handled by the pipeline with
the device `deviceId`, read back with the `reading_time` it was given. -/
def persistedRow (reading_time deviceId : JsVal) (data : JsObject) : StoreRow :=
  rowAsStored reading_time (Dashboard.insertRow deviceId (Dashboard.processedData data))

/-- The two temperature fields of a decoded message are numbers or absent. -/
def temperaturesNumeric (data : JsObject) : Bool :=
  ((getProp data "temp_ida").isNumber || decide (getProp data "temp_ida" = JsVal.undefined)) &&
    ((getProp data "temp_retorno").isNumber ||
      decide (getProp data "temp_retorno" = JsVal.undefined))

/-! ## Reference quantities for the cumulative flow -/

/-- Modelled from the spec: the cumulative flow recomputed directly from
returned rows (newest first): the sum from 0, oldest row first, of
`(parseFloat(vazao_L_s) || 0) * 5` in the arithmetic of the language. -/
def recomputedFlow (h : Host) (rows : List StoreRow) : JsNum :=
  rows.reverse.foldl
    (fun total row =>
      total.add
        ((h.toNumber ((JsVal.num (h.parseFloat row.vazao_L_s)).or (JsVal.ofRat 0))).mul
          (JsNum.fin 5)))
    (JsNum.fin 0)

/-- The flow rate of a window point is a natural number. -/
def naturalFlow (p : HistoryPoint) : Bool :=
  match p.vazao with
  | JsVal.num (JsNum.fin q) => decide (0 ≤ q) && decide (q.den = 1)
  | _ => false

/-- The flow rate of a returned row is a natural number. -/
def naturalRow (r : StoreRow) : Bool :=
  match r.vazao_L_s with
  | JsVal.num (JsNum.fin q) => decide (0 ≤ q) && decide (q.den = 1)
  | _ => false

/-- The bound below which sums and products of natural numbers are exact in the
arithmetic of the language (`2 ^ 53`). -/
def exactBound : ℚ := 9007199254740992

/-- A live point whose flow rate is the text `"abc"`, as appended for a message
with `"vazao_L_s":"abc"`, the other values 0. -/
def pointWithTextFlow : HistoryPoint :=
  { pointWithFlow "" 0 with vazao := JsVal.str "abc" }

/-- A full window: the point with the text flow rate, then 49 points of flow
rate 1. -/
def windowWithTextFlow : List HistoryPoint :=
  pointWithTextFlow :: List.replicate 49 (pointWithFlow "" 1)

/-- The mounted component `ConsumptionAlerts` after its load returned the one
row `potencia_kW = p` for the device `"caldeira-01"`. -/
def mountedAfterLoad (p : ℚ) : MountedAlerts :=
  ConsumptionAlerts.completeLoad numericHost (JsVal.str "caldeira-01")
    (ConsumptionQuery.resolved (some [JsVal.ofRat p]) false) ConsumptionAlerts.mount

/-- The state of `AlertsManagement` after its load returned the one row
`potencia_kW = p` for the device `"caldeira-01"`. -/
def managementAfterLoad (p : ℚ) : ConsumptionState :=
  AlertsManagement.loadCurrentConsumption numericHost (JsVal.str "caldeira-01")
    (ConsumptionQuery.resolved (some [JsVal.ofRat p]) false) ConsumptionState.initial

/-! # Theorems -/

/-! ## Basic facts about values -/

theorem JsVal.strictEq_ofRat_iff (v : JsVal) (q : ℚ) :
    v.strictEq (JsVal.ofRat q) = true ↔ v = JsVal.ofRat q := by
  cases v with
  | num x => cases x <;> simp [JsVal.strictEq, JsVal.ofRat]
  | _ => simp [JsVal.strictEq, JsVal.ofRat]

theorem JsVal.strictEq_num_ne (x : JsNum) (q : ℚ) (hx : x ≠ JsNum.fin q) :
    (JsVal.num x).strictEq (JsVal.ofRat q) = false := by
  cases x with
  | fin a =>
    have : a ≠ q := fun e => hx (by rw [e])
    simp [JsVal.strictEq, JsVal.ofRat, this]
  | nan => simp [JsVal.strictEq, JsVal.ofRat]

theorem JsVal.or_undefined (b : JsVal) : JsVal.undefined.or b = b := by
  simp [JsVal.or, JsVal.truthy]

theorem JsVal.or_isFiniteNumber (a : JsVal) (q : ℚ)
    (ha : a = JsVal.undefined ∨ a.isFiniteNumber = true) :
    (a.or (JsVal.ofRat q)).isFiniteNumber = true := by
  rcases ha with ha | ha
  · subst ha
    simp [JsVal.or, JsVal.truthy, JsVal.ofRat, JsVal.isFiniteNumber, JsNum.isFinite]
  · unfold JsVal.or
    split
    · exact ha
    · simp [JsVal.ofRat, JsVal.isFiniteNumber, JsNum.isFinite]

/-! ## The normaliser -/

/-- C1: in each of the three dashboards, a decoded message whose `temp_ida`
(respectively `temp_retorno`) is the number -127 gets that field 0 in
`processedData`, and any other number in that field is passed through
unchanged. -/
theorem processedData_sentinel (data : JsObject) :
    (getProp data "temp_ida" = JsVal.ofRat (-127) →
      (Dashboard.processedData data).temp_ida = JsVal.ofRat 0 ∧
      (ZeladorDashboard.processedData data).temp_ida = JsVal.ofRat 0 ∧
      (LegacyDashboard.processedData data).temp_ida = JsVal.ofRat 0) ∧
    (getProp data "temp_retorno" = JsVal.ofRat (-127) →
      (Dashboard.processedData data).temp_retorno = JsVal.ofRat 0 ∧
      (ZeladorDashboard.processedData data).temp_retorno = JsVal.ofRat 0 ∧
      (LegacyDashboard.processedData data).temp_retorno = JsVal.ofRat 0) ∧
    (∀ x : JsNum, getProp data "temp_ida" = JsVal.num x → x ≠ JsNum.fin (-127) →
      (Dashboard.processedData data).temp_ida = JsVal.num x ∧
      (ZeladorDashboard.processedData data).temp_ida = JsVal.num x ∧
      (LegacyDashboard.processedData data).temp_ida = JsVal.num x) ∧
    (∀ x : JsNum, getProp data "temp_retorno" = JsVal.num x → x ≠ JsNum.fin (-127) →
      (Dashboard.processedData data).temp_retorno = JsVal.num x ∧
      (ZeladorDashboard.processedData data).temp_retorno = JsVal.num x ∧
      (LegacyDashboard.processedData data).temp_retorno = JsVal.num x) := by
  refine ⟨fun h => ?_, fun h => ?_, fun x h hx => ?_, fun x h hx => ?_⟩
  · simp [Dashboard.processedData, ZeladorDashboard.processedData,
      LegacyDashboard.processedData, h, JsVal.strictEq_ofRat_iff]
  · simp [Dashboard.processedData, ZeladorDashboard.processedData,
      LegacyDashboard.processedData, h, JsVal.strictEq_ofRat_iff]
  · simp [Dashboard.processedData, ZeladorDashboard.processedData,
      LegacyDashboard.processedData, h, JsVal.strictEq_num_ne x (-127) hx]
  · simp [Dashboard.processedData, ZeladorDashboard.processedData,
      LegacyDashboard.processedData, h, JsVal.strictEq_num_ne x (-127) hx]

/-- Witness of C1 on the message `{temp_ida: -127, temp_retorno: 40}`: the
sentinel in `temp_ida` becomes 0 and the 40 in `temp_retorno` is kept. -/
theorem processedData_sentinel_witness :
    getProp [("temp_ida", JsVal.ofRat (-127)), ("temp_retorno", JsVal.ofRat 40)] "temp_ida"
      = JsVal.ofRat (-127) ∧
    (Dashboard.processedData
      [("temp_ida", JsVal.ofRat (-127)), ("temp_retorno", JsVal.ofRat 40)]).temp_ida
      = JsVal.ofRat 0 ∧
    (Dashboard.processedData
      [("temp_ida", JsVal.ofRat (-127)), ("temp_retorno", JsVal.ofRat 40)]).temp_retorno
      = JsVal.num (JsNum.fin 40) :=
  ⟨by decide,
    ((processedData_sentinel
      [("temp_ida", JsVal.ofRat (-127)), ("temp_retorno", JsVal.ofRat 40)]).1 (by decide)).1,
    ((processedData_sentinel
      [("temp_ida", JsVal.ofRat (-127)), ("temp_retorno", JsVal.ofRat 40)]).2.2.2
        (JsNum.fin 40) (by decide) (by decide)).1⟩

/-- C2 (as stated, refuted): the message
`{temp_ida: 60, temp_retorno: 40, deltaT: "abc"}` decodes to an object, yet the
`deltaT` of its normalised reading is the string `"abc"`, not a finite number. -/
theorem processedData_not_always_finite :
    (Dashboard.processedData
      [("temp_ida", JsVal.ofRat 60), ("temp_retorno", JsVal.ofRat 40),
        ("deltaT", JsVal.str "abc")]).deltaT = JsVal.str "abc" ∧
    (Dashboard.processedData
      [("temp_ida", JsVal.ofRat 60), ("temp_retorno", JsVal.ofRat 40),
        ("deltaT", JsVal.str "abc")]).deltaT.isFiniteNumber = false := by
  decide

/-- C2 (amended): when each of `deltaT`, `vazao_L_s`, `potencia_kW` and
`energia_kWh` is absent from the decoded message or a finite number, those four
fields of the normalised reading are finite numbers, a missing one being 0;
and `temp_ida`, `temp_retorno` are finite numbers whenever the message holds
them as finite numbers. -/
theorem processedData_numeric_fields (data : JsObject)
    (hd : getProp data "deltaT" = JsVal.undefined ∨
      (getProp data "deltaT").isFiniteNumber = true)
    (hv : getProp data "vazao_L_s" = JsVal.undefined ∨
      (getProp data "vazao_L_s").isFiniteNumber = true)
    (hp : getProp data "potencia_kW" = JsVal.undefined ∨
      (getProp data "potencia_kW").isFiniteNumber = true)
    (he : getProp data "energia_kWh" = JsVal.undefined ∨
      (getProp data "energia_kWh").isFiniteNumber = true) :
    ((Dashboard.processedData data).deltaT.isFiniteNumber = true ∧
      (Dashboard.processedData data).vazao_L_s.isFiniteNumber = true ∧
      (Dashboard.processedData data).potencia_kW.isFiniteNumber = true ∧
      (Dashboard.processedData data).energia_kWh.isFiniteNumber = true) ∧
    ((getProp data "deltaT" = JsVal.undefined →
        (Dashboard.processedData data).deltaT = JsVal.ofRat 0) ∧
      (getProp data "vazao_L_s" = JsVal.undefined →
        (Dashboard.processedData data).vazao_L_s = JsVal.ofRat 0) ∧
      (getProp data "potencia_kW" = JsVal.undefined →
        (Dashboard.processedData data).potencia_kW = JsVal.ofRat 0) ∧
      (getProp data "energia_kWh" = JsVal.undefined →
        (Dashboard.processedData data).energia_kWh = JsVal.ofRat 0)) ∧
    ((getProp data "temp_ida").isFiniteNumber = true →
        (Dashboard.processedData data).temp_ida.isFiniteNumber = true) ∧
    ((getProp data "temp_retorno").isFiniteNumber = true →
        (Dashboard.processedData data).temp_retorno.isFiniteNumber = true) := by
  refine ⟨⟨?_, ?_, ?_, ?_⟩, ⟨?_, ?_, ?_, ?_⟩, ?_, ?_⟩
  · exact JsVal.or_isFiniteNumber _ 0 hd
  · exact JsVal.or_isFiniteNumber _ 0 hv
  · exact JsVal.or_isFiniteNumber _ 0 hp
  · exact JsVal.or_isFiniteNumber _ 0 he
  · intro h; simp [Dashboard.processedData, h, JsVal.or_undefined]
  · intro h; simp [Dashboard.processedData, h, JsVal.or_undefined]
  · intro h; simp [Dashboard.processedData, h, JsVal.or_undefined]
  · intro h; simp [Dashboard.processedData, h, JsVal.or_undefined]
  · intro h
    simp only [Dashboard.processedData]
    split
    · simp [JsVal.ofRat, JsVal.isFiniteNumber, JsNum.isFinite]
    · exact h
  · intro h
    simp only [Dashboard.processedData]
    split
    · simp [JsVal.ofRat, JsVal.isFiniteNumber, JsNum.isFinite]
    · exact h

/-- Witness of amended C2 on the message `{temp_ida: 60, vazao_L_s: 0.5}`:
the absent `deltaT` becomes 0 and the four defaulted fields are finite. -/
theorem processedData_numeric_fields_witness :
    (Dashboard.processedData
      [("temp_ida", JsVal.ofRat 60), ("vazao_L_s", JsVal.ofRat (1 / 2))]).deltaT
      = JsVal.ofRat 0 ∧
    (Dashboard.processedData
      [("temp_ida", JsVal.ofRat 60), ("vazao_L_s", JsVal.ofRat (1 / 2))]).vazao_L_s.isFiniteNumber
      = true :=
  ⟨(processedData_numeric_fields
      [("temp_ida", JsVal.ofRat 60), ("vazao_L_s", JsVal.ofRat (1 / 2))]
      (Or.inl (by decide)) (Or.inr (by decide)) (Or.inl (by decide)) (Or.inl (by decide))).2.1.1
      (by decide),
    (processedData_numeric_fields
      [("temp_ida", JsVal.ofRat 60), ("vazao_L_s", JsVal.ofRat (1 / 2))]
      (Or.inl (by decide)) (Or.inr (by decide)) (Or.inl (by decide)) (Or.inl (by decide))).1.2.1⟩

/-! ## The rolling window -/

theorem sliceLast_length {α : Type} (n : Nat) (xs : List α) :
    (sliceLast n xs).length = min n xs.length := by
  simp [sliceLast]; omega

theorem sliceLast_of_length_le {α : Type} (n : Nat) (xs : List α) (h : xs.length ≤ n) :
    sliceLast n xs = xs := by
  simp [sliceLast, Nat.sub_eq_zero_of_le h]

theorem sliceLast_append_sliceLast {α : Type} (n : Nat) (xs ys : List α) :
    sliceLast n (sliceLast n xs ++ ys) = sliceLast n (xs ++ ys) := by
  unfold sliceLast
  have hk : xs.length - n ≤ xs.length := Nat.sub_le _ _
  have h1 : List.drop (xs.length - n) (xs ++ ys) = List.drop (xs.length - n) xs ++ ys :=
    List.drop_append_of_le_length hk
  have h2 : (xs ++ ys).length - n
      = (xs.length - n) + ((List.drop (xs.length - n) xs ++ ys).length - n) := by
    simp only [List.length_append, List.length_drop]; omega
  rw [h2, ← List.drop_drop, h1]

theorem sliceLast_getLast {α : Type} (n : Nat) (hn : 0 < n) (xs : List α) (a : α) :
    (sliceLast n (xs ++ [a])).getLast? = some a := by
  unfold sliceLast
  have hk : (xs ++ [a]).length - n ≤ xs.length := by simp; omega
  rw [List.drop_append_of_le_length hk]
  simp

theorem sliceLast_reverse {α : Type} (n : Nat) (xs : List α) :
    sliceLast n xs.reverse = (xs.take n).reverse := by
  unfold sliceLast
  rw [List.length_reverse, List.reverse_take]

theorem foldl_appendPoint (w rs : List HistoryPoint)
    (hw : w.length ≤ Dashboard.maxHistoryPoints) :
    rs.foldl Dashboard.appendPoint w = sliceLast Dashboard.maxHistoryPoints (w ++ rs) := by
  induction rs generalizing w with
  | nil => simp [sliceLast_of_length_le _ _ hw]
  | cons r rs ih =>
    have hlen : (Dashboard.appendPoint w r).length ≤ Dashboard.maxHistoryPoints := by
      simp [Dashboard.appendPoint, sliceLast_length]
    rw [List.foldl_cons, ih _ hlen, Dashboard.appendPoint, sliceLast_append_sliceLast]
    simp

/-- C3: the handler appends, as last point of the window, the history point
of the normalised reading; its `gas` is the product `potencia_kW * 0.1` and its
other five values are copies of the reading's; the gas is 0 for a message
without `potencia_kW` and does not decrease when the power grows; for the
scenario message the appended point has 0, 40, 5, 0.5, 10, 2 and gas 1. -/
theorem historyPoint_gas_and_copies (h : Host) (timestamp : String) (data : JsObject)
    (s : State) (p : SensorData) :
    (Dashboard.onMessage h timestamp (Decoded.value data) s).1.historyData.getLast?
      = some (Dashboard.historyPoint h timestamp (Dashboard.processedData data)) ∧
    ((Dashboard.historyPoint h timestamp p).gas
        = (h.toNumber p.potencia_kW).mul (JsNum.fin (1 / 10)) ∧
      (Dashboard.historyPoint h timestamp p).temp_ida = p.temp_ida ∧
      (Dashboard.historyPoint h timestamp p).temp_retorno = p.temp_retorno ∧
      (Dashboard.historyPoint h timestamp p).deltaT = p.deltaT ∧
      (Dashboard.historyPoint h timestamp p).vazao = p.vazao_L_s ∧
      (Dashboard.historyPoint h timestamp p).potencia = p.potencia_kW ∧
      (Dashboard.historyPoint h timestamp p).energia = p.energia_kWh) ∧
    (getProp data "potencia_kW" = JsVal.undefined →
      (Dashboard.historyPoint h timestamp (Dashboard.processedData data)).gas = JsNum.fin 0) ∧
    (∀ a b : ℚ, a ≤ b →
      JsNum.le (Dashboard.historyPoint h timestamp { p with potencia_kW := JsVal.ofRat a }).gas
        (Dashboard.historyPoint h timestamp { p with potencia_kW := JsVal.ofRat b }).gas) ∧
    (Dashboard.onMessage h timestamp (Decoded.value scenarioMessage) s).1.historyData.getLast?
      = some { time := timestamp, timestamp := none, temp_ida := JsVal.ofRat 0,
               temp_retorno := JsVal.ofRat 40, deltaT := JsVal.ofRat 5,
               vazao := JsVal.ofRat (1 / 2), potencia := JsVal.ofRat 10,
               energia := JsVal.ofRat 2, gas := JsNum.fin 1 } := by
  have hlast : ∀ d : JsObject,
      (Dashboard.onMessage h timestamp (Decoded.value d) s).1.historyData.getLast?
        = some (Dashboard.historyPoint h timestamp (Dashboard.processedData d)) := by
    intro d
    simp only [Dashboard.onMessage, Dashboard.appendPoint]
    exact sliceLast_getLast _ (by decide) _ _
  refine ⟨hlast data, ⟨rfl, rfl, rfl, rfl, rfl, rfl, rfl⟩, ?_, ?_, ?_⟩
  · intro hp
    simp [Dashboard.historyPoint, Dashboard.processedData, hp, JsVal.or, JsVal.truthy,
      Host.toNumber, JsVal.ofRat, JsNum.mul]
  · intro a b hab
    simp only [Dashboard.historyPoint, Host.toNumber, JsVal.ofRat, JsNum.mul, JsNum.le]
    exact mul_le_mul_of_nonneg_right hab (by norm_num)
  · have e : Dashboard.processedData scenarioMessage
        = { temp_ida := JsVal.ofRat 0, temp_retorno := JsVal.ofRat 40, deltaT := JsVal.ofRat 5,
            vazao_L_s := JsVal.ofRat (1 / 2), potencia_kW := JsVal.ofRat 10,
            energia_kWh := JsVal.ofRat 2 } := by
      simp [Dashboard.processedData, scenarioMessage, getProp, List.lookup, JsVal.or,
        JsVal.truthy, JsVal.strictEq, JsVal.ofRat]
      norm_num
    rw [hlast, e]
    simp [Dashboard.historyPoint, Host.toNumber, JsVal.ofRat, JsNum.mul]

/-- C4 (as stated, refuted): after 50 + 51 appends to an empty window, the 51
readings appended last are not all held in the window. -/
theorem window_drops_some_of_last_k :
    ¬ (∀ p ∈ sliceLast 51 (numberedPoints 101),
        p ∈ (numberedPoints 101).foldl Dashboard.appendPoint []) := by
  set_option maxRecDepth 100000 in decide

/-- C4 (amended): from a window `w` of at most 50 points, appending `rs` gives
the last `min 50 (|w| + |rs|)` points of `w ++ rs` in the same order; after
`50 + k` appends (`k ≥ 1`) to the empty window the window has exactly 50
points, the 50 most recent in arrival order, and the `k` appended last are its
final segment when `k ≤ 50`. -/
theorem window_after_appends (w rs : List HistoryPoint)
    (hw : w.length ≤ Dashboard.maxHistoryPoints) :
    rs.foldl Dashboard.appendPoint w = sliceLast Dashboard.maxHistoryPoints (w ++ rs) ∧
    (rs.foldl Dashboard.appendPoint w).length
      = min Dashboard.maxHistoryPoints (w.length + rs.length) ∧
    Dashboard.maxHistoryPoints = 50 ∧
    (∀ k : Nat, 1 ≤ k → rs.length = 50 + k →
      (rs.foldl Dashboard.appendPoint []).length = 50 ∧
      rs.foldl Dashboard.appendPoint [] = rs.drop k ∧
      (k ≤ 50 → sliceLast k rs <:+ rs.foldl Dashboard.appendPoint [])) := by
  refine ⟨foldl_appendPoint w rs hw, ?_, rfl, ?_⟩
  · rw [foldl_appendPoint w rs hw, sliceLast_length]; simp
  · intro k hk hlen
    have e : rs.foldl Dashboard.appendPoint [] = rs.drop k := by
      rw [foldl_appendPoint [] rs (by simp)]
      simp [sliceLast, Dashboard.maxHistoryPoints, hlen]
    refine ⟨?_, e, ?_⟩
    · rw [e]; simp [hlen]
    · intro hk50
      rw [e]
      unfold sliceLast
      have hsplit : rs.length - k = k + (rs.length - k - k) := by omega
      rw [hsplit, ← List.drop_drop]
      exact List.drop_suffix _ _

/-- Witness of amended C4: 51 appends to the empty window leave the 50 most
recent points, the first one evicted. -/
theorem window_after_appends_witness :
    (numberedPoints 51).foldl Dashboard.appendPoint [] = (numberedPoints 51).drop 1 :=
  ((window_after_appends [] (numberedPoints 51) (by decide)).2.2.2 1 (by decide)
    (by decide)).2.1

/-! ## Cumulative flow -/

theorem flowTerm_of_finite (h : Host) (p : HistoryPoint)
    (hp : p.vazao.isFiniteNumber = true) :
    flowTerm h p = JsNum.fin (flowOf p * 5) := by
  unfold flowTerm flowOf
  cases hv : p.vazao with
  | num x =>
    cases x with
    | fin q => simp [Host.toNumber, JsNum.mul]
    | nan => rw [hv] at hp; simp [JsVal.isFiniteNumber, JsNum.isFinite] at hp
  | undefined => rw [hv] at hp; simp [JsVal.isFiniteNumber] at hp
  | null => rw [hv] at hp; simp [JsVal.isFiniteNumber] at hp
  | bool b => rw [hv] at hp; simp [JsVal.isFiniteNumber] at hp
  | str s => rw [hv] at hp; simp [JsVal.isFiniteNumber] at hp

theorem foldl_flow_finite (h : Host) (w : List HistoryPoint) (a : ℚ)
    (hw : ∀ p ∈ w, p.vazao.isFiniteNumber = true) :
    w.foldl (fun total ponto => total.add (flowTerm h ponto)) (JsNum.fin a)
      = JsNum.fin (a + (w.map (fun p => flowOf p * 5)).sum) := by
  induction w generalizing a with
  | nil => simp
  | cons p w ih =>
    have hp := hw p (List.mem_cons_self _ _)
    have hw2 : ∀ x ∈ w, x.vazao.isFiniteNumber = true :=
      fun x hx => hw x (List.mem_cons_of_mem _ hx)
    have e : (JsNum.fin a).add (flowTerm h p) = JsNum.fin (a + flowOf p * 5) := by
      rw [flowTerm_of_finite h p hp]; rfl
    rw [List.foldl_cons, e, ih _ hw2]
    simp [add_assoc]

theorem vazaoAcumulada_eq_foldl (h : Host) (w : List HistoryPoint) :
    Dashboard.vazaoAcumulada h w
      = w.foldl (fun total ponto => total.add (flowTerm h ponto)) (JsNum.fin 0) := by
  simp [Dashboard.vazaoAcumulada, flowTerm, Dashboard.intervaloMedicao]

theorem vazaoAcumulada_finite (h : Host) (w : List HistoryPoint)
    (hw : ∀ p ∈ w, p.vazao.isFiniteNumber = true) :
    Dashboard.vazaoAcumulada h w = JsNum.fin ((w.map (fun p => flowOf p * 5)).sum) := by
  rw [vazaoAcumulada_eq_foldl, foldl_flow_finite h w 0 hw]
  simp

theorem vazaoAcumulada_pointWithFlow (h : Host) (qs : List ℚ) :
    Dashboard.vazaoAcumulada h (qs.map (pointWithFlow ""))
      = JsNum.fin ((qs.map (fun q => q * 5)).sum) := by
  rw [vazaoAcumulada_finite]
  · simp [List.map_map, Function.comp_def, flowOf, pointWithFlow, JsVal.ofRat]
  · intro p hp
    obtain ⟨q, _, rfl⟩ := List.mem_map.mp hp
    simp [pointWithFlow, JsVal.ofRat, JsVal.isFiniteNumber, JsNum.isFinite]

theorem naturalFlow_finite (p : HistoryPoint) (hp : naturalFlow p = true) :
    p.vazao.isFiniteNumber = true := by
  unfold naturalFlow at hp
  cases hv : p.vazao with
  | num x =>
    cases x with
    | fin q => rfl
    | nan => rw [hv] at hp; simp at hp
  | undefined => rw [hv] at hp; simp at hp
  | null => rw [hv] at hp; simp at hp
  | bool b => rw [hv] at hp; simp at hp
  | str s => rw [hv] at hp; simp at hp

/-- C7: in each of the three dashboards `vazaoAcumulada` is the sum, from 0 and
in window order, of `vazao * 5` over the points of the window; after any
sequence of live appends these are exactly the last 50 (or fewer) readings
appended; it is 0 on the empty window and does not change when the `time` and
`timestamp` of the points are replaced; on a window of natural flow rates whose
sum times 5 stays within `2 ^ 53` it is exactly `Σ vazao * 5`. -/
theorem vazaoAcumulada_is_window_sum (h : Host) (w rs : List HistoryPoint)
    (f : HistoryPoint → String) (g : HistoryPoint → Option JsNum) :
    (Dashboard.vazaoAcumulada h w = jsSum (w.map (flowTerm h)) ∧
      ZeladorDashboard.vazaoAcumulada h w = jsSum (w.map (flowTerm h)) ∧
      LegacyDashboard.vazaoAcumulada h w = jsSum (w.map (flowTerm h))) ∧
    Dashboard.vazaoAcumulada h (rs.foldl Dashboard.appendPoint [])
      = jsSum ((sliceLast 50 rs).map (flowTerm h)) ∧
    (Dashboard.vazaoAcumulada h [] = JsNum.fin 0 ∧
      ZeladorDashboard.vazaoAcumulada h [] = JsNum.fin 0 ∧
      LegacyDashboard.vazaoAcumulada h [] = JsNum.fin 0) ∧
    (Dashboard.vazaoAcumulada h (w.map (fun p => { p with time := f p, timestamp := g p }))
        = Dashboard.vazaoAcumulada h w ∧
      ZeladorDashboard.vazaoAcumulada h
          (w.map (fun p => { p with time := f p, timestamp := g p }))
        = ZeladorDashboard.vazaoAcumulada h w ∧
      LegacyDashboard.vazaoAcumulada h
          (w.map (fun p => { p with time := f p, timestamp := g p }))
        = LegacyDashboard.vazaoAcumulada h w) ∧
    ((∀ p ∈ w, naturalFlow p = true) → (w.map (fun p => flowOf p * 5)).sum ≤ exactBound →
      Dashboard.vazaoAcumulada h w = JsNum.fin ((w.map (fun p => flowOf p * 5)).sum) ∧
      ZeladorDashboard.vazaoAcumulada h w = JsNum.fin ((w.map (fun p => flowOf p * 5)).sum) ∧
      LegacyDashboard.vazaoAcumulada h w = JsNum.fin ((w.map (fun p => flowOf p * 5)).sum)) := by
  have e1 : ∀ v : List HistoryPoint,
      Dashboard.vazaoAcumulada h v = jsSum (v.map (flowTerm h)) := by
    intro v
    simp [Dashboard.vazaoAcumulada, jsSum, flowTerm, List.foldl_map,
      Dashboard.intervaloMedicao]
  have e2 : ZeladorDashboard.vazaoAcumulada h w = jsSum (w.map (flowTerm h)) := by
    simp [ZeladorDashboard.vazaoAcumulada, jsSum, flowTerm, List.foldl_map,
      ZeladorDashboard.intervaloMedicao]
  have e3 : LegacyDashboard.vazaoAcumulada h w = jsSum (w.map (flowTerm h)) := by
    simp [LegacyDashboard.vazaoAcumulada, jsSum, flowTerm, List.foldl_map,
      LegacyDashboard.intervaloMedicao]
  refine ⟨⟨e1 w, e2, e3⟩, ?_, ⟨rfl, rfl, rfl⟩, ⟨?_, ?_, ?_⟩, ?_⟩
  · rw [e1, foldl_appendPoint [] rs (by simp)]
    simp [Dashboard.maxHistoryPoints]
  · simp [Dashboard.vazaoAcumulada, List.foldl_map]
  · simp [ZeladorDashboard.vazaoAcumulada, List.foldl_map]
  · simp [LegacyDashboard.vazaoAcumulada, List.foldl_map]
  · intro hnat _
    have hv := vazaoAcumulada_finite h w (fun p hp => naturalFlow_finite p (hnat p hp))
    exact ⟨hv, by rw [e2, ← e1, hv], by rw [e3, ← e1, hv]⟩

/-- C5 (as stated, refuted): with flow rates 1 (fifty times) then 0, all
non-negative, the cumulative flow is 250 after the 50th append and 245 after
the 51st, which evicts a point of flow rate 1. -/
theorem cumulative_flow_decreases_on_eviction :
    Dashboard.vazaoAcumulada numericHost
        ((fullThenZero.take 50).foldl Dashboard.appendPoint []) = JsNum.fin 250 ∧
    Dashboard.vazaoAcumulada numericHost
        (fullThenZero.foldl Dashboard.appendPoint []) = JsNum.fin 245 ∧
    ¬ JsNum.le
        (Dashboard.vazaoAcumulada numericHost
          ((fullThenZero.take 50).foldl Dashboard.appendPoint []))
        (Dashboard.vazaoAcumulada numericHost
          (fullThenZero.foldl Dashboard.appendPoint [])) := by
  have e1 : (fullThenZero.take 50).foldl Dashboard.appendPoint []
      = List.map (pointWithFlow "") (List.replicate 50 1) := by
    set_option maxRecDepth 100000 in decide
  have e2 : fullThenZero.foldl Dashboard.appendPoint []
      = List.map (pointWithFlow "") (List.replicate 49 1 ++ [0]) := by
    set_option maxRecDepth 100000 in decide
  have v1 : Dashboard.vazaoAcumulada numericHost
      ((fullThenZero.take 50).foldl Dashboard.appendPoint []) = JsNum.fin 250 := by
    rw [e1, vazaoAcumulada_pointWithFlow]
    norm_num
  have v2 : Dashboard.vazaoAcumulada numericHost
      (fullThenZero.foldl Dashboard.appendPoint []) = JsNum.fin 245 := by
    rw [e2, vazaoAcumulada_pointWithFlow]
    norm_num
  refine ⟨v1, v2, ?_⟩
  rw [v1, v2]
  simp only [JsNum.le]
  norm_num

/-- C5 (amended): from a window `w` of finite flow rates, across appends `rs`
whose flow rates are finite and non-negative and that never fill the window
beyond its 50 points (so that nothing is evicted), the cumulative flow after
each append is at least the one before it. -/
theorem cumulative_flow_monotone_without_eviction (h : Host) (w rs : List HistoryPoint)
    (hw : ∀ p ∈ w, p.vazao.isFiniteNumber = true)
    (hrs : ∀ p ∈ rs, p.vazao.isFiniteNumber = true ∧ 0 ≤ flowOf p)
    (hcap : w.length + rs.length ≤ Dashboard.maxHistoryPoints) :
    ∀ i : Nat, i < rs.length →
      JsNum.le
        (Dashboard.vazaoAcumulada h ((rs.take i).foldl Dashboard.appendPoint w))
        (Dashboard.vazaoAcumulada h ((rs.take (i + 1)).foldl Dashboard.appendPoint w)) := by
  intro i hi
  have hwl : w.length ≤ Dashboard.maxHistoryPoints := by omega
  have win : ∀ j : Nat, j ≤ rs.length →
      (rs.take j).foldl Dashboard.appendPoint w = w ++ rs.take j := by
    intro j hj
    rw [foldl_appendPoint w _ hwl]
    apply sliceLast_of_length_le
    simp only [List.length_append, List.length_take]
    omega
  have fin_take : ∀ j : Nat, ∀ p ∈ w ++ rs.take j, p.vazao.isFiniteNumber = true := by
    intro j p hp
    rcases List.mem_append.mp hp with hp | hp
    · exact hw p hp
    · exact (hrs p (List.mem_of_mem_take hp)).1
  rw [win i (by omega), win (i + 1) (by omega),
    vazaoAcumulada_finite h _ (fin_take i), vazaoAcumulada_finite h _ (fin_take (i + 1))]
  have hstep : rs.take (i + 1) = rs.take i ++ [rs.get ⟨i, hi⟩] := by
    rw [List.take_succ, List.getElem?_eq_getElem hi]
    rfl
  have hnn : 0 ≤ flowOf (rs.get ⟨i, hi⟩) := (hrs _ (List.get_mem rs i hi)).2
  rw [hstep]
  simp only [JsNum.le, List.map_append, List.sum_append, List.map_cons, List.map_nil,
    List.sum_cons, List.sum_nil]
  linarith

/-- Witness of amended C5: appending flow rates 1 then 2 to the empty window,
the cumulative flow after the second append is at least the one after the
first. -/
theorem cumulative_flow_monotone_without_eviction_witness :
    JsNum.le
      (Dashboard.vazaoAcumulada numericHost
        (([pointWithFlow "" 1, pointWithFlow "" 2].take 1).foldl Dashboard.appendPoint []))
      (Dashboard.vazaoAcumulada numericHost
        (([pointWithFlow "" 1, pointWithFlow "" 2].take 2).foldl Dashboard.appendPoint [])) :=
  cumulative_flow_monotone_without_eviction numericHost []
    [pointWithFlow "" 1, pointWithFlow "" 2]
    (by simp)
    (by simp [pointWithFlow, JsVal.ofRat, JsVal.isFiniteNumber, JsNum.isFinite, flowOf])
    (by decide) 1 (by decide)

/-! ## The history loader -/

theorem sliceLast_map {α β : Type} (n : Nat) (f : α → β) (xs : List α) :
    sliceLast n (xs.map f) = (sliceLast n xs).map f := by
  simp [sliceLast, List.map_drop]

theorem formatRow_vazao_finite (h : Host) (r : StoreRow) :
    (Dashboard.formatRow h r).vazao.isFiniteNumber = true ∧
    flowOf (Dashboard.formatRow h r) = parseFloatOrZero h r.vazao_L_s := by
  unfold Dashboard.formatRow flowOf parseFloatOrZero
  cases h.parseFloat r.vazao_L_s with
  | nan => simp [JsVal.or, JsVal.truthy, JsVal.ofRat, JsVal.isFiniteNumber, JsNum.isFinite]
  | fin q =>
    by_cases hq : q = 0
    · simp [JsVal.or, JsVal.truthy, JsVal.ofRat, JsVal.isFiniteNumber, JsNum.isFinite, hq]
    · simp [JsVal.or, JsVal.truthy, JsVal.ofRat, JsVal.isFiniteNumber, JsNum.isFinite, hq]

theorem loaded_window (h : Host) (rows : List StoreRow) (s : State)
    (hd : s.deviceId.truthy = true) (hne : rows ≠ []) :
    (Dashboard.loadHistoryFromDatabase h (QueryOutcome.data (some rows)) s).historyData
      = ((rows.take Dashboard.maxHistoryPoints).reverse).map (Dashboard.formatRow h) := by
  cases rows with
  | nil => exact absurd rfl hne
  | cons r rs =>
    have e : (Dashboard.loadHistoryFromDatabase h (QueryOutcome.data (some (r :: rs)))
        s).historyData
        = sliceLast Dashboard.maxHistoryPoints ((r :: rs).reverse.map (Dashboard.formatRow h)) := by
      simp [Dashboard.loadHistoryFromDatabase, hd, Dashboard.formattedData]
    rw [e, sliceLast_map, sliceLast_reverse]

theorem vazaoAcumulada_formatted (h : Host) (rows : List StoreRow) :
    Dashboard.vazaoAcumulada h (rows.reverse.map (Dashboard.formatRow h))
      = JsNum.fin (directFlow h rows) := by
  rw [vazaoAcumulada_finite]
  · unfold directFlow
    simp only [List.map_map, List.map_reverse, List.sum_reverse]
    congr 2
    apply List.map_congr_left
    intro r _
    simp [(formatRow_vazao_finite h r).2]
  · intro p hp
    obtain ⟨r, _, rfl⟩ := List.mem_map.mp hp
    exact (formatRow_vazao_finite h r).1

/-- C6 (as stated, refuted): for 51 returned rows of flow rate 1 (within the
load limit 100), the cumulative flow of the loaded window is 250 while the sum
over all 51 rows is 255. -/
theorem loaded_flow_differs_from_all_rows :
    (List.replicate 51 (rowWithFlow 1)).length ≤ Dashboard.maxHistoryLoad ∧
    Dashboard.vazaoAcumulada numericHost
        (Dashboard.loadHistoryFromDatabase numericHost
          (QueryOutcome.data (some (List.replicate 51 (rowWithFlow 1))))
          sessionWithDevice).historyData = JsNum.fin 250 ∧
    directFlow numericHost (List.replicate 51 (rowWithFlow 1)) = 255 ∧
    Dashboard.vazaoAcumulada numericHost
        (Dashboard.loadHistoryFromDatabase numericHost
          (QueryOutcome.data (some (List.replicate 51 (rowWithFlow 1))))
          sessionWithDevice).historyData
      ≠ JsNum.fin (directFlow numericHost (List.replicate 51 (rowWithFlow 1))) := by
  have hv : Dashboard.vazaoAcumulada numericHost
        (Dashboard.loadHistoryFromDatabase numericHost
          (QueryOutcome.data (some (List.replicate 51 (rowWithFlow 1))))
          sessionWithDevice).historyData = JsNum.fin 250 := by
    rw [loaded_window numericHost _ sessionWithDevice (by decide) (by decide),
      vazaoAcumulada_formatted]
    simp [directFlow, Dashboard.maxHistoryPoints, List.take_replicate, parseFloatOrZero,
      rowWithFlow, Host.parseFloat, JsVal.ofRat]
    norm_num
  have hdir : directFlow numericHost (List.replicate 51 (rowWithFlow 1)) = 255 := by
    simp [directFlow, parseFloatOrZero, rowWithFlow, Host.parseFloat, JsVal.ofRat]
    norm_num
  refine ⟨by decide, hv, hdir, ?_⟩
  rw [hv, hdir]
  intro e
  injection e with e
  norm_num at e

theorem recomputedFlow_eq_window (h : Host) (rows : List StoreRow) :
    Dashboard.vazaoAcumulada h (rows.reverse.map (Dashboard.formatRow h))
      = recomputedFlow h rows := by
  unfold Dashboard.vazaoAcumulada recomputedFlow
  rw [List.foldl_map]
  rfl

/-- C6 (amended): with a device selected and `M ≥ 1` rows returned newest
first, the cumulative flow of the window right after the load is the value
recomputed directly (the same sum, oldest row first) from the 50 most recent
rows, the first 50 returned; it is the value recomputed from all `M` rows when
`M ≤ 50`.  On rows of natural flow rates whose sum times 5 stays within
`2 ^ 53` the recomputed value is exactly `Σ (parseFloat(vazao_L_s) || 0) * 5`,
so that the window gives that sum over the 50 most recent rows. -/
theorem loaded_flow_is_recent_rows_sum (h : Host) (rows : List StoreRow) (s : State)
    (hd : s.deviceId.truthy = true) (hne : rows ≠ []) :
    Dashboard.vazaoAcumulada h
        (Dashboard.loadHistoryFromDatabase h (QueryOutcome.data (some rows)) s).historyData
      = recomputedFlow h (rows.take 50) ∧
    (rows.length ≤ 50 →
      Dashboard.vazaoAcumulada h
          (Dashboard.loadHistoryFromDatabase h (QueryOutcome.data (some rows)) s).historyData
        = recomputedFlow h rows) ∧
    ((∀ r ∈ rows, naturalRow r = true) → directFlow h rows ≤ exactBound →
      recomputedFlow h rows = JsNum.fin (directFlow h rows) ∧
      Dashboard.vazaoAcumulada h
          (Dashboard.loadHistoryFromDatabase h (QueryOutcome.data (some rows)) s).historyData
        = JsNum.fin (directFlow h (rows.take 50))) := by
  have e := loaded_window h rows s hd hne
  refine ⟨?_, fun hlen => ?_, fun _ _ => ⟨?_, ?_⟩⟩
  · rw [e, recomputedFlow_eq_window]; rfl
  · rw [e, recomputedFlow_eq_window, Dashboard.maxHistoryPoints, List.take_of_length_le hlen]
  · rw [← recomputedFlow_eq_window, vazaoAcumulada_formatted]
  · rw [e, vazaoAcumulada_formatted]; rfl

/-- Witness of amended C6: two returned rows of flow rates 1 and 2 give a
loaded window whose cumulative flow is the value recomputed from both rows. -/
theorem loaded_flow_is_recent_rows_sum_witness :
    Dashboard.vazaoAcumulada numericHost
        (Dashboard.loadHistoryFromDatabase numericHost
          (QueryOutcome.data (some [rowWithFlow 1, rowWithFlow 2])) sessionWithDevice).historyData
      = recomputedFlow numericHost [rowWithFlow 1, rowWithFlow 2] :=
  (loaded_flow_is_recent_rows_sum numericHost [rowWithFlow 1, rowWithFlow 2] sessionWithDevice
    (by decide) (by decide)).2.1 (by decide)

/-! ## The durable writer -/

theorem JsVal.strictEq_str_iff (v : JsVal) (s : String) :
    v.strictEq (JsVal.str s) = true ↔ v = JsVal.str s := by
  cases v with
  | num x => cases x <;> simp [JsVal.strictEq]
  | _ => simp [JsVal.strictEq]

theorem InsertOutcome.not_transient (o : InsertOutcome) (h : o.transient = false) :
    o = InsertOutcome.ok ∨ o = InsertOutcome.error (JsVal.str "23503") := by
  cases o with
  | ok => exact Or.inl rfl
  | error code =>
    right
    simp only [InsertOutcome.transient, Bool.not_eq_false'] at h
    rw [(JsVal.strictEq_str_iff code "23503").mp h]
  | thrown => simp [InsertOutcome.transient] at h

theorem zelador_saveLoop_eq (outcome : Nat → InsertOutcome) (row : InsertRow) (retries : Nat)
    (fuel attempt : Nat) (st : WriterState) :
    ZeladorDashboard.saveLoop outcome row retries fuel attempt st
      = Dashboard.saveLoop outcome row retries fuel attempt st := by
  induction fuel generalizing attempt st with
  | zero => rfl
  | succ fuel ih =>
    simp only [ZeladorDashboard.saveLoop, Dashboard.saveLoop, ih]

theorem zelador_saveToDatabase_eq (outcome : Nat → InsertOutcome) (deviceId : JsVal)
    (data : SensorData) (retries : Nat) (st : WriterState) :
    ZeladorDashboard.saveToDatabase outcome deviceId data retries st
      = Dashboard.saveToDatabase outcome deviceId data retries st := by
  simp only [ZeladorDashboard.saveToDatabase, Dashboard.saveToDatabase, zelador_saveLoop_eq]
  rfl

theorem saveLoop_past_end (outcome : Nat → InsertOutcome) (row : InsertRow) (retries : Nat)
    (fuel attempt : Nat) (st : WriterState) (h : retries < attempt) :
    Dashboard.saveLoop outcome row retries fuel attempt st = st := by
  cases fuel with
  | zero => rfl
  | succ fuel => simp [Dashboard.saveLoop, Nat.not_le.mpr h]

theorem saveLoop_ok (outcome : Nat → InsertOutcome) (row : InsertRow) (retries : Nat)
    (fuel attempt : Nat) (st : WriterState) (h : attempt ≤ retries)
    (ho : outcome attempt = InsertOutcome.ok) :
    Dashboard.saveLoop outcome row retries (fuel + 1) attempt st
      = (st.record (WriterEvent.insert attempt row)).setDb true := by
  simp [Dashboard.saveLoop, h, ho]

theorem saveLoop_terminal (outcome : Nat → InsertOutcome) (row : InsertRow) (retries : Nat)
    (fuel attempt : Nat) (st : WriterState) (h : attempt ≤ retries)
    (ho : outcome attempt = InsertOutcome.error (JsVal.str "23503")) :
    Dashboard.saveLoop outcome row retries (fuel + 1) attempt st
      = (st.record (WriterEvent.insert attempt row)).setDb false := by
  simp [Dashboard.saveLoop, h, ho, JsVal.strictEq]

theorem saveLoop_retry (outcome : Nat → InsertOutcome) (row : InsertRow) (retries : Nat)
    (fuel attempt : Nat) (st : WriterState) (h : attempt < retries)
    (ho : (outcome attempt).transient = true) :
    Dashboard.saveLoop outcome row retries (fuel + 1) attempt st
      = Dashboard.saveLoop outcome row retries fuel (attempt + 1)
          ((st.record (WriterEvent.insert attempt row)).record
            (WriterEvent.wait (1000 * attempt))) := by
  have hle : attempt ≤ retries := Nat.le_of_lt h
  cases hc : outcome attempt with
  | ok => rw [hc] at ho; simp [InsertOutcome.transient] at ho
  | error code =>
    rw [hc] at ho
    simp only [InsertOutcome.transient, Bool.not_eq_true'] at ho
    simp [Dashboard.saveLoop, hle, hc, ho, h]
  | thrown => simp [Dashboard.saveLoop, hle, hc, h]

theorem saveLoop_last_failure (outcome : Nat → InsertOutcome) (row : InsertRow) (retries : Nat)
    (fuel : Nat) (st : WriterState) (ho : (outcome retries).transient = true) :
    Dashboard.saveLoop outcome row retries (fuel + 1) retries st
      = (st.record (WriterEvent.insert retries row)).setDb false := by
  cases hc : outcome retries with
  | ok => rw [hc] at ho; simp [InsertOutcome.transient] at ho
  | error code =>
    rw [hc] at ho
    simp only [InsertOutcome.transient, Bool.not_eq_true'] at ho
    simp [Dashboard.saveLoop, hc, ho, saveLoop_past_end]
  | thrown => simp [Dashboard.saveLoop, hc, saveLoop_past_end]

theorem saveLoop_retries (outcome : Nat → InsertOutcome) (row : InsertRow) (retries : Nat)
    (k fuel attempt : Nat) (st : WriterState)
    (htr : ∀ i, attempt ≤ i → i < attempt + k → (outcome i).transient = true)
    (hk : attempt + k ≤ retries) :
    Dashboard.saveLoop outcome row retries (fuel + k) attempt st
      = Dashboard.saveLoop outcome row retries fuel (attempt + k)
          { dbConnected := st.dbConnected, trace := st.trace ++ retryEvents row attempt k } := by
  induction k generalizing attempt st with
  | zero => simp [retryEvents]
  | succ k ih =>
    have h0 : (outcome attempt).transient = true := htr attempt (Nat.le_refl _) (by omega)
    rw [← Nat.add_assoc, saveLoop_retry outcome row retries (fuel + k) attempt st (by omega) h0,
      ih (attempt + 1) _ (fun i h1 h2 => htr i (by omega) (by omega)) (by omega)]
    simp [WriterState.record, retryEvents, Nat.add_assoc, Nat.add_comm 1 k]

theorem WriterState.attempts_record_insert (st : WriterState) (a : Nat) (row : InsertRow) :
    (st.record (WriterEvent.insert a row)).attempts = st.attempts + 1 := by
  simp [WriterState.record, WriterState.attempts, List.filter_append]

theorem WriterState.attempts_record_wait (st : WriterState) (ms : Nat) :
    (st.record (WriterEvent.wait ms)).attempts = st.attempts := by
  simp [WriterState.record, WriterState.attempts, List.filter_append]

theorem WriterState.attempts_setDb (st : WriterState) (b : Bool) :
    (st.setDb b).attempts = st.attempts := by
  simp [WriterState.setDb, WriterState.attempts, List.filter_append]

theorem saveLoop_attempts_le (outcome : Nat → InsertOutcome) (row : InsertRow) (retries : Nat)
    (fuel attempt : Nat) (st : WriterState) :
    (Dashboard.saveLoop outcome row retries fuel attempt st).attempts
      ≤ st.attempts + (retries + 1 - attempt) := by
  induction fuel generalizing attempt st with
  | zero => simp [Dashboard.saveLoop]
  | succ fuel ih =>
    by_cases hle : attempt ≤ retries
    · by_cases htr : (outcome attempt).transient = true
      · by_cases hlt : attempt < retries
        · rw [saveLoop_retry outcome row retries fuel attempt st hlt htr]
          refine Nat.le_trans (ih _ _) ?_
          rw [WriterState.attempts_record_wait, WriterState.attempts_record_insert]
          omega
        · have e : attempt = retries := by omega
          subst e
          rw [saveLoop_last_failure outcome row attempt fuel st htr,
            WriterState.attempts_setDb, WriterState.attempts_record_insert]
          omega
      · have hf : (outcome attempt).transient = false := by simpa using htr
        rcases InsertOutcome.not_transient _ hf with ho | ho
        · rw [saveLoop_ok outcome row retries fuel attempt st hle ho,
            WriterState.attempts_setDb, WriterState.attempts_record_insert]
          omega
        · rw [saveLoop_terminal outcome row retries fuel attempt st hle ho,
            WriterState.attempts_setDb, WriterState.attempts_record_insert]
          omega
    · rw [saveLoop_past_end outcome row retries (fuel + 1) attempt st (by omega)]
      omega

theorem saveLoop_fuel_irrelevant (outcome : Nat → InsertOutcome) (row : InsertRow)
    (retries : Nat) (fuel₁ fuel₂ attempt : Nat) (st : WriterState)
    (h₁ : retries + 1 ≤ fuel₁ + attempt) (h₂ : retries + 1 ≤ fuel₂ + attempt) :
    Dashboard.saveLoop outcome row retries fuel₁ attempt st
      = Dashboard.saveLoop outcome row retries fuel₂ attempt st := by
  induction fuel₁ generalizing fuel₂ attempt st with
  | zero =>
    rw [saveLoop_past_end outcome row retries 0 attempt st (by omega),
      saveLoop_past_end outcome row retries fuel₂ attempt st (by omega)]
  | succ fuel₁ ih =>
    cases fuel₂ with
    | zero =>
      rw [saveLoop_past_end outcome row retries (fuel₁ + 1) attempt st (by omega),
        saveLoop_past_end outcome row retries 0 attempt st (by omega)]
    | succ fuel₂ =>
      simp only [Dashboard.saveLoop]
      rw [ih fuel₂ (attempt + 1) _ (by omega) (by omega),
        ih fuel₂ (attempt + 1) _ (by omega) (by omega)]

theorem saveToDatabase_after_retries (outcome : Nat → InsertOutcome) (deviceId : JsVal)
    (data : SensorData) (retries a : Nat) (st : WriterState) (h1 : 1 ≤ a) (ha : a ≤ retries)
    (hprev : ∀ i, 1 ≤ i → i < a → (outcome i).transient = true) :
    Dashboard.saveToDatabase outcome deviceId data retries st
      = Dashboard.saveLoop outcome (Dashboard.insertRow deviceId data) retries
          (retries + 1 - a + 1) a
          { dbConnected := st.dbConnected
            trace := st.trace ++ retryEvents (Dashboard.insertRow deviceId data) 1 (a - 1) } := by
  have e : retries + 1 = (retries + 1 - a + 1) + (a - 1) := by omega
  have e2 : 1 + (a - 1) = a := by omega
  unfold Dashboard.saveToDatabase
  rw [e, saveLoop_retries outcome _ retries (a - 1) (retries + 1 - a + 1) 1 st
    (fun i hi1 hi2 => hprev i hi1 (by omega)) (by omega), e2]
  congr 1
  omega

theorem saveToDatabase_success (outcome : Nat → InsertOutcome) (deviceId : JsVal)
    (data : SensorData) (retries a : Nat) (st : WriterState) (h1 : 1 ≤ a) (ha : a ≤ retries)
    (hprev : ∀ i, 1 ≤ i → i < a → (outcome i).transient = true)
    (hok : outcome a = InsertOutcome.ok) :
    Dashboard.saveToDatabase outcome deviceId data retries st
      = { dbConnected := true
          trace := st.trace ++ retryEvents (Dashboard.insertRow deviceId data) 1 (a - 1) ++
            [WriterEvent.insert a (Dashboard.insertRow deviceId data),
              WriterEvent.setDbConnected true] } := by
  rw [saveToDatabase_after_retries outcome deviceId data retries a st h1 ha hprev,
    saveLoop_ok outcome _ retries _ a _ ha hok]
  simp [WriterState.record, WriterState.setDb]

theorem saveToDatabase_terminal (outcome : Nat → InsertOutcome) (deviceId : JsVal)
    (data : SensorData) (retries a : Nat) (st : WriterState) (h1 : 1 ≤ a) (ha : a ≤ retries)
    (hprev : ∀ i, 1 ≤ i → i < a → (outcome i).transient = true)
    (hterm : outcome a = InsertOutcome.error (JsVal.str "23503")) :
    Dashboard.saveToDatabase outcome deviceId data retries st
      = { dbConnected := false
          trace := st.trace ++ retryEvents (Dashboard.insertRow deviceId data) 1 (a - 1) ++
            [WriterEvent.insert a (Dashboard.insertRow deviceId data),
              WriterEvent.setDbConnected false] } := by
  rw [saveToDatabase_after_retries outcome deviceId data retries a st h1 ha hprev,
    saveLoop_terminal outcome _ retries _ a _ ha hterm]
  simp [WriterState.record, WriterState.setDb]

theorem saveToDatabase_exhausted (outcome : Nat → InsertOutcome) (deviceId : JsVal)
    (data : SensorData) (retries : Nat) (st : WriterState) (h1 : 1 ≤ retries)
    (hall : ∀ i, 1 ≤ i → i ≤ retries → (outcome i).transient = true) :
    Dashboard.saveToDatabase outcome deviceId data retries st
      = { dbConnected := false
          trace := st.trace ++ retryEvents (Dashboard.insertRow deviceId data) 1 (retries - 1) ++
            [WriterEvent.insert retries (Dashboard.insertRow deviceId data),
              WriterEvent.setDbConnected false] } := by
  rw [saveToDatabase_after_retries outcome deviceId data retries retries st h1 (Nat.le_refl _)
      (fun i hi1 hi2 => hall i hi1 (Nat.le_of_lt hi2)),
    saveLoop_last_failure outcome _ retries _ _ (hall retries h1 (Nat.le_refl _))]
  simp [WriterState.record, WriterState.setDb]

theorem saveLoop_trace_extends (outcome : Nat → InsertOutcome) (row : InsertRow) (retries : Nat)
    (fuel attempt : Nat) (st : WriterState) :
    st.trace <+: (Dashboard.saveLoop outcome row retries fuel attempt st).trace := by
  induction fuel generalizing attempt st with
  | zero => exact List.prefix_refl _
  | succ fuel ih =>
    by_cases hle : attempt ≤ retries
    · by_cases htr : (outcome attempt).transient = true
      · by_cases hlt : attempt < retries
        · rw [saveLoop_retry outcome row retries fuel attempt st hlt htr]
          refine List.IsPrefix.trans ?_ (ih _ _)
          simp [WriterState.record]
        · have e : attempt = retries := by omega
          subst e
          rw [saveLoop_last_failure outcome row attempt fuel st htr]
          simp [WriterState.record, WriterState.setDb]
      · have hf : (outcome attempt).transient = false := by simpa using htr
        rcases InsertOutcome.not_transient _ hf with ho | ho
        · rw [saveLoop_ok outcome row retries fuel attempt st hle ho]
          simp [WriterState.record, WriterState.setDb]
        · rw [saveLoop_terminal outcome row retries fuel attempt st hle ho]
          simp [WriterState.record, WriterState.setDb]
    · rw [saveLoop_past_end outcome row retries (fuel + 1) attempt st (by omega)]

theorem saveLoop_starts_with_insert (outcome : Nat → InsertOutcome) (row : InsertRow)
    (retries : Nat) (fuel attempt : Nat) (st : WriterState) (hle : attempt ≤ retries) :
    st.trace ++ [WriterEvent.insert attempt row]
      <+: (Dashboard.saveLoop outcome row retries (fuel + 1) attempt st).trace := by
  by_cases htr : (outcome attempt).transient = true
  · by_cases hlt : attempt < retries
    · rw [saveLoop_retry outcome row retries fuel attempt st hlt htr]
      refine List.IsPrefix.trans ?_ (saveLoop_trace_extends _ _ _ _ _ _)
      simp [WriterState.record]
    · have e : attempt = retries := by omega
      subst e
      rw [saveLoop_last_failure outcome row attempt fuel st htr]
      simp [WriterState.record, WriterState.setDb]
  · have hf : (outcome attempt).transient = false := by simpa using htr
    rcases InsertOutcome.not_transient _ hf with ho | ho
    · rw [saveLoop_ok outcome row retries fuel attempt st hle ho]
      simp [WriterState.record, WriterState.setDb]
    · rw [saveLoop_terminal outcome row retries fuel attempt st hle ho]
      simp [WriterState.record, WriterState.setDb]

theorem retryEvents_snoc (row : InsertRow) (start k : Nat) :
    retryEvents row start (k + 1)
      = retryEvents row start k ++
          [WriterEvent.insert (start + k) row, WriterEvent.wait (1000 * (start + k))] := by
  induction k generalizing start with
  | zero => simp [retryEvents]
  | succ k ih =>
    rw [retryEvents, ih (start + 1)]
    simp [retryEvents, Nat.add_assoc, Nat.add_comm 1 k]

theorem retryEvents_no_flag_write (row : InsertRow) (start k : Nat) (b : Bool) :
    WriterEvent.setDbConnected b ∉ retryEvents row start k := by
  induction k generalizing start with
  | zero => simp [retryEvents]
  | succ k ih => simp [retryEvents, ih]

theorem saveToDatabase_retry (outcome : Nat → InsertOutcome) (deviceId : JsVal)
    (data : SensorData) (retries a : Nat) (st : WriterState) (h1 : 1 ≤ a) (ha : a < retries)
    (hupto : ∀ i, 1 ≤ i → i ≤ a → (outcome i).transient = true) :
    st.trace ++ retryEvents (Dashboard.insertRow deviceId data) 1 (a - 1) ++
        [WriterEvent.insert a (Dashboard.insertRow deviceId data), WriterEvent.wait (1000 * a),
          WriterEvent.insert (a + 1) (Dashboard.insertRow deviceId data)]
      <+: (Dashboard.saveToDatabase outcome deviceId data retries st).trace := by
  have hre : retryEvents (Dashboard.insertRow deviceId data) 1 a
      = retryEvents (Dashboard.insertRow deviceId data) 1 (a - 1) ++
          [WriterEvent.insert a (Dashboard.insertRow deviceId data),
            WriterEvent.wait (1000 * a)] := by
    have e3 : a = (a - 1) + 1 := by omega
    have e4 : 1 + (a - 1) = a := by omega
    conv_lhs => rw [e3]
    rw [retryEvents_snoc, e4]
  have e := saveToDatabase_after_retries outcome deviceId data retries (a + 1) st (by omega)
    (by omega) (fun i hi1 hi2 => hupto i hi1 (by omega))
  have hp := saveLoop_starts_with_insert outcome (Dashboard.insertRow deviceId data) retries
    (retries + 1 - (a + 1)) (a + 1)
    { dbConnected := st.dbConnected
      trace := st.trace ++ retryEvents (Dashboard.insertRow deviceId data) 1 (a + 1 - 1) }
    (by omega)
  rw [e]
  simp only [Nat.add_sub_cancel] at hp ⊢
  have hl : st.trace ++ retryEvents (Dashboard.insertRow deviceId data) 1 (a - 1) ++
        [WriterEvent.insert a (Dashboard.insertRow deviceId data), WriterEvent.wait (1000 * a),
          WriterEvent.insert (a + 1) (Dashboard.insertRow deviceId data)]
      = st.trace ++ retryEvents (Dashboard.insertRow deviceId data) 1 a ++
          [WriterEvent.insert (a + 1) (Dashboard.insertRow deviceId data)] := by
    rw [hre]; simp
  rw [hl]
  exact hp

theorem saveToDatabase_flag_iff (outcome : Nat → InsertOutcome) (deviceId : JsVal)
    (data : SensorData) (retries : Nat) (st : WriterState) (h1 : 1 ≤ retries) :
    (Dashboard.saveToDatabase outcome deviceId data retries st).dbConnected = true ↔
      ∃ a, 1 ≤ a ∧ a ≤ retries ∧ (∀ i, 1 ≤ i → i < a → (outcome i).transient = true) ∧
        outcome a = InsertOutcome.ok := by
  constructor
  · intro hflag
    by_cases hex : ∃ i, 1 ≤ i ∧ i ≤ retries ∧ (outcome i).transient = false
    · classical
      have hmin := Nat.find_spec hex
      have hlt : ∀ i, 1 ≤ i → i < Nat.find hex → (outcome i).transient = true := by
        intro i hi1 hi2
        have hn := Nat.find_min hex hi2
        by_contra hc
        exact hn ⟨hi1, by omega, by simpa using hc⟩
      refine ⟨Nat.find hex, hmin.1, hmin.2.1, hlt, ?_⟩
      rcases InsertOutcome.not_transient _ hmin.2.2 with ho | ho
      · exact ho
      · rw [saveToDatabase_terminal outcome deviceId data retries _ st hmin.1 hmin.2.1 hlt ho]
          at hflag
        simp at hflag
    · have hall : ∀ i, 1 ≤ i → i ≤ retries → (outcome i).transient = true := by
        intro i hi1 hi2
        by_contra hc
        exact hex ⟨i, hi1, hi2, by simpa using hc⟩
      rw [saveToDatabase_exhausted outcome deviceId data retries st h1 hall] at hflag
      simp at hflag
  · rintro ⟨a, ha1, ha2, hprev, hok⟩
    rw [saveToDatabase_success outcome deviceId data retries a st ha1 ha2 hprev hok]

/-- C8: with the default `retries = 3`, in `Dashboard` and in `ZeladorDashboard`,
whatever the insert outcomes `saveToDatabase` ends after at most 3 insert
attempts (its result is the same for every bound of at least 4 on the
iterations examined, so the loop ends by itself and nothing is thrown out of
it); and when the first three attempts all fail with transient failures its
steps are exactly insert 1, wait, insert 2, wait, insert 3,
`setDbConnected(false)`: three attempts, no fourth, flag false. -/
theorem saveToDatabase_three_attempts (outcome : Nat → InsertOutcome) (deviceId : JsVal)
    (data : SensorData) (st : WriterState) :
    ((Dashboard.saveToDatabase outcome deviceId data Dashboard.defaultRetries st).attempts
        ≤ st.attempts + 3 ∧
      (ZeladorDashboard.saveToDatabase outcome deviceId data
          ZeladorDashboard.defaultRetries st).attempts ≤ st.attempts + 3) ∧
    (∀ fuel : Nat, 4 ≤ fuel →
      Dashboard.saveLoop outcome (Dashboard.insertRow deviceId data) 3 fuel 1 st
        = Dashboard.saveToDatabase outcome deviceId data Dashboard.defaultRetries st ∧
      ZeladorDashboard.saveLoop outcome (ZeladorDashboard.insertRow deviceId data) 3 fuel 1 st
        = ZeladorDashboard.saveToDatabase outcome deviceId data
            ZeladorDashboard.defaultRetries st) ∧
    ((outcome 1).transient = true → (outcome 2).transient = true →
      (outcome 3).transient = true →
      Dashboard.saveToDatabase outcome deviceId data Dashboard.defaultRetries st
        = { dbConnected := false
            trace := st.trace ++
              [WriterEvent.insert 1 (Dashboard.insertRow deviceId data), WriterEvent.wait 1000,
                WriterEvent.insert 2 (Dashboard.insertRow deviceId data), WriterEvent.wait 2000,
                WriterEvent.insert 3 (Dashboard.insertRow deviceId data),
                WriterEvent.setDbConnected false] } ∧
      ZeladorDashboard.saveToDatabase outcome deviceId data ZeladorDashboard.defaultRetries st
        = { dbConnected := false
            trace := st.trace ++
              [WriterEvent.insert 1 (ZeladorDashboard.insertRow deviceId data),
                WriterEvent.wait 1000,
                WriterEvent.insert 2 (ZeladorDashboard.insertRow deviceId data),
                WriterEvent.wait 2000,
                WriterEvent.insert 3 (ZeladorDashboard.insertRow deviceId data),
                WriterEvent.setDbConnected false] } ∧
      (Dashboard.saveToDatabase outcome deviceId data Dashboard.defaultRetries st).attempts
        = st.attempts + 3) := by
  have hz : ZeladorDashboard.insertRow deviceId data = Dashboard.insertRow deviceId data := rfl
  have hzr : ZeladorDashboard.defaultRetries = Dashboard.defaultRetries := rfl
  have hbound :
      (Dashboard.saveToDatabase outcome deviceId data Dashboard.defaultRetries st).attempts
        ≤ st.attempts + 3 :=
    saveLoop_attempts_le outcome _ 3 4 1 st
  refine ⟨⟨hbound, ?_⟩, ?_, ?_⟩
  · rw [zelador_saveToDatabase_eq, hzr]; exact hbound
  · intro fuel hfuel
    have e := saveLoop_fuel_irrelevant outcome (Dashboard.insertRow deviceId data) 3 fuel 4 1 st
      (by omega) (by omega)
    refine ⟨e, ?_⟩
    rw [zelador_saveLoop_eq, zelador_saveToDatabase_eq, hz, hzr]
    exact e
  · intro t1 t2 t3
    have hall : ∀ i, 1 ≤ i → i ≤ 3 → (outcome i).transient = true := by
      intro i hi1 hi2
      have : i = 1 ∨ i = 2 ∨ i = 3 := by omega
      rcases this with rfl | rfl | rfl <;> assumption
    have e := saveToDatabase_exhausted outcome deviceId data 3 st (by omega) hall
    have e' : Dashboard.saveToDatabase outcome deviceId data Dashboard.defaultRetries st
        = { dbConnected := false
            trace := st.trace ++
              [WriterEvent.insert 1 (Dashboard.insertRow deviceId data), WriterEvent.wait 1000,
                WriterEvent.insert 2 (Dashboard.insertRow deviceId data), WriterEvent.wait 2000,
                WriterEvent.insert 3 (Dashboard.insertRow deviceId data),
                WriterEvent.setDbConnected false] } := by
      rw [Dashboard.defaultRetries, e]
      simp [retryEvents]
    refine ⟨e', ?_, ?_⟩
    · rw [zelador_saveToDatabase_eq, hzr, hz]; exact e'
    · rw [e']
      simp [WriterState.attempts, List.filter_append, List.filter_cons]

/-- Witness of C8: when every insert throws, the default run from an empty
trace makes exactly the attempts 1, 2, 3 and leaves the flag false. -/
theorem saveToDatabase_three_attempts_witness :
    Dashboard.saveToDatabase (fun _ => InsertOutcome.thrown) JsVal.null zeroReading
        Dashboard.defaultRetries (WriterState.start true)
      = { dbConnected := false
          trace := (WriterState.start true).trace ++
            [WriterEvent.insert 1 (Dashboard.insertRow JsVal.null zeroReading),
              WriterEvent.wait 1000,
              WriterEvent.insert 2 (Dashboard.insertRow JsVal.null zeroReading),
              WriterEvent.wait 2000,
              WriterEvent.insert 3 (Dashboard.insertRow JsVal.null zeroReading),
              WriterEvent.setDbConnected false] } :=
  ((saveToDatabase_three_attempts (fun _ => InsertOutcome.thrown) JsVal.null zeroReading
    (WriterState.start true)).2.2 (by decide) (by decide) (by decide)).1

/-- C9: when attempt `a` of `saveToDatabase`, reached after `a - 1` transient
failures, returns the error with code `'23503'`, the run ends right there:
its last steps are that insert and `setDbConnected(false)`, with no wait and no
further insert. Every returned error with another code and every thrown
exception is transient, and a transient failure at an attempt `a < retries` is
followed by the wait and by attempt `a + 1`. -/
theorem terminal_error_stops_retries (outcome : Nat → InsertOutcome) (deviceId : JsVal)
    (data : SensorData) (retries a : Nat) (st : WriterState) (h1 : 1 ≤ a) (ha : a ≤ retries)
    (hprev : ∀ i, 1 ≤ i → i < a → (outcome i).transient = true) :
    (outcome a = InsertOutcome.error (JsVal.str "23503") →
      Dashboard.saveToDatabase outcome deviceId data retries st
        = { dbConnected := false
            trace := st.trace ++ retryEvents (Dashboard.insertRow deviceId data) 1 (a - 1) ++
              [WriterEvent.insert a (Dashboard.insertRow deviceId data),
                WriterEvent.setDbConnected false] }) ∧
    ((∀ code : JsVal, code ≠ JsVal.str "23503" →
        (InsertOutcome.error code).transient = true) ∧
      InsertOutcome.thrown.transient = true ∧
      (InsertOutcome.error (JsVal.str "23503")).transient = false ∧
      InsertOutcome.ok.transient = false) ∧
    ((outcome a).transient = true → a < retries →
      st.trace ++ retryEvents (Dashboard.insertRow deviceId data) 1 (a - 1) ++
          [WriterEvent.insert a (Dashboard.insertRow deviceId data),
            WriterEvent.wait (1000 * a),
            WriterEvent.insert (a + 1) (Dashboard.insertRow deviceId data)]
        <+: (Dashboard.saveToDatabase outcome deviceId data retries st).trace) := by
  refine ⟨fun hterm => ?_, ⟨fun code hc => ?_, rfl, ?_, rfl⟩, fun htr hlt => ?_⟩
  · exact saveToDatabase_terminal outcome deviceId data retries a st h1 ha hprev hterm
  · cases hs : code.strictEq (JsVal.str "23503") with
    | false => simp [InsertOutcome.transient, hs]
    | true => exact absurd ((JsVal.strictEq_str_iff code "23503").mp hs) hc
  · simp [InsertOutcome.transient, JsVal.strictEq]
  · refine saveToDatabase_retry outcome deviceId data retries a st h1 hlt ?_
    intro i hi1 hi2
    rcases Nat.lt_or_eq_of_le hi2 with hlt' | rfl
    · exact hprev i hi1 hlt'
    · exact htr

/-- Witness of C9: first insert throws, second returns code `'23503'`; the
default run stops after the second insert with the flag false. -/
theorem terminal_error_stops_retries_witness :
    Dashboard.saveToDatabase terminalAtSecond JsVal.null zeroReading 3 (WriterState.start true)
      = { dbConnected := false
          trace := (WriterState.start true).trace ++
            retryEvents (Dashboard.insertRow JsVal.null zeroReading) 1 (2 - 1) ++
            [WriterEvent.insert 2 (Dashboard.insertRow JsVal.null zeroReading),
              WriterEvent.setDbConnected false] } :=
  (terminal_error_stops_retries terminalAtSecond JsVal.null zeroReading 3 2
    (WriterState.start true) (by decide) (by decide)
    (fun i hi1 hi2 => by
      have e : i = 1 := by omega
      subst e
      decide)).1 (by decide)

/-- C10: when attempt `a` of `saveToDatabase` succeeds after `a - 1` transient
failures, the run ends with that insert and `setDbConnected(true)`; the failed
attempts and their waits before it write no flag; and for any outcomes (with
`retries ≥ 1`) the final flag is true exactly when some attempt, reached
through transient failures only, succeeded. -/
theorem success_sets_flag_and_stops (outcome : Nat → InsertOutcome) (deviceId : JsVal)
    (data : SensorData) (retries a : Nat) (st : WriterState) (h1 : 1 ≤ a) (ha : a ≤ retries)
    (hprev : ∀ i, 1 ≤ i → i < a → (outcome i).transient = true)
    (hok : outcome a = InsertOutcome.ok) :
    Dashboard.saveToDatabase outcome deviceId data retries st
      = { dbConnected := true
          trace := st.trace ++ retryEvents (Dashboard.insertRow deviceId data) 1 (a - 1) ++
            [WriterEvent.insert a (Dashboard.insertRow deviceId data),
              WriterEvent.setDbConnected true] } ∧
    (∀ (start k : Nat) (b : Bool),
      WriterEvent.setDbConnected b ∉ retryEvents (Dashboard.insertRow deviceId data) start k) ∧
    (∀ (other : Nat → InsertOutcome) (st' : WriterState),
      (Dashboard.saveToDatabase other deviceId data retries st').dbConnected = true ↔
        ∃ b, 1 ≤ b ∧ b ≤ retries ∧ (∀ i, 1 ≤ i → i < b → (other i).transient = true) ∧
          other b = InsertOutcome.ok) := by
  refine ⟨?_, fun start k b => retryEvents_no_flag_write _ start k b, fun other st' => ?_⟩
  · exact saveToDatabase_success outcome deviceId data retries a st h1 ha hprev hok
  · exact saveToDatabase_flag_iff other deviceId data retries st' (by omega)

/-- Witness of C10: first insert returns a transient error, second succeeds;
the default run from flag false ends with the flag true after two inserts. -/
theorem success_sets_flag_and_stops_witness :
    Dashboard.saveToDatabase successAtSecond JsVal.null zeroReading 3 (WriterState.start false)
      = { dbConnected := true
          trace := (WriterState.start false).trace ++
            retryEvents (Dashboard.insertRow JsVal.null zeroReading) 1 (2 - 1) ++
            [WriterEvent.insert 2 (Dashboard.insertRow JsVal.null zeroReading),
              WriterEvent.setDbConnected true] } :=
  (success_sets_flag_and_stops successAtSecond JsVal.null zeroReading 3 2
    (WriterState.start false) (by decide) (by decide)
    (fun i hi1 hi2 => by
      have e : i = 1 := by omega
      subst e
      decide)
    (by decide)).1

/-! ## Backoff of the durable writer -/

theorem retryEvents_waits (row : InsertRow) (start k : Nat) :
    (retryEvents row start k).filterMap (fun e => match e with
        | WriterEvent.wait ms => some ms
        | _ => none)
      = (List.range' start k).map (fun a => 1000 * a) := by
  induction k generalizing start with
  | zero => simp [retryEvents]
  | succ k ih => simp [retryEvents, List.range'_succ, ih]

theorem exhausted_waits (outcome : Nat → InsertOutcome) (deviceId : JsVal)
    (data : SensorData) (retries : Nat) (st : WriterState) (h1 : 1 ≤ retries)
    (hall : ∀ i, 1 ≤ i → i ≤ retries → (outcome i).transient = true) :
    (Dashboard.saveToDatabase outcome deviceId data retries st).waits
      = st.waits ++ (List.range' 1 (retries - 1)).map (fun a => 1000 * a) := by
  rw [saveToDatabase_exhausted outcome deviceId data retries st h1 hall]
  simp only [WriterState.waits, List.filterMap_append, retryEvents_waits]
  simp

/-- C11: after a transient failure on attempt `a < retries` (the earlier
attempts having failed the same way) `saveToDatabase` waits `1000 * a`
milliseconds and then makes attempt `a + 1`; a run whose attempts all fail
transiently ends with the last insert followed directly by
`setDbConnected(false)`, no wait; with the default 3 retries its waits are
1000 then 2000, 3000 in total. -/
theorem backoff_is_thousand_times_attempt (outcome : Nat → InsertOutcome) (deviceId : JsVal)
    (data : SensorData) (retries a : Nat) (st : WriterState) (h1 : 1 ≤ a) (ha : a < retries)
    (hupto : ∀ i, 1 ≤ i → i ≤ a → (outcome i).transient = true) :
    st.trace ++ retryEvents (Dashboard.insertRow deviceId data) 1 (a - 1) ++
        [WriterEvent.insert a (Dashboard.insertRow deviceId data),
          WriterEvent.wait (1000 * a),
          WriterEvent.insert (a + 1) (Dashboard.insertRow deviceId data)]
      <+: (Dashboard.saveToDatabase outcome deviceId data retries st).trace ∧
    (∀ other : Nat → InsertOutcome,
      (∀ i, 1 ≤ i → i ≤ retries → (other i).transient = true) →
      Dashboard.saveToDatabase other deviceId data retries st
        = { dbConnected := false
            trace := st.trace ++
              retryEvents (Dashboard.insertRow deviceId data) 1 (retries - 1) ++
              [WriterEvent.insert retries (Dashboard.insertRow deviceId data),
                WriterEvent.setDbConnected false] } ∧
      (Dashboard.saveToDatabase other deviceId data retries st).waits
        = st.waits ++ (List.range' 1 (retries - 1)).map (fun i => 1000 * i)) ∧
    (∀ other : Nat → InsertOutcome,
      (∀ i, 1 ≤ i → i ≤ 3 → (other i).transient = true) →
      (Dashboard.saveToDatabase other deviceId data Dashboard.defaultRetries
          (WriterState.start st.dbConnected)).waits = [1000, 2000] ∧
      ((Dashboard.saveToDatabase other deviceId data Dashboard.defaultRetries
          (WriterState.start st.dbConnected)).waits).sum = 3000) := by
  refine ⟨saveToDatabase_retry outcome deviceId data retries a st h1 ha hupto, ?_, ?_⟩
  · intro other hall
    exact ⟨saveToDatabase_exhausted other deviceId data retries st (by omega) hall,
      exhausted_waits other deviceId data retries st (by omega) hall⟩
  · intro other hall
    have e := exhausted_waits other deviceId data 3 (WriterState.start st.dbConnected)
      (by omega) hall
    have e' : (Dashboard.saveToDatabase other deviceId data Dashboard.defaultRetries
        (WriterState.start st.dbConnected)).waits = [1000, 2000] := by
      rw [Dashboard.defaultRetries, e]
      simp [WriterState.waits, WriterState.start, List.range']
    exact ⟨e', by rw [e']; rfl⟩

/-- Witness of C11: when every insert throws, the default run from an empty
trace waits 1000 ms between attempts 1 and 2. -/
theorem backoff_is_thousand_times_attempt_witness :
    (WriterState.start true).trace ++
        retryEvents (Dashboard.insertRow JsVal.null zeroReading) 1 (1 - 1) ++
        [WriterEvent.insert 1 (Dashboard.insertRow JsVal.null zeroReading),
          WriterEvent.wait (1000 * 1),
          WriterEvent.insert (1 + 1) (Dashboard.insertRow JsVal.null zeroReading)]
      <+: (Dashboard.saveToDatabase (fun _ => InsertOutcome.thrown) JsVal.null zeroReading 3
            (WriterState.start true)).trace :=
  (backoff_is_thousand_times_attempt (fun _ => InsertOutcome.thrown) JsVal.null zeroReading 3 1
    (WriterState.start true) (by decide) (by decide) (fun _ _ _ => rfl)).1

/-! ## The submitted row -/

theorem JsVal.or_null_of_truthy (v : JsVal) (hv : v.truthy = true) : v.or JsVal.null = v := by
  simp [JsVal.or, hv]

theorem JsVal.ofRat_truthy (q : ℚ) (hq : q ≠ 0) : (JsVal.ofRat q).truthy = true := by
  simp [JsVal.ofRat, JsVal.truthy, hq]

theorem JsVal.zero_or_null : (JsVal.ofRat 0).or JsVal.null = JsVal.null := by
  simp [JsVal.or, JsVal.ofRat, JsVal.truthy]

/-- C12 (as stated, refuted): for the scenario message, whose `temp_ida` is
-127, the handler hands the normalised reading (with `temp_ida` 0) to
`saveToDatabase`, and the row submitted for it has `temp_ida` `null`, not 0. -/
theorem sentinel_row_is_null_not_zero :
    (Dashboard.onMessage numericHost "" (Decoded.value scenarioMessage) State.initial).2
      = some (Dashboard.processedData scenarioMessage) ∧
    (Dashboard.processedData scenarioMessage).temp_ida = JsVal.ofRat 0 ∧
    (Dashboard.insertRow JsVal.null (Dashboard.processedData scenarioMessage)).temp_ida
      = JsVal.null ∧
    (Dashboard.insertRow JsVal.null (Dashboard.processedData scenarioMessage)).temp_ida
      ≠ JsVal.ofRat 0 := by
  have e : (Dashboard.processedData scenarioMessage).temp_ida = JsVal.ofRat 0 := by
    decide
  refine ⟨rfl, e, ?_, ?_⟩
  · simp only [Dashboard.insertRow, e, JsVal.zero_or_null]
  · simp only [Dashboard.insertRow, e, JsVal.zero_or_null]
    decide

/-- C12 (amended): the handler hands the normalised reading to
`saveToDatabase`; for a message whose temperature field is -127 the submitted
row has that field `null`; in general a field of the reading that is a non-zero
number is submitted unchanged, and a field that is 0 is submitted as `null`. -/
theorem submitted_row_fields (h : Host) (timestamp : String) (data : JsObject) (s : State)
    (deviceId : JsVal) (p : SensorData) :
    (Dashboard.onMessage h timestamp (Decoded.value data) s).2
      = some (Dashboard.processedData data) ∧
    (getProp data "temp_ida" = JsVal.ofRat (-127) →
      (Dashboard.insertRow deviceId (Dashboard.processedData data)).temp_ida = JsVal.null) ∧
    (getProp data "temp_retorno" = JsVal.ofRat (-127) →
      (Dashboard.insertRow deviceId (Dashboard.processedData data)).temp_retorno
        = JsVal.null) ∧
    (∀ q : ℚ, q ≠ 0 →
      (p.temp_ida = JsVal.ofRat q → (Dashboard.insertRow deviceId p).temp_ida = JsVal.ofRat q) ∧
      (p.temp_retorno = JsVal.ofRat q →
        (Dashboard.insertRow deviceId p).temp_retorno = JsVal.ofRat q) ∧
      (p.deltaT = JsVal.ofRat q → (Dashboard.insertRow deviceId p).deltaT = JsVal.ofRat q) ∧
      (p.vazao_L_s = JsVal.ofRat q →
        (Dashboard.insertRow deviceId p).vazao_L_s = JsVal.ofRat q) ∧
      (p.potencia_kW = JsVal.ofRat q →
        (Dashboard.insertRow deviceId p).potencia_kW = JsVal.ofRat q) ∧
      (p.energia_kWh = JsVal.ofRat q →
        (Dashboard.insertRow deviceId p).energia_kWh = JsVal.ofRat q)) ∧
    ((p.temp_ida = JsVal.ofRat 0 → (Dashboard.insertRow deviceId p).temp_ida = JsVal.null) ∧
      (p.temp_retorno = JsVal.ofRat 0 →
        (Dashboard.insertRow deviceId p).temp_retorno = JsVal.null) ∧
      (p.deltaT = JsVal.ofRat 0 → (Dashboard.insertRow deviceId p).deltaT = JsVal.null) ∧
      (p.vazao_L_s = JsVal.ofRat 0 → (Dashboard.insertRow deviceId p).vazao_L_s = JsVal.null) ∧
      (p.potencia_kW = JsVal.ofRat 0 →
        (Dashboard.insertRow deviceId p).potencia_kW = JsVal.null) ∧
      (p.energia_kWh = JsVal.ofRat 0 →
        (Dashboard.insertRow deviceId p).energia_kWh = JsVal.null)) := by
  refine ⟨rfl, fun hs => ?_, fun hs => ?_, fun q hq => ⟨?_, ?_, ?_, ?_, ?_, ?_⟩,
    ⟨?_, ?_, ?_, ?_, ?_, ?_⟩⟩
  · simp [Dashboard.insertRow, Dashboard.processedData, hs, JsVal.strictEq_ofRat_iff,
      JsVal.zero_or_null]
  · simp [Dashboard.insertRow, Dashboard.processedData, hs, JsVal.strictEq_ofRat_iff,
      JsVal.zero_or_null]
  all_goals
    intro e
    first
      | simp only [Dashboard.insertRow, e, JsVal.or_null_of_truthy _ (JsVal.ofRat_truthy q hq)]
      | simp only [Dashboard.insertRow, e, JsVal.zero_or_null]

/-- Witness of amended C12 on the scenario message: `temp_ida` is -127, so the
submitted row has `temp_ida` `null`. -/
theorem submitted_row_fields_witness :
    (Dashboard.insertRow (JsVal.str "caldeira-01")
      (Dashboard.processedData scenarioMessage)).temp_ida = JsVal.null :=
  (submitted_row_fields numericHost "" scenarioMessage State.initial (JsVal.str "caldeira-01")
    zeroReading).2.1 (by decide)

/-! ## Consumption alerts -/

theorem newAlerts_types (r : Render) (now : String) (s : ConsumptionState) :
    (ConsumptionAlerts.newAlerts r now s).map (fun a => a.type)
      = (if s.currentConsumption.ge s.gasLimit then ["gas"] else []) ++
        (if s.currentCost.ge s.costLimit then ["cost"] else []) := by
  unfold ConsumptionAlerts.newAlerts
  cases s.currentConsumption.ge s.gasLimit <;> cases s.currentCost.ge s.costLimit <;> simp

theorem management_newAlerts_eq (r : Render) (now : String) (s : ConsumptionState) :
    AlertsManagement.newAlerts r now s = ConsumptionAlerts.newAlerts r now s := rfl

theorem newAlerts_gas_iff (r : Render) (now : String) (t : ConsumptionState) :
    (∃ a ∈ ConsumptionAlerts.newAlerts r now t, a.type = "gas") ↔
      t.currentConsumption.ge t.gasLimit = true := by
  unfold ConsumptionAlerts.newAlerts
  cases t.currentConsumption.ge t.gasLimit <;> cases t.currentCost.ge t.costLimit <;> simp

theorem newAlerts_gas_fields (r : Render) (now : String) (t : ConsumptionState) :
    ∀ a ∈ ConsumptionAlerts.newAlerts r now t, a.type = "gas" →
      a.value = t.currentConsumption ∧ a.limit = t.gasLimit := by
  unfold ConsumptionAlerts.newAlerts
  cases t.currentConsumption.ge t.gasLimit <;> cases t.currentCost.ge t.costLimit <;> simp

theorem newAlerts_cost_iff (r : Render) (now : String) (t : ConsumptionState) :
    (∃ a ∈ ConsumptionAlerts.newAlerts r now t, a.type = "cost") ↔
      t.currentCost.ge t.costLimit = true := by
  unfold ConsumptionAlerts.newAlerts
  cases t.currentConsumption.ge t.gasLimit <;> cases t.currentCost.ge t.costLimit <;> simp

theorem newAlerts_count (r : Render) (now : String) (t : ConsumptionState) :
    (ConsumptionAlerts.newAlerts r now t).length ≤ 2 ∧
    ((ConsumptionAlerts.newAlerts r now t).map (fun a => a.type)).Nodup := by
  have hty := newAlerts_types r now t
  constructor
  · have := congrArg List.length hty
    rw [List.length_map] at this
    rw [this]
    cases t.currentConsumption.ge t.gasLimit <;> cases t.currentCost.ge t.costLimit <;> simp
  · rw [hty]
    cases t.currentConsumption.ge t.gasLimit <;> cases t.currentCost.ge t.costLimit <;> simp

theorem totalConsumption_single (p : ℚ) (hp : p ≠ 0) :
    ConsumptionAlerts.totalConsumption numericHost [JsVal.ofRat p] = JsNum.fin (p * (1 / 10)) := by
  simp [ConsumptionAlerts.totalConsumption, Host.parseFloat, Host.toNumber, JsVal.ofRat,
    JsVal.or, JsVal.truthy, hp, JsNum.add, JsNum.mul]

theorem mountedAfterLoad_eq (p : ℚ) (hp : p ≠ 0) :
    mountedAfterLoad p
      = { state :=
            { ConsumptionState.initial with
                currentConsumption := JsNum.fin (p * (1 / 10))
                currentCost := JsNum.fin (p * (1 / 10) * 8) }
          registered := ConsumptionState.initial } := by
  simp [mountedAfterLoad, ConsumptionAlerts.completeLoad, ConsumptionAlerts.mount,
    ConsumptionAlerts.loadCurrentConsumption, JsVal.truthy, totalConsumption_single p hp,
    ConsumptionState.initial, JsNum.mul, ConsumptionAlerts.GAS_PRICE_PER_M3]

theorem managementAfterLoad_eq (p : ℚ) (hp : p ≠ 0) :
    managementAfterLoad p
      = { ConsumptionState.initial with
            currentConsumption := JsNum.fin (p * (1 / 10))
            currentCost := JsNum.fin (p * (1 / 10) * 8) } := by
  have ht : AlertsManagement.totalConsumption numericHost [JsVal.ofRat p]
      = JsNum.fin (p * (1 / 10)) := totalConsumption_single p hp
  simp [managementAfterLoad, AlertsManagement.loadCurrentConsumption, JsVal.truthy, ht,
    ConsumptionState.initial, JsNum.mul, AlertsManagement.GAS_PRICE_PER_M3]

/-- C13 (the code at the failing input): `ConsumptionAlerts` is mounted with a
device and its load returns one row of power 1000, so that its state holds
`currentConsumption = 100` against `gasLimit = 100`; the interval then fires
the `checkAlerts` it was set with, which reads the aggregate 0 of the first
render, and the state holds no alert of type `'gas'`.  An edit of a limit sets
the interval again and the alert then appears.  The evaluation of
`AlertsManagement`, which reads the current values, emits the alert at the same
input, with `value = 100` and `limit = 100`, and in general exactly when
`currentConsumption >= gasLimit`, with `value = currentConsumption` and
`limit = gasLimit`. -/
theorem stale_interval_misses_gas_alert (r : Render) (now : String) (s : ConsumptionState)
    (m : MountedAlerts) :
    ((mountedAfterLoad 1000).state.currentConsumption = JsNum.fin 100 ∧
      (mountedAfterLoad 1000).state.gasLimit = JsNum.fin 100 ∧
      (mountedAfterLoad 1000).state.currentConsumption.ge (mountedAfterLoad 1000).state.gasLimit
        = true ∧
      (mountedAfterLoad 1000).registered.currentConsumption = JsNum.fin 0) ∧
    (∀ a ∈ (ConsumptionAlerts.intervalFires r now (mountedAfterLoad 1000)).state.alerts,
      a.type ≠ "gas") ∧
    (∃ a ∈ (ConsumptionAlerts.intervalFires r now
          (ConsumptionAlerts.editLimits (JsNum.fin 100) (JsNum.fin 900)
            (mountedAfterLoad 1000))).state.alerts,
      a.type = "gas" ∧ a.value = JsNum.fin 100 ∧ a.limit = JsNum.fin 100) ∧
    ((∃ a ∈ (ConsumptionAlerts.intervalFires r now m).state.alerts, a.type = "gas") ↔
      m.registered.currentConsumption.ge m.registered.gasLimit = true) ∧
    (∃ a ∈ (AlertsManagement.checkConsumptionAlerts r now (managementAfterLoad 1000)).alerts,
      a.type = "gas" ∧ a.value = JsNum.fin 100 ∧ a.limit = JsNum.fin 100) ∧
    ((∃ a ∈ (AlertsManagement.checkConsumptionAlerts r now s).alerts, a.type = "gas") ↔
      s.currentConsumption.ge s.gasLimit = true) ∧
    (∀ a ∈ (AlertsManagement.checkConsumptionAlerts r now s).alerts, a.type = "gas" →
      a.value = s.currentConsumption ∧ a.limit = s.gasLimit) := by
  have hm := mountedAfterLoad_eq 1000 (by norm_num)
  have hg := managementAfterLoad_eq 1000 (by norm_num)
  have h100 : (1000 : ℚ) * (1 / 10) = 100 := by norm_num
  rw [h100] at hm hg
  refine ⟨?_, ?_, ?_, newAlerts_gas_iff r now m.registered, ?_, newAlerts_gas_iff r now s,
    newAlerts_gas_fields r now s⟩
  · rw [hm]
    simp [ConsumptionState.initial, JsNum.ge]
  · intro a ha ht
    have hge := (newAlerts_gas_iff r now (mountedAfterLoad 1000).registered).mp ⟨a, ha, ht⟩
    rw [hm] at hge
    simp [ConsumptionState.initial, JsNum.ge] at hge
    norm_num at hge
  · have hreg : (ConsumptionAlerts.editLimits (JsNum.fin 100) (JsNum.fin 900)
        (mountedAfterLoad 1000)).registered
        = { ConsumptionState.initial with
              currentConsumption := JsNum.fin 100
              currentCost := JsNum.fin (100 * 8)
              costLimit := JsNum.fin 900 } := by
      rw [hm]
      simp [ConsumptionAlerts.editLimits, ConsumptionState.initial]
    have hge : (ConsumptionAlerts.editLimits (JsNum.fin 100) (JsNum.fin 900)
        (mountedAfterLoad 1000)).registered.currentConsumption.ge
        (ConsumptionAlerts.editLimits (JsNum.fin 100) (JsNum.fin 900)
          (mountedAfterLoad 1000)).registered.gasLimit = true := by
      rw [hreg]; simp [ConsumptionState.initial, JsNum.ge]
    obtain ⟨a, ha, ht⟩ := (newAlerts_gas_iff r now _).mpr hge
    have hf := newAlerts_gas_fields r now _ a ha ht
    rw [hreg] at hf
    exact ⟨a, ha, ht, hf.1, hf.2⟩
  · have hge : (managementAfterLoad 1000).currentConsumption.ge
        (managementAfterLoad 1000).gasLimit = true := by
      rw [hg]; simp [ConsumptionState.initial, JsNum.ge]
    obtain ⟨a, ha, ht⟩ := (newAlerts_gas_iff r now _).mpr hge
    have hf := newAlerts_gas_fields r now _ a ha ht
    rw [hg] at hf
    exact ⟨a, ha, ht, hf.1, hf.2⟩

/-- C14 (the code at the failing input): `ConsumptionAlerts` is mounted with a
device and its load returns one row of power 2000, so that its state holds the
aggregate `2000 * 0.1 = 200` and the cost `200 * 8 = 1600` against the limits
100 and 800; the interval then fires the `checkAlerts` it was set with, which
reads the aggregate 0 and cost 0 of the first render, and the state holds no
alert at all, while the evaluation of `AlertsManagement` emits `'gas'` then
`'cost'` at the same input.  For both components the load sets the aggregate
to the sum from 0 over the returned rows of `(parseFloat(potencia_kW) || 0) *
0.1` and the cost to that aggregate times 8; `AlertsManagement` emits an alert
of type `'cost'` exactly when `currentCost >= costLimit`; and an evaluation
emits the `'gas'` alert if its bound is reached then the `'cost'` alert if its
bound is reached, at most two and of distinct types, on the values it
reads. -/
theorem stale_interval_misses_cost_alert (h : Host) (r : Render) (now : String)
    (deviceId : JsVal) (data : List JsVal) (x : JsVal) (s : ConsumptionState)
    (m : MountedAlerts) :
    ((mountedAfterLoad 2000).state.currentConsumption = JsNum.fin 200 ∧
      (mountedAfterLoad 2000).state.currentCost = JsNum.fin 1600 ∧
      (mountedAfterLoad 2000).state.costLimit = JsNum.fin 800 ∧
      (mountedAfterLoad 2000).state.currentCost.ge (mountedAfterLoad 2000).state.costLimit
        = true ∧
      (mountedAfterLoad 2000).registered.currentCost = JsNum.fin 0) ∧
    (ConsumptionAlerts.intervalFires r now (mountedAfterLoad 2000)).state.alerts = [] ∧
    (AlertsManagement.checkConsumptionAlerts r now (managementAfterLoad 2000)).alerts.map
        (fun a => a.type) = ["gas", "cost"] ∧
    (deviceId.truthy = true →
      (ConsumptionAlerts.loadCurrentConsumption h deviceId
          (ConsumptionQuery.resolved (some data) false) s).currentConsumption
        = ConsumptionAlerts.totalConsumption h data ∧
      (ConsumptionAlerts.loadCurrentConsumption h deviceId
          (ConsumptionQuery.resolved (some data) false) s).currentCost
        = (ConsumptionAlerts.totalConsumption h data).mul (JsNum.fin 8) ∧
      AlertsManagement.loadCurrentConsumption h deviceId
          (ConsumptionQuery.resolved (some data) false) s
        = ConsumptionAlerts.loadCurrentConsumption h deviceId
          (ConsumptionQuery.resolved (some data) false) s) ∧
    (ConsumptionAlerts.totalConsumption h [] = JsNum.fin 0 ∧
      ConsumptionAlerts.totalConsumption h (data ++ [x])
        = (ConsumptionAlerts.totalConsumption h data).add
            ((h.toNumber ((JsVal.num (h.parseFloat x)).or (JsVal.ofRat 0))).mul
              (JsNum.fin (1 / 10)))) ∧
    ((∃ a ∈ (AlertsManagement.checkConsumptionAlerts r now s).alerts, a.type = "cost") ↔
      s.currentCost.ge s.costLimit = true) ∧
    ((AlertsManagement.checkConsumptionAlerts r now s).alerts.map (fun a => a.type)
        = (if s.currentConsumption.ge s.gasLimit then ["gas"] else []) ++
          (if s.currentCost.ge s.costLimit then ["cost"] else []) ∧
      (AlertsManagement.checkConsumptionAlerts r now s).alerts.length ≤ 2 ∧
      ((AlertsManagement.checkConsumptionAlerts r now s).alerts.map (fun a => a.type)).Nodup) ∧
    ((ConsumptionAlerts.intervalFires r now m).state.alerts.map (fun a => a.type)
        = (if m.registered.currentConsumption.ge m.registered.gasLimit then ["gas"] else []) ++
          (if m.registered.currentCost.ge m.registered.costLimit then ["cost"] else []) ∧
      (ConsumptionAlerts.intervalFires r now m).state.alerts.length ≤ 2 ∧
      ((ConsumptionAlerts.intervalFires r now m).state.alerts.map (fun a => a.type)).Nodup) := by
  have hm := mountedAfterLoad_eq 2000 (by norm_num)
  have hg := managementAfterLoad_eq 2000 (by norm_num)
  have h200 : (2000 : ℚ) * (1 / 10) = 200 := by norm_num
  have h1600 : (200 : ℚ) * 8 = 1600 := by norm_num
  rw [h200, h1600] at hm hg
  refine ⟨?_, ?_, ?_, fun hd => ⟨?_, ?_, ?_⟩, ⟨rfl, ?_⟩, newAlerts_cost_iff r now s,
    ⟨newAlerts_types r now s, (newAlerts_count r now s).1, (newAlerts_count r now s).2⟩,
    ⟨newAlerts_types r now m.registered, (newAlerts_count r now m.registered).1,
      (newAlerts_count r now m.registered).2⟩⟩
  · rw [hm]
    simp [ConsumptionState.initial, JsNum.ge]
    norm_num
  · have hty := newAlerts_types r now (mountedAfterLoad 2000).registered
    rw [hm] at hty
    simp [ConsumptionState.initial, JsNum.ge] at hty
    norm_num at hty
    simpa [ConsumptionAlerts.intervalFires, ConsumptionAlerts.checkAlerts, hm] using hty
  · have hty := newAlerts_types r now (managementAfterLoad 2000)
    rw [hg] at hty
    simp [ConsumptionState.initial, JsNum.ge] at hty
    norm_num at hty
    simpa [AlertsManagement.checkConsumptionAlerts, management_newAlerts_eq, hg] using hty
  · simp [ConsumptionAlerts.loadCurrentConsumption, hd]
  · simp [ConsumptionAlerts.loadCurrentConsumption, hd, ConsumptionAlerts.GAS_PRICE_PER_M3]
  · simp [ConsumptionAlerts.loadCurrentConsumption, AlertsManagement.loadCurrentConsumption, hd,
      ConsumptionAlerts.totalConsumption, AlertsManagement.totalConsumption,
      ConsumptionAlerts.GAS_PRICE_PER_M3, AlertsManagement.GAS_PRICE_PER_M3]
  · simp [ConsumptionAlerts.totalConsumption, List.foldl_append]

/-! ## Temperature alerts -/

/-- C15 (the code at the failing input): with an `'increase'` alert left by an
earlier evaluation, `checkTemperatureAlerts` run on a current temperature 20
and a previous one 20 (variation 0, threshold 5) leaves that alert in place, in
`WeatherAlerts` and in `AlertsManagement`, because `setAlerts(newAlerts)` is
only reached inside the threshold test; the consumption evaluations, which
call their setter unconditionally, do forget the earlier alerts. -/
theorem stale_temperature_alert_survives (h : Host) (r : Render) (now : String)
    (s : ConsumptionState) (earlier : List ConsumptionAlert) :
    WeatherAlerts.checkTemperatureAlerts numericHost plainRender "" (JsNum.fin 5) (JsNum.fin 20)
        (some [JsVal.ofRat 20, JsVal.ofRat 20]) [staleIncrease] = [staleIncrease] ∧
    AlertsManagement.checkTemperatureAlerts numericHost plainRender "" (JsNum.fin 5)
        (JsNum.fin 20) (some [JsVal.ofRat 20, JsVal.ofRat 20]) [staleIncrease]
      = [staleIncrease] ∧
    (∀ (threshold temperatura : JsNum) (previous : JsVal) (newest : JsVal)
        (alerts : List WeatherAlert),
      ((temperatura.sub (h.toNumber previous)).abs).ge threshold = false →
      WeatherAlerts.checkTemperatureAlerts h r now threshold temperatura
          (some [newest, previous]) alerts = alerts) ∧
    (ConsumptionAlerts.checkAlerts r now { s with alerts := earlier }).alerts
      = ConsumptionAlerts.newAlerts r now s ∧
    (AlertsManagement.checkConsumptionAlerts r now { s with alerts := earlier }).alerts
      = AlertsManagement.newAlerts r now s := by
  refine ⟨?_, ?_, ?_, rfl, rfl⟩
  · simp [WeatherAlerts.checkTemperatureAlerts, numericHost, Host.toNumber, JsVal.ofRat,
      JsNum.sub, JsNum.abs, JsNum.ge]
  · simp [AlertsManagement.checkTemperatureAlerts, numericHost, Host.toNumber, JsVal.ofRat,
      JsNum.sub, JsNum.abs, JsNum.ge]
  · intro threshold temperatura previous newest alerts hlt
    simp [WeatherAlerts.checkTemperatureAlerts, hlt]

/-- C16 (the code at the failing input): with stored samples 20 (newest) and
10 and threshold 5, a new reading of 21 is 1 degree from the sample just before
it, yet `checkTemperatureAlerts`, whose query runs before the new reading is
inserted, compares it with the older sample 10 and emits an `'increase'` alert;
and with a single stored sample 10 it emits nothing for the reading 21 although
two samples exist and differ by 11. -/
theorem temperature_check_skips_latest_sample :
    (WeatherAlerts.onWeather numericHost plainRender "" (JsNum.fin 5) (JsNum.fin 21)
        [JsVal.ofRat 20, JsVal.ofRat 10] []).1
      = [WeatherAlerts.temperatureAlert plainRender "" (JsNum.fin 21) (JsNum.fin 10)] ∧
    (WeatherAlerts.temperatureAlert plainRender "" (JsNum.fin 21) (JsNum.fin 10)).type
      = "increase" ∧
    ((JsNum.fin 21).sub (JsNum.fin 20)).abs.ge (JsNum.fin 5) = false ∧
    (WeatherAlerts.onWeather numericHost plainRender "" (JsNum.fin 5) (JsNum.fin 21)
        [JsVal.ofRat 10] []).1 = [] ∧
    ((JsNum.fin 21).sub (JsNum.fin 10)).abs.ge (JsNum.fin 5) = true := by
  refine ⟨?_, ?_, ?_, ?_, ?_⟩
  · simp [WeatherAlerts.onWeather, WeatherAlerts.recentRows,
      WeatherAlerts.checkTemperatureAlerts, numericHost, Host.toNumber, JsVal.ofRat, JsNum.sub,
      JsNum.abs, JsNum.ge]
    norm_num
  · simp [WeatherAlerts.temperatureAlert, JsNum.gt]
    norm_num
  · simp [JsNum.sub, JsNum.abs, JsNum.ge]
    norm_num
  · simp [WeatherAlerts.onWeather, WeatherAlerts.recentRows,
      WeatherAlerts.checkTemperatureAlerts]
  · simp [JsNum.sub, JsNum.abs, JsNum.ge]
    norm_num

/-! ## The loaded window, failures of the load, malformed messages, transport -/

theorem zelador_loadHistory_eq (h : Host) (query : QueryOutcome) (s : State) :
    ZeladorDashboard.loadHistoryFromDatabase h query s
      = Dashboard.loadHistoryFromDatabase h query s := rfl

theorem pairwise_map_formatRow (h : Host) (rows : List StoreRow)
    (hasc : rows.Pairwise
      (fun a b => (h.getTime a.reading_time).le (h.getTime b.reading_time))) :
    (rows.map (Dashboard.formatRow h)).Pairwise (fun p q => (stampOf p).le (stampOf q)) := by
  rw [List.pairwise_map]
  exact hasc.imp (fun {a b} hab => by simpa [stampOf, Dashboard.formatRow] using hab)

/-- C17: with a device selected and at least one row returned, newest first,
`loadHistoryFromDatabase` (in `Dashboard` and in `ZeladorDashboard`) sets the
window to the 50 most recent rows in reverse order of return, formatted: its
timestamps ascend, its last point is the newest row and its length is
`min 50 (number of rows)`. -/
theorem loaded_window_is_chronological (h : Host) (rows : List StoreRow) (s : State)
    (hd : s.deviceId.truthy = true) (hne : rows ≠ [])
    (hdesc : rows.Pairwise
      (fun a b => (h.getTime b.reading_time).le (h.getTime a.reading_time))) :
    (Dashboard.loadHistoryFromDatabase h (QueryOutcome.data (some rows)) s).historyData
      = ((rows.take 50).reverse).map (Dashboard.formatRow h) ∧
    ((Dashboard.loadHistoryFromDatabase h (QueryOutcome.data (some rows)) s).historyData).Pairwise
      (fun p q => (stampOf p).le (stampOf q)) ∧
    ((Dashboard.loadHistoryFromDatabase h (QueryOutcome.data (some rows)) s).historyData).getLast?
      = some (Dashboard.formatRow h (rows.head hne)) ∧
    ((Dashboard.loadHistoryFromDatabase h (QueryOutcome.data (some rows)) s).historyData).length
      = min 50 rows.length ∧
    (ZeladorDashboard.loadHistoryFromDatabase h (QueryOutcome.data (some rows)) s).historyData
      = (Dashboard.loadHistoryFromDatabase h (QueryOutcome.data (some rows)) s).historyData ∧
    (∀ item : StoreRow, ZeladorDashboard.formatRow h item = Dashboard.formatRow h item) := by
  have e := loaded_window h rows s hd hne
  rw [Dashboard.maxHistoryPoints] at e
  refine ⟨e, ?_, ?_, ?_, rfl, fun _ => rfl⟩
  · rw [e]
    apply pairwise_map_formatRow
    rw [List.pairwise_reverse]
    exact List.Pairwise.sublist (List.take_sublist 50 rows) hdesc
  · rw [e]
    cases rows with
    | nil => exact absurd rfl hne
    | cons r rs => simp [List.take_succ_cons]
  · rw [e]
    simp

/-- Witness of C17: two rows returned newest first (times 2000 then 1000) for
a selected device give a window whose last point is the row of time 2000. -/
theorem loaded_window_is_chronological_witness :
    ((Dashboard.loadHistoryFromDatabase epochHost
        (QueryOutcome.data (some [rowAt 2000, rowAt 1000])) sessionWithDevice).historyData).getLast?
      = some (Dashboard.formatRow epochHost
          ([rowAt 2000, rowAt 1000].head (List.cons_ne_nil _ _))) :=
  (loaded_window_is_chronological epochHost [rowAt 2000, rowAt 1000] sessionWithDevice
    (by decide) (List.cons_ne_nil _ _)
    (by simp [rowAt, epochHost, JsVal.ofRat, JsNum.le]; norm_num)).2.2.1

/-- C18: with a device selected, when the history query resolves with an error
or throws, `loadHistoryFromDatabase` ends with `dbConnected = false` and
`loadingHistory = false` and changes nothing else: the window, the reading,
the device and the transport flag are as before. -/
theorem failed_load_keeps_window (h : Host) (s : State) (hd : s.deviceId.truthy = true) :
    Dashboard.loadHistoryFromDatabase h QueryOutcome.error s
      = { s with dbConnected := false, loadingHistory := false } ∧
    Dashboard.loadHistoryFromDatabase h QueryOutcome.thrown s
      = { s with dbConnected := false, loadingHistory := false } ∧
    (Dashboard.loadHistoryFromDatabase h QueryOutcome.error s).historyData = s.historyData ∧
    (Dashboard.loadHistoryFromDatabase h QueryOutcome.thrown s).historyData = s.historyData ∧
    (Dashboard.loadHistoryFromDatabase h QueryOutcome.error s).dbConnected = false ∧
    (Dashboard.loadHistoryFromDatabase h QueryOutcome.thrown s).dbConnected = false ∧
    (Dashboard.loadHistoryFromDatabase h QueryOutcome.error s).loadingHistory = false ∧
    (Dashboard.loadHistoryFromDatabase h QueryOutcome.thrown s).loadingHistory = false := by
  simp [Dashboard.loadHistoryFromDatabase, hd]

/-- Witness of C18: a failed load in a session with a window of one point and
the flag `dbConnected` set leaves the window and clears the flag. -/
theorem failed_load_keeps_window_witness :
    Dashboard.loadHistoryFromDatabase numericHost QueryOutcome.error
        { sessionWithDevice with historyData := [pointWithFlow "" 1], dbConnected := true }
      = { sessionWithDevice with
            historyData := [pointWithFlow "" 1], dbConnected := false,
            loadingHistory := false } :=
  (failed_load_keeps_window numericHost
    { sessionWithDevice with historyData := [pointWithFlow "" 1], dbConnected := true }
    (by decide)).1

theorem runMessages_filter (h : Host) (messages : List (String × Decoded)) (s : State) :
    Dashboard.runMessages h messages s
      = Dashboard.runMessages h (messages.filter (fun m => !m.2.isMalformed)) s := by
  unfold Dashboard.runMessages
  induction messages generalizing s with
  | nil => rfl
  | cons m ms ih =>
    obtain ⟨ts, d⟩ := m
    cases d with
    | malformed =>
      simpa [List.filter_cons, Decoded.isMalformed, Dashboard.onMessage] using ih s
    | null =>
      simpa [List.filter_cons, Decoded.isMalformed, Dashboard.onMessage] using ih s
    | value data =>
      simpa [List.filter_cons, Decoded.isMalformed] using ih _

/-- C19: on a message that is not valid JSON the handler returns the state it
was given (reading, window and everything else) and no persist request; a
message handled next gives the same result as if handled directly, and a whole
sequence of messages ends in the same state as the sequence with its malformed
messages removed. -/
theorem malformed_message_is_dropped (h : Host) (timestamp : String) (s : State)
    (next : String × Decoded) (messages : List (String × Decoded)) :
    Dashboard.onMessage h timestamp Decoded.malformed s = (s, none) ∧
    Dashboard.onMessage h next.1 next.2 (Dashboard.onMessage h timestamp Decoded.malformed s).1
      = Dashboard.onMessage h next.1 next.2 s ∧
    Dashboard.runMessages h ((timestamp, Decoded.malformed) :: messages) s
      = Dashboard.runMessages h messages s ∧
    Dashboard.runMessages h messages s
      = Dashboard.runMessages h (messages.filter (fun m => !m.2.isMalformed)) s :=
  ⟨rfl, rfl, rfl, runMessages_filter h messages s⟩

theorem runTransport_last (step : TransportEvent → State → State)
    (hc : ∀ s, (step TransportEvent.connect s).isConnected = true)
    (he : ∀ s, (step TransportEvent.error s).isConnected = false)
    (hcl : ∀ s, (step TransportEvent.close s).isConnected = false)
    (es : List TransportEvent) (s : State) :
    (runTransport step es s).isConnected
      = match es.getLast? with
        | some TransportEvent.connect => true
        | some _ => false
        | none => s.isConnected := by
  induction es using List.reverseRecOn with
  | nil => rfl
  | append_singleton es e _ =>
    simp only [runTransport, List.foldl_append, List.foldl_cons, List.foldl_nil,
      List.getLast?_concat]
    cases e
    · exact hc _
    · exact he _
    · exact hcl _

/-- C20 (the code at the failing input): in `ZeladorDashboard`, which has no
`'close'` handler, the events connect then close from the initial state leave
`isConnected` true although the last event is not a connect; in `Dashboard` and
in the legacy dashboard `isConnected` starts false and after any events is true
exactly when the last one was a connect. -/
theorem zelador_close_leaves_connected (es : List TransportEvent) (s : State) :
    (runTransport ZeladorDashboard.onTransport
        [TransportEvent.connect, TransportEvent.close] State.initial).isConnected = true ∧
    State.initial.isConnected = false ∧
    (runTransport Dashboard.onTransport es s).isConnected
      = (match es.getLast? with
        | some TransportEvent.connect => true
        | some _ => false
        | none => s.isConnected) ∧
    (runTransport LegacyDashboard.onTransport es s).isConnected
      = (match es.getLast? with
        | some TransportEvent.connect => true
        | some _ => false
        | none => s.isConnected) :=
  ⟨rfl, rfl,
    runTransport_last Dashboard.onTransport (fun _ => rfl) (fun _ => rfl) (fun _ => rfl) es s,
    runTransport_last LegacyDashboard.onTransport (fun _ => rfl) (fun _ => rfl) (fun _ => rfl)
      es s⟩

/-! ## Loads against live readings, device changes and loads in flight -/

theorem loadHistory_eq_completeLoad (h : Host) (query : QueryOutcome) (s : State)
    (hd : s.deviceId.truthy = true) :
    Dashboard.loadHistoryFromDatabase h query s
      = Dashboard.completeLoad h query (Dashboard.startLoad s) := by
  unfold Dashboard.loadHistoryFromDatabase Dashboard.completeLoad Dashboard.startLoad
  simp only [hd, Bool.not_true, Bool.false_eq_true, if_false]

theorem completeLoad_rows (h : Host) (rows : List StoreRow) (s : State) (hne : rows ≠ []) :
    (Dashboard.completeLoad h (QueryOutcome.data (some rows)) s).historyData
      = loadedPoints h rows := by
  cases rows with
  | nil => exact absurd rfl hne
  | cons r rs =>
    have e : (Dashboard.completeLoad h (QueryOutcome.data (some (r :: rs))) s).historyData
        = sliceLast Dashboard.maxHistoryPoints ((r :: rs).reverse.map (Dashboard.formatRow h)) :=
      rfl
    rw [e, sliceLast_map, sliceLast_reverse]
    rfl

theorem loadedPoints_have_timestamp (h : Host) (rows : List StoreRow) (p : HistoryPoint)
    (hp : p ∈ loadedPoints h rows) : p.timestamp ≠ none := by
  obtain ⟨r, _, rfl⟩ := List.mem_map.mp hp
  simp [Dashboard.formatRow]

/-- C21 (as stated, refuted): a window holding one live point, far below its
capacity, no longer holds that point after a history load that returns one
row. -/
theorem live_point_lost_on_load :
    pointWithFlow "12:00:00" 1 ∈ sessionWithLivePoint.historyData ∧
    sessionWithLivePoint.historyData.length + 1 ≤ Dashboard.maxHistoryPoints ∧
    pointWithFlow "12:00:00" 1 ∉
      (Dashboard.loadHistoryFromDatabase numericHost
        (QueryOutcome.data (some [rowWithFlow 2])) sessionWithLivePoint).historyData := by
  refine ⟨by decide, by decide, ?_⟩
  rw [loaded_window numericHost _ sessionWithLivePoint (by decide) (by decide)]
  intro hmem
  exact loadedPoints_have_timestamp numericHost [rowWithFlow 2] _ hmem rfl

/-- C21 (amended): with a device selected, a load that returns at least one
row overwrites the window with the points of the 50 most recent rows, one per
row: no point appended live before (a point without `timestamp`) remains, and
nothing of the previous window enters the result; a load that returns zero rows
or fails leaves the window, live points included, as it was. -/
theorem load_overwrites_window (h : Host) (rows : List StoreRow) (s : State)
    (hd : s.deviceId.truthy = true) (hne : rows ≠ []) :
    (Dashboard.loadHistoryFromDatabase h (QueryOutcome.data (some rows)) s).historyData
      = loadedPoints h rows ∧
    (loadedPoints h rows).length = min 50 rows.length ∧
    (∀ p ∈ s.historyData, p.timestamp = none →
      p ∉ (Dashboard.loadHistoryFromDatabase h (QueryOutcome.data (some rows)) s).historyData) ∧
    (Dashboard.loadHistoryFromDatabase h (QueryOutcome.data (some [])) s).historyData
      = s.historyData ∧
    (Dashboard.loadHistoryFromDatabase h (QueryOutcome.data none) s).historyData
      = s.historyData ∧
    (Dashboard.loadHistoryFromDatabase h QueryOutcome.error s).historyData = s.historyData ∧
    (Dashboard.loadHistoryFromDatabase h QueryOutcome.thrown s).historyData = s.historyData := by
  have e : (Dashboard.loadHistoryFromDatabase h (QueryOutcome.data (some rows)) s).historyData
      = loadedPoints h rows := loaded_window h rows s hd hne
  refine ⟨e, by simp [loadedPoints], ?_, ?_, ?_, ?_, ?_⟩
  · intro p _ hnone hmem
    rw [e] at hmem
    exact loadedPoints_have_timestamp h rows p hmem hnone
  all_goals simp [Dashboard.loadHistoryFromDatabase, hd]

/-- Witness of amended C21: the load of one row into the session holding one
live point gives the window of that row alone. -/
theorem load_overwrites_window_witness :
    (Dashboard.loadHistoryFromDatabase numericHost (QueryOutcome.data (some [rowWithFlow 2]))
        sessionWithLivePoint).historyData = loadedPoints numericHost [rowWithFlow 2] :=
  (load_overwrites_window numericHost [rowWithFlow 2] sessionWithLivePoint (by decide)
    (by decide)).1

/-- C22 (as stated, refuted): with the window holding a point loaded for device
`"A"`, selecting device `"B"` and completing its load with zero rows, or with a
query error, leaves that point in the window. -/
theorem window_kept_when_new_device_has_no_rows :
    sessionOfDeviceA.historyData = loadedPoints numericHost [rowWithFlow 1] ∧
    (Dashboard.switchDevice numericHost (JsVal.str "B") (QueryOutcome.data (some []))
        sessionOfDeviceA).deviceId = JsVal.str "B" ∧
    (Dashboard.switchDevice numericHost (JsVal.str "B") (QueryOutcome.data (some []))
        sessionOfDeviceA).historyData = loadedPoints numericHost [rowWithFlow 1] ∧
    (Dashboard.switchDevice numericHost (JsVal.str "B") QueryOutcome.error
        sessionOfDeviceA).historyData = loadedPoints numericHost [rowWithFlow 1] := by
  refine ⟨rfl, ?_, ?_, ?_⟩ <;>
    simp [Dashboard.switchDevice, Dashboard.selectDevice, Dashboard.loadHistoryFromDatabase,
      JsVal.truthy, sessionOfDeviceA]

/-- C22 (amended): after a device `id` is selected and its history load has
completed with at least one row, the window is the points of those rows and
nothing else, whatever it held before; when the load returns zero rows or fails
the window is left as it was. -/
theorem window_after_device_change (h : Host) (id : JsVal) (rows : List StoreRow)
    (s : State) (hid : id.truthy = true) (hne : rows ≠ []) :
    (Dashboard.switchDevice h id (QueryOutcome.data (some rows)) s).historyData
      = loadedPoints h rows ∧
    (∀ before : List HistoryPoint,
      (Dashboard.switchDevice h id (QueryOutcome.data (some rows))
          { s with historyData := before }).historyData
        = (Dashboard.switchDevice h id (QueryOutcome.data (some rows)) s).historyData) ∧
    (Dashboard.switchDevice h id (QueryOutcome.data (some rows)) s).deviceId = id ∧
    (Dashboard.switchDevice h id (QueryOutcome.data (some [])) s).historyData
      = s.historyData ∧
    (Dashboard.switchDevice h id QueryOutcome.error s).historyData = s.historyData ∧
    (Dashboard.switchDevice h id QueryOutcome.thrown s).historyData = s.historyData := by
  have key : ∀ t : State,
      (Dashboard.switchDevice h id (QueryOutcome.data (some rows)) t).historyData
        = loadedPoints h rows := fun t =>
    loaded_window h rows (Dashboard.selectDevice id t) hid hne
  refine ⟨key s, fun before => by rw [key, key], ?_, ?_, ?_, ?_⟩
  · cases rows with
    | nil => exact absurd rfl hne
    | cons r rs =>
      simp [Dashboard.switchDevice, Dashboard.selectDevice, Dashboard.loadHistoryFromDatabase,
        hid]
  all_goals
    simp [Dashboard.switchDevice, Dashboard.selectDevice, Dashboard.loadHistoryFromDatabase,
      hid]

/-- Witness of amended C22: from the session of device `"A"`, selecting `"B"`
and loading one row of flow rate 2 gives the window of that row alone. -/
theorem window_after_device_change_witness :
    (Dashboard.switchDevice numericHost (JsVal.str "B")
        (QueryOutcome.data (some [rowWithFlow 2])) sessionOfDeviceA).historyData
      = loadedPoints numericHost [rowWithFlow 2] :=
  (window_after_device_change numericHost (JsVal.str "B") [rowWithFlow 2] sessionOfDeviceA
    (by decide) (by decide)).1

/-- C23 (as stated, refuted): device `"A"` selected and its load in flight,
then `"B"` selected and its load in flight; when the result for `"B"` (one row
of flow rate 2) arrives first and the result for `"A"` (one row of flow rate 1)
arrives last, the window ends up holding the row of `"A"` while `"B"` is the
selected device. -/
theorem late_result_replaces_window :
    (Dashboard.completeLoad numericHost (QueryOutcome.data (some [rowWithFlow 1]))
        (Dashboard.completeLoad numericHost (QueryOutcome.data (some [rowWithFlow 2]))
          (Dashboard.startLoad (Dashboard.selectDevice (JsVal.str "B")
            (Dashboard.startLoad (Dashboard.selectDevice (JsVal.str "A")
              State.initial)))))).deviceId = JsVal.str "B" ∧
    (Dashboard.completeLoad numericHost (QueryOutcome.data (some [rowWithFlow 1]))
        (Dashboard.completeLoad numericHost (QueryOutcome.data (some [rowWithFlow 2]))
          (Dashboard.startLoad (Dashboard.selectDevice (JsVal.str "B")
            (Dashboard.startLoad (Dashboard.selectDevice (JsVal.str "A")
              State.initial)))))).historyData = loadedPoints numericHost [rowWithFlow 1] ∧
    loadedPoints numericHost [rowWithFlow 1] ≠ loadedPoints numericHost [rowWithFlow 2] := by
  refine ⟨rfl, completeLoad_rows numericHost _ _ (by decide), ?_⟩
  decide

/-- C23 (amended): a load that ends is applied to the window of that moment,
whichever device is selected by then: of two loads in flight that each return
at least one row, the window holds the rows of the one that ended last, those
of `"B"` when the result for `"A"` arrived first and those of `"A"` when it
arrived last; the selected device is not changed by either. -/
theorem last_completed_load_wins (h : Host) (rowsA rowsB : List StoreRow) (s : State)
    (hA : rowsA ≠ []) (hB : rowsB ≠ []) :
    (Dashboard.completeLoad h (QueryOutcome.data (some rowsB))
        (Dashboard.completeLoad h (QueryOutcome.data (some rowsA)) s)).historyData
      = loadedPoints h rowsB ∧
    (Dashboard.completeLoad h (QueryOutcome.data (some rowsA))
        (Dashboard.completeLoad h (QueryOutcome.data (some rowsB)) s)).historyData
      = loadedPoints h rowsA ∧
    (∀ query : QueryOutcome, (Dashboard.completeLoad h query s).deviceId = s.deviceId) ∧
    (∀ query : QueryOutcome, s.deviceId.truthy = true →
      Dashboard.loadHistoryFromDatabase h query s
        = Dashboard.completeLoad h query (Dashboard.startLoad s)) := by
  refine ⟨completeLoad_rows h rowsB _ hB, completeLoad_rows h rowsA _ hA, ?_, ?_⟩
  · intro query
    unfold Dashboard.completeLoad
    split <;> rfl
  · intro query hd
    exact loadHistory_eq_completeLoad h query s hd

/-- Witness of amended C23: results of one row each, the one for flow rate 1
arriving last, leave the window of that row. -/
theorem last_completed_load_wins_witness :
    (Dashboard.completeLoad numericHost (QueryOutcome.data (some [rowWithFlow 1]))
        (Dashboard.completeLoad numericHost (QueryOutcome.data (some [rowWithFlow 2]))
          sessionWithDevice)).historyData = loadedPoints numericHost [rowWithFlow 1] :=
  (last_completed_load_wins numericHost [rowWithFlow 1] [rowWithFlow 2] sessionWithDevice
    (by decide) (by decide)).2.1

/-! ## The submitted row and the write, seen from the listener -/

/-- C24 (the code at the failing input): the row submitted for a message has
the `device_id` that `saveToDatabase` read in the render that registered the
listener, the initial `null`, whatever device the session has selected since:
with `"caldeira-01"` selected the submitted `device_id` is `null`, not
`"caldeira-01"`. A `device_id` property of the payload does not reach the
row. -/
theorem listener_submits_initial_device (s : State) (data : JsObject) (v : JsVal) :
    (Dashboard.submittedRow s data).device_id = JsVal.null ∧
    sessionWithDevice.deviceId = JsVal.str "caldeira-01" ∧
    (Dashboard.submittedRow sessionWithDevice scenarioMessage).device_id
      ≠ sessionWithDevice.deviceId ∧
    (Dashboard.submittedRow s (("device_id", v) :: data)).device_id
      = (Dashboard.submittedRow s data).device_id ∧
    (∀ (deviceId : JsVal) (p : SensorData), (Dashboard.insertRow deviceId p).device_id
      = deviceId) := by
  refine ⟨rfl, rfl, ?_, rfl, fun _ _ => rfl⟩
  decide

/-- C25: handling a message sets the reading to `processedData`, appends its
point and hands the reading to the writer without waiting for it; whatever the
insert outcomes of that write (success, terminal failure, exhausted retries)
and also while it has not ended, the reading and the window stay those, the
write changing nothing but `dbConnected`; and the next message is handled the
same on either state as far as the reading and the window go. -/
theorem write_leaves_reading_and_window (h : Host) (timestamp : String) (data : JsObject)
    (s : State) (outcome : Nat → InsertOutcome) (retries : Nat) (next : String × Decoded) :
    (Dashboard.onMessage h timestamp (Decoded.value data) s).1.sensorData
      = Dashboard.processedData data ∧
    (Dashboard.onMessage h timestamp (Decoded.value data) s).1.historyData
      = Dashboard.appendPoint s.historyData
          (Dashboard.historyPoint h timestamp (Dashboard.processedData data)) ∧
    (Dashboard.onMessage h timestamp (Decoded.value data) s).2
      = some (Dashboard.processedData data) ∧
    Dashboard.applySave outcome (Dashboard.processedData data) retries
        (Dashboard.onMessage h timestamp (Decoded.value data) s).1
      = { (Dashboard.onMessage h timestamp (Decoded.value data) s).1 with
          dbConnected :=
            (Dashboard.saveToDatabase outcome Dashboard.listenerDeviceId
              (Dashboard.processedData data) retries
              (WriterState.start s.dbConnected)).dbConnected } ∧
    (Dashboard.applySave outcome (Dashboard.processedData data) retries
        (Dashboard.onMessage h timestamp (Decoded.value data) s).1).sensorData
      = Dashboard.processedData data ∧
    (Dashboard.applySave outcome (Dashboard.processedData data) retries
        (Dashboard.onMessage h timestamp (Decoded.value data) s).1).historyData
      = Dashboard.appendPoint s.historyData
          (Dashboard.historyPoint h timestamp (Dashboard.processedData data)) ∧
    (Dashboard.onMessage h next.1 next.2
        (Dashboard.applySave outcome (Dashboard.processedData data) retries
          (Dashboard.onMessage h timestamp (Decoded.value data) s).1)).1.sensorData
      = (Dashboard.onMessage h next.1 next.2
          (Dashboard.onMessage h timestamp (Decoded.value data) s).1).1.sensorData ∧
    (Dashboard.onMessage h next.1 next.2
        (Dashboard.applySave outcome (Dashboard.processedData data) retries
          (Dashboard.onMessage h timestamp (Decoded.value data) s).1)).1.historyData
      = (Dashboard.onMessage h next.1 next.2
          (Dashboard.onMessage h timestamp (Decoded.value data) s).1).1.historyData := by
  refine ⟨rfl, rfl, rfl, rfl, rfl, rfl, ?_, ?_⟩
  · cases hn : next.2 <;> simp [Dashboard.onMessage, Dashboard.applySave]
  · cases hn : next.2 <;> simp [Dashboard.onMessage, Dashboard.applySave]

/-! ## Persist, then load -/

theorem reload_of_finite (h : Host) (v : JsVal) (hv : v.isFiniteNumber = true) :
    (JsVal.num (h.parseFloat (v.or JsVal.null))).or (JsVal.ofRat 0) = v := by
  cases v with
  | num x =>
    cases x with
    | fin q =>
      by_cases hq : q = 0
      · subst hq
        simp [JsVal.or, JsVal.truthy, Host.parseFloat, JsVal.ofRat]
      · simp [JsVal.or, JsVal.truthy, Host.parseFloat, JsVal.ofRat, hq]
    | nan => simp [JsVal.isFiniteNumber, JsNum.isFinite] at hv
  | undefined => simp [JsVal.isFiniteNumber] at hv
  | null => simp [JsVal.isFiniteNumber] at hv
  | bool b => simp [JsVal.isFiniteNumber] at hv
  | str s => simp [JsVal.isFiniteNumber] at hv

/-- C28: for a normalised reading whose six fields are finite numbers, the row
submitted for it, read back from the store and formatted by the history
loader, has the same `temp_ida`, `temp_retorno`, `deltaT`, `vazao`, `potencia`,
`energia` and `gas` as the history point appended live for that reading. -/
theorem persist_then_load_is_identity (h : Host) (timestamp : String)
    (reading_time deviceId : JsVal) (p : SensorData) (hp : p.allFinite = true) :
    (Dashboard.formatRow h (rowAsStored reading_time (Dashboard.insertRow deviceId p))).temp_ida
      = (Dashboard.historyPoint h timestamp p).temp_ida ∧
    (Dashboard.formatRow h
        (rowAsStored reading_time (Dashboard.insertRow deviceId p))).temp_retorno
      = (Dashboard.historyPoint h timestamp p).temp_retorno ∧
    (Dashboard.formatRow h (rowAsStored reading_time (Dashboard.insertRow deviceId p))).deltaT
      = (Dashboard.historyPoint h timestamp p).deltaT ∧
    (Dashboard.formatRow h (rowAsStored reading_time (Dashboard.insertRow deviceId p))).vazao
      = (Dashboard.historyPoint h timestamp p).vazao ∧
    (Dashboard.formatRow h (rowAsStored reading_time (Dashboard.insertRow deviceId p))).potencia
      = (Dashboard.historyPoint h timestamp p).potencia ∧
    (Dashboard.formatRow h (rowAsStored reading_time (Dashboard.insertRow deviceId p))).energia
      = (Dashboard.historyPoint h timestamp p).energia ∧
    (Dashboard.formatRow h (rowAsStored reading_time (Dashboard.insertRow deviceId p))).gas
      = (Dashboard.historyPoint h timestamp p).gas := by
  simp only [SensorData.allFinite, Bool.and_eq_true] at hp
  obtain ⟨⟨⟨⟨⟨h1, h2⟩, h3⟩, h4⟩, h5⟩, h6⟩ := hp
  refine ⟨?_, ?_, ?_, ?_, ?_, ?_, ?_⟩ <;>
    simp only [Dashboard.formatRow, rowAsStored, Dashboard.insertRow, Dashboard.historyPoint,
      reload_of_finite h _ h1, reload_of_finite h _ h2, reload_of_finite h _ h3,
      reload_of_finite h _ h4, reload_of_finite h _ h5, reload_of_finite h _ h6]

/-- Witness of C28 on the normalised reading of the scenario message, whose
`temp_ida` is 0: the reloaded point has the `temp_ida` of the live point. -/
theorem persist_then_load_is_identity_witness :
    (Dashboard.formatRow numericHost
        (rowAsStored JsVal.null
          (Dashboard.insertRow JsVal.null (Dashboard.processedData scenarioMessage)))).temp_ida
      = (Dashboard.historyPoint numericHost "" (Dashboard.processedData scenarioMessage)).temp_ida :=
  (persist_then_load_is_identity numericHost "" JsVal.null JsVal.null
    (Dashboard.processedData scenarioMessage)
    (by simp [SensorData.allFinite, Dashboard.processedData, scenarioMessage, getProp,
      List.lookup, JsVal.or, JsVal.truthy, JsVal.strictEq, JsVal.ofRat, JsVal.isFiniteNumber,
      JsNum.isFinite]; norm_num)).1

/-! ## Weather service unavailable -/

theorem loadWeatherData_unavailable (h : Host) (r : Render) (now : String) (apiKey : String)
    (condominio_id : JsVal) (address : AddressOutcome) (geo : FetchOutcome (List Coords))
    (current : FetchOutcome WeatherBody) (insertThrows : Bool) (s : WeatherState)
    (hun : WeatherService.getCoordinatesFromAddress apiKey geo = none ∨
      WeatherService.fetchCurrentWeather apiKey current = none) :
    ∃ extra : List WeatherEffect,
      WeatherAlerts.loadWeatherData h r now apiKey condominio_id address geo current
          insertThrows s
        = { s with
            loading := if condominio_id.truthy then false else s.loading
            effects := s.effects ++ extra } ∧
      List.Sublist extra
        [WeatherEffect.queryAddress, WeatherEffect.geocode, WeatherEffect.fetchWeather] := by
  unfold WeatherAlerts.loadWeatherData
  by_cases hc : condominio_id.truthy = true
  · simp only [hc, Bool.not_true, Bool.false_eq_true, if_false, if_true]
    cases address with
    | thrown => exact ⟨[WeatherEffect.queryAddress], rfl, by decide⟩
    | endereco value =>
      by_cases hv : value.truthy = true
      · simp only [hv, Bool.not_true, Bool.false_eq_true, if_false]
        cases hg : WeatherService.getCoordinatesFromAddress apiKey geo with
        | none => exact ⟨[WeatherEffect.queryAddress, WeatherEffect.geocode], rfl, by decide⟩
        | some coords =>
          cases hw : WeatherService.fetchCurrentWeather apiKey current with
          | none =>
            exact ⟨[WeatherEffect.queryAddress, WeatherEffect.geocode,
              WeatherEffect.fetchWeather], rfl, by decide⟩
          | some weather =>
            rcases hun with hun | hun
            · rw [hg] at hun; exact absurd hun (by simp)
            · rw [hw] at hun; exact absurd hun (by simp)
      · have hv' : value.truthy = false := by simpa using hv
        simp only [hv', Bool.not_false, if_true]
        exact ⟨[WeatherEffect.queryAddress], rfl, by decide⟩
  · have hc' : condominio_id.truthy = false := by simpa using hc
    simp only [hc', Bool.not_false, if_true, Bool.false_eq_true, if_false]
    exact ⟨[], by simp, by decide⟩

/-- C26: `fetchCurrentWeather` returns `null` when the API key is missing, the
fetch throws or the status is not ok, and `getCoordinatesFromAddress` returns
`null` when the key is missing, the fetch throws, the status is not ok or no
match is found; whenever one of the two returns `null`, `loadWeatherData` ends
with the alerts, the weather data and the stored samples as they were, with no
temperature check and no insert among what it did, and with `loading` reset. -/
theorem unavailable_weather_is_skipped (h : Host) (r : Render) (now : String)
    (apiKey : String) (condominio_id : JsVal) (address : AddressOutcome)
    (geo : FetchOutcome (List Coords)) (current : FetchOutcome WeatherBody)
    (insertThrows : Bool) (s : WeatherState)
    (hun : WeatherService.getCoordinatesFromAddress apiKey geo = none ∨
      WeatherService.fetchCurrentWeather apiKey current = none) :
    (WeatherService.fetchCurrentWeather "" current = none ∧
      WeatherService.fetchCurrentWeather apiKey FetchOutcome.thrown = none ∧
      (∀ body, WeatherService.fetchCurrentWeather apiKey (FetchOutcome.response false body)
        = none)) ∧
    (WeatherService.getCoordinatesFromAddress "" geo = none ∧
      WeatherService.getCoordinatesFromAddress apiKey FetchOutcome.thrown = none ∧
      (∀ body, WeatherService.getCoordinatesFromAddress apiKey
        (FetchOutcome.response false body) = none) ∧
      WeatherService.getCoordinatesFromAddress apiKey (FetchOutcome.response true (some []))
        = none) ∧
    (WeatherAlerts.loadWeatherData h r now apiKey condominio_id address geo current
        insertThrows s).alerts = s.alerts ∧
    (WeatherAlerts.loadWeatherData h r now apiKey condominio_id address geo current
        insertThrows s).stored = s.stored ∧
    (WeatherAlerts.loadWeatherData h r now apiKey condominio_id address geo current
        insertThrows s).weatherData = s.weatherData ∧
    (condominio_id.truthy = true →
      (WeatherAlerts.loadWeatherData h r now apiKey condominio_id address geo current
        insertThrows s).loading = false) ∧
    (∃ extra : List WeatherEffect,
      (WeatherAlerts.loadWeatherData h r now apiKey condominio_id address geo current
        insertThrows s).effects = s.effects ++ extra ∧
      WeatherEffect.checkTemperature ∉ extra ∧
      ∀ t : JsNum, WeatherEffect.insertSample t ∉ extra) := by
  obtain ⟨extra, he, hsub⟩ := loadWeatherData_unavailable h r now apiKey condominio_id address
    geo current insertThrows s hun
  refine ⟨⟨?_, ?_, ?_⟩, ⟨?_, ?_, ?_, ?_⟩, ?_, ?_, ?_, ?_, ?_⟩
  · simp [WeatherService.fetchCurrentWeather]
  · simp [WeatherService.fetchCurrentWeather]
  · intro body; simp [WeatherService.fetchCurrentWeather]
  · simp [WeatherService.getCoordinatesFromAddress]
  · simp [WeatherService.getCoordinatesFromAddress]
  · intro body; simp [WeatherService.getCoordinatesFromAddress]
  · simp [WeatherService.getCoordinatesFromAddress]
  · rw [he]
  · rw [he]
  · rw [he]
  · intro hc; rw [he]; simp [hc]
  · refine ⟨extra, by rw [he], ?_, ?_⟩
    · intro hmem
      have := hsub.subset hmem
      simp at this
    · intro t hmem
      have := hsub.subset hmem
      simp at this

/-- Witness of C26: without an API key, `loadWeatherData` leaves the alert of
an earlier evaluation and the stored samples as they were. -/
theorem unavailable_weather_is_skipped_witness :
    (WeatherAlerts.loadWeatherData numericHost plainRender "" "" (JsVal.str "c1")
        (AddressOutcome.endereco (JsVal.str "Rua A, 1")) FetchOutcome.thrown FetchOutcome.thrown
        false
        { WeatherState.initial [JsVal.ofRat 20] with alerts := [staleIncrease] }).alerts
      = [staleIncrease] :=
  (unavailable_weather_is_skipped numericHost plainRender "" "" (JsVal.str "c1")
    (AddressOutcome.endereco (JsVal.str "Rua A, 1")) FetchOutcome.thrown FetchOutcome.thrown
    false { WeatherState.initial [JsVal.ofRat 20] with alerts := [staleIncrease] }
    (Or.inl rfl)).2.2.1

/-! ## Threshold limits through the store -/

theorem saveLimits_row (c d : JsVal) (g k : JsNum) (newId : Nat) (table : LimitsTable)
    (hc : c.truthy = true) (hd : d.truthy = true) :
    ∃ row, singleRow (AlertsManagement.saveLimits c d g k newId table) c d = some row ∧
      row.limite_consumo_gas = some g ∧ row.limite_custo = some k := by
  unfold AlertsManagement.saveLimits
  simp only [hc, hd, Bool.not_true, Bool.or_self, Bool.false_eq_true, if_false]
  cases hs : singleRow table c d with
  | none =>
    exact ⟨{ id := newId, limite_consumo_gas := some g, limite_custo := some k },
      by simp [singleRow, insertLimits], rfl, rfl⟩
  | some existing =>
    refine ⟨{ existing with limite_consumo_gas := some g, limite_custo := some k }, ?_, rfl, rfl⟩
    have ht : table c d = some existing := hs
    simp [singleRow, updateLimits, ht]

theorem loadLimits_of_row (c d : JsVal) (g k : ℚ) (table : LimitsTable) (row : LimitsRow)
    (s : ConsumptionState) (hc : c.truthy = true) (hd : d.truthy = true)
    (hrow : singleRow table c d = some row)
    (hgas : row.limite_consumo_gas = some (JsNum.fin g))
    (hcost : row.limite_custo = some (JsNum.fin k)) :
    (AlertsManagement.loadLimits c d table s).gasLimit
      = (if g = 0 then s.gasLimit else JsNum.fin g) ∧
    (AlertsManagement.loadLimits c d table s).costLimit
      = (if k = 0 then s.costLimit else JsNum.fin k) := by
  unfold AlertsManagement.loadLimits
  simp only [hc, hd, Bool.not_true, Bool.or_self, Bool.false_eq_true, if_false, hrow, hgas,
    hcost]
  by_cases hg : g = 0 <;> by_cases hk : k = 0 <;> simp [JsVal.truthy, hg, hk]

theorem saveLimitsEffect_eq (c d : JsVal) (g k : ℚ) (newId : Nat) (table : LimitsTable) :
    AlertsManagement.saveLimitsEffect c d (JsNum.fin g) (JsNum.fin k) newId table
      = (if g = 0 ∧ k = 0 then table
          else AlertsManagement.saveLimits c d (JsNum.fin g) (JsNum.fin k) newId table) := by
  unfold AlertsManagement.saveLimitsEffect
  by_cases hg : g = 0 <;> by_cases hk : k = 0 <;> simp [JsVal.or, JsVal.truthy, hg, hk]

/-- C27 (as stated, refuted): the pair (0, 500), saved for a condominium and
device on the empty table, is stored as (0, 500), yet `loadLimits` in a fresh
session gives the pair (100, 500): the stored gas limit 0 is falsy and the
default 100 is kept. -/
theorem zero_limit_is_not_restored :
    (AlertsManagement.loadLimits (JsVal.str "c1") (JsVal.str "d1")
        (AlertsManagement.saveLimitsEffect (JsVal.str "c1") (JsVal.str "d1") (JsNum.fin 0)
          (JsNum.fin 500) 1 LimitsTable.empty) ConsumptionState.initial).gasLimit
      = JsNum.fin 100 ∧
    (AlertsManagement.loadLimits (JsVal.str "c1") (JsVal.str "d1")
        (AlertsManagement.saveLimitsEffect (JsVal.str "c1") (JsVal.str "d1") (JsNum.fin 0)
          (JsNum.fin 500) 1 LimitsTable.empty) ConsumptionState.initial).costLimit
      = JsNum.fin 500 ∧
    AlertsManagement.saveLimitsEffect (JsVal.str "c1") (JsVal.str "d1") (JsNum.fin 0)
        (JsNum.fin 500) 1 LimitsTable.empty (JsVal.str "c1") (JsVal.str "d1")
      = some { id := 1, limite_consumo_gas := some (JsNum.fin 0),
               limite_custo := some (JsNum.fin 500) } ∧
    (AlertsManagement.loadLimits (JsVal.str "c1") (JsVal.str "d1")
        (AlertsManagement.saveLimitsEffect (JsVal.str "c1") (JsVal.str "d1") (JsNum.fin 0)
          (JsNum.fin 500) 1 LimitsTable.empty) ConsumptionState.initial).gasLimit
      ≠ JsNum.fin 0 := by
  decide

/-- C27 (amended): for a condominium and a device that are set and every pair
of limits `(g, k)`, on any table: when `g` and `k` are not both 0 the save
effect writes the pair as the row of that condominium and device, and
`loadLimits` in a later session restores each limit that is not 0 and leaves
the session's value (100 and 800 in a fresh session) in place of a limit that
is 0, so that the pair is restored exactly when both limits are non-zero; the
pair (0, 0) is not written at all, the table staying as it was. -/
theorem nonzero_limits_round_trip (c d : JsVal) (g k : ℚ) (newId : Nat) (table : LimitsTable)
    (s : ConsumptionState) (hc : c.truthy = true) (hd : d.truthy = true) :
    (g ≠ 0 → k ≠ 0 →
      (AlertsManagement.loadLimits c d
          (AlertsManagement.saveLimitsEffect c d (JsNum.fin g) (JsNum.fin k) newId table)
          s).gasLimit = JsNum.fin g ∧
      (AlertsManagement.loadLimits c d
          (AlertsManagement.saveLimitsEffect c d (JsNum.fin g) (JsNum.fin k) newId table)
          s).costLimit = JsNum.fin k) ∧
    ((g ≠ 0 ∨ k ≠ 0) →
      ∃ row,
        AlertsManagement.saveLimitsEffect c d (JsNum.fin g) (JsNum.fin k) newId table c d
          = some row ∧
        row.limite_consumo_gas = some (JsNum.fin g) ∧ row.limite_custo = some (JsNum.fin k)) ∧
    (k ≠ 0 →
      (AlertsManagement.loadLimits c d
          (AlertsManagement.saveLimitsEffect c d (JsNum.fin 0) (JsNum.fin k) newId table)
          s).gasLimit = s.gasLimit ∧
      (AlertsManagement.loadLimits c d
          (AlertsManagement.saveLimitsEffect c d (JsNum.fin 0) (JsNum.fin k) newId table)
          s).costLimit = JsNum.fin k ∧
      (AlertsManagement.loadLimits c d
          (AlertsManagement.saveLimitsEffect c d (JsNum.fin 0) (JsNum.fin k) newId table)
          ConsumptionState.initial).gasLimit = JsNum.fin 100) ∧
    (g ≠ 0 →
      (AlertsManagement.loadLimits c d
          (AlertsManagement.saveLimitsEffect c d (JsNum.fin g) (JsNum.fin 0) newId table)
          s).gasLimit = JsNum.fin g ∧
      (AlertsManagement.loadLimits c d
          (AlertsManagement.saveLimitsEffect c d (JsNum.fin g) (JsNum.fin 0) newId table)
          s).costLimit = s.costLimit ∧
      (AlertsManagement.loadLimits c d
          (AlertsManagement.saveLimitsEffect c d (JsNum.fin g) (JsNum.fin 0) newId table)
          ConsumptionState.initial).costLimit = JsNum.fin 800) ∧
    AlertsManagement.saveLimitsEffect c d (JsNum.fin 0) (JsNum.fin 0) newId table = table := by
  have key : ∀ (a b : ℚ) (t : ConsumptionState), (a ≠ 0 ∨ b ≠ 0) →
      (AlertsManagement.loadLimits c d
          (AlertsManagement.saveLimitsEffect c d (JsNum.fin a) (JsNum.fin b) newId table)
          t).gasLimit = (if a = 0 then t.gasLimit else JsNum.fin a) ∧
      (AlertsManagement.loadLimits c d
          (AlertsManagement.saveLimitsEffect c d (JsNum.fin a) (JsNum.fin b) newId table)
          t).costLimit = (if b = 0 then t.costLimit else JsNum.fin b) := by
    intro a b t hab
    have hne : ¬ (a = 0 ∧ b = 0) := fun hz => hab.elim (fun ha => ha hz.1) (fun hb => hb hz.2)
    rw [saveLimitsEffect_eq, if_neg hne]
    obtain ⟨row, hrow, hgas, hcost⟩ := saveLimits_row c d (JsNum.fin a) (JsNum.fin b) newId
      table hc hd
    exact loadLimits_of_row c d a b _ row t hc hd hrow hgas hcost
  refine ⟨fun hg hk => ?_, fun hgk => ?_, fun hk => ?_, fun hg => ?_, ?_⟩
  · have e := key g k s (Or.inl hg)
    rw [if_neg hg, if_neg hk] at e
    exact e
  · have hne : ¬ (g = 0 ∧ k = 0) := fun hz => hgk.elim (fun ha => ha hz.1) (fun hb => hb hz.2)
    rw [saveLimitsEffect_eq, if_neg hne]
    exact saveLimits_row c d (JsNum.fin g) (JsNum.fin k) newId table hc hd
  · have e := key 0 k s (Or.inr hk)
    have e0 := key 0 k ConsumptionState.initial (Or.inr hk)
    rw [if_pos rfl, if_neg hk] at e
    rw [if_pos rfl] at e0
    exact ⟨e.1, e.2, e0.1⟩
  · have e := key g 0 s (Or.inl hg)
    have e0 := key g 0 ConsumptionState.initial (Or.inl hg)
    rw [if_neg hg, if_pos rfl] at e
    rw [if_pos rfl] at e0
    exact ⟨e.1, e.2, e0.2⟩
  · rw [saveLimitsEffect_eq, if_pos ⟨rfl, rfl⟩]

/-- Witness of amended C27: the pair (120, 900) saved on the empty table is the
pair a fresh session loads. -/
theorem nonzero_limits_round_trip_witness :
    (JsVal.str "c1").truthy = true ∧ (JsVal.str "d1").truthy = true ∧
    (AlertsManagement.loadLimits (JsVal.str "c1") (JsVal.str "d1")
        (AlertsManagement.saveLimitsEffect (JsVal.str "c1") (JsVal.str "d1") (JsNum.fin 120)
          (JsNum.fin 900) 1 LimitsTable.empty) ConsumptionState.initial).gasLimit
      = JsNum.fin 120 ∧
    (AlertsManagement.loadLimits (JsVal.str "c1") (JsVal.str "d1")
        (AlertsManagement.saveLimitsEffect (JsVal.str "c1") (JsVal.str "d1") (JsNum.fin 120)
          (JsNum.fin 900) 1 LimitsTable.empty) ConsumptionState.initial).costLimit
      = JsNum.fin 900 :=
  ⟨by decide, by decide,
    (nonzero_limits_round_trip (JsVal.str "c1") (JsVal.str "d1") 120 900 1 LimitsTable.empty
      ConsumptionState.initial (by decide) (by decide)).1 (by norm_num) (by norm_num)⟩

/-! ## The change of the cumulative flow on an append -/

theorem vazaoAcumulada_append_one (h : Host) (w : List HistoryPoint) (r : HistoryPoint) :
    Dashboard.vazaoAcumulada h (w ++ [r])
      = (Dashboard.vazaoAcumulada h w).add (flowTerm h r) := by
  simp [Dashboard.vazaoAcumulada, flowTerm, Dashboard.intervaloMedicao, List.foldl_append]

/-- C29 (as stated, refuted): the window holds 50 points, the oldest with the
flow rate `"abc"` and the others with flow rate 1, so its cumulative flow is
`NaN`; a live append of a point of flow rate 1 evicts the oldest point and the
new cumulative flow, summed afresh over the 50 points now held, is 250, while
the old one plus `1 * 5` minus `"abc" * 5` is `NaN`. -/
theorem evicted_flow_is_not_subtracted :
    windowWithTextFlow.length = 50 ∧
    Dashboard.appendPoint windowWithTextFlow (pointWithFlow "" 1)
      = List.replicate 50 (pointWithFlow "" 1) ∧
    Dashboard.vazaoAcumulada numericHost
        (Dashboard.appendPoint windowWithTextFlow (pointWithFlow "" 1)) = JsNum.fin 250 ∧
    ((Dashboard.vazaoAcumulada numericHost windowWithTextFlow).add
        (flowTerm numericHost (pointWithFlow "" 1))).sub
        (flowTerm numericHost pointWithTextFlow) = JsNum.nan ∧
    Dashboard.vazaoAcumulada numericHost
        (Dashboard.appendPoint windowWithTextFlow (pointWithFlow "" 1))
      ≠ ((Dashboard.vazaoAcumulada numericHost windowWithTextFlow).add
          (flowTerm numericHost (pointWithFlow "" 1))).sub
          (flowTerm numericHost pointWithTextFlow) := by
  have ea : Dashboard.appendPoint windowWithTextFlow (pointWithFlow "" 1)
      = List.map (pointWithFlow "") (List.replicate 50 1) := by
    set_option maxRecDepth 100000 in decide
  have hv : Dashboard.vazaoAcumulada numericHost
      (Dashboard.appendPoint windowWithTextFlow (pointWithFlow "" 1)) = JsNum.fin 250 := by
    rw [ea, vazaoAcumulada_pointWithFlow]
    norm_num
  have ht : flowTerm numericHost pointWithTextFlow = JsNum.nan := by
    simp [flowTerm, pointWithTextFlow, Host.toNumber, numericHost, JsNum.mul]
  have hs : ∀ x : JsNum, x.sub JsNum.nan = JsNum.nan := by
    intro x; cases x <;> rfl
  have hold : ((Dashboard.vazaoAcumulada numericHost windowWithTextFlow).add
      (flowTerm numericHost (pointWithFlow "" 1))).sub
      (flowTerm numericHost pointWithTextFlow) = JsNum.nan := by
    rw [ht, hs]
  refine ⟨by decide, by rw [ea]; simp, hv, hold, ?_⟩
  rw [hv, hold]
  exact fun e => JsNum.noConfusion e

/-- C29 (amended): on a live append of `r`, a window of fewer than 50 points
becomes `w ++ [r]` and its cumulative flow the old one plus `r.vazao * 5`; a
window of 50 points loses its oldest point `e` and becomes `rest ++ [r]`, and
its cumulative flow is summed afresh: it is the sum over the 49 points kept
plus `r.vazao * 5`; it equals the old one plus `r.vazao * 5` minus
`e.vazao * 5` when all flow rates are natural numbers whose sum times 5 stays
within `2 ^ 53`. -/
theorem cumulative_flow_change_on_append (h : Host) (w : List HistoryPoint)
    (r : HistoryPoint) :
    (w.length < 50 →
      Dashboard.appendPoint w r = w ++ [r] ∧
      Dashboard.vazaoAcumulada h (Dashboard.appendPoint w r)
        = (Dashboard.vazaoAcumulada h w).add (flowTerm h r)) ∧
    (∀ (e : HistoryPoint) (rest : List HistoryPoint), w = e :: rest → w.length = 50 →
      Dashboard.appendPoint w r = rest ++ [r] ∧
      Dashboard.vazaoAcumulada h (Dashboard.appendPoint w r)
        = (Dashboard.vazaoAcumulada h rest).add (flowTerm h r) ∧
      ((∀ p ∈ w, naturalFlow p = true) → naturalFlow r = true →
        ((w.map (fun p => flowOf p * 5)).sum + flowOf r * 5 ≤ exactBound) →
        Dashboard.vazaoAcumulada h (Dashboard.appendPoint w r)
          = ((Dashboard.vazaoAcumulada h w).add (flowTerm h r)).sub (flowTerm h e))) := by
  constructor
  · intro hlt
    have e : Dashboard.appendPoint w r = w ++ [r] := by
      unfold Dashboard.appendPoint
      apply sliceLast_of_length_le
      simp [Dashboard.maxHistoryPoints]
      omega
    exact ⟨e, by rw [e, vazaoAcumulada_append_one]⟩
  · intro e rest hw hlen
    subst hw
    have hrest : rest.length = 49 := by simpa using hlen
    have ea : Dashboard.appendPoint (e :: rest) r = rest ++ [r] := by
      simp [Dashboard.appendPoint, sliceLast, Dashboard.maxHistoryPoints, hrest]
    refine ⟨ea, by rw [ea, vazaoAcumulada_append_one], ?_⟩
    intro hnat hrn _
    have hfin : ∀ p ∈ e :: rest, p.vazao.isFiniteNumber = true :=
      fun p hp => naturalFlow_finite p (hnat p hp)
    have hr : r.vazao.isFiniteNumber = true := naturalFlow_finite r hrn
    have he : e.vazao.isFiniteNumber = true := hfin e (List.mem_cons_self _ _)
    have hrestfin : ∀ p ∈ rest, p.vazao.isFiniteNumber = true :=
      fun p hp => hfin p (List.mem_cons_of_mem _ hp)
    have hnew : ∀ p ∈ rest ++ [r], p.vazao.isFiniteNumber = true := by
      intro p hp
      rcases List.mem_append.mp hp with hp | hp
      · exact hrestfin p hp
      · rw [List.mem_singleton.mp hp]; exact hr
    rw [ea, vazaoAcumulada_finite h _ hnew, vazaoAcumulada_finite h _ hfin,
      flowTerm_of_finite h r hr, flowTerm_of_finite h e he]
    simp only [JsNum.add, JsNum.sub, List.map_append, List.sum_append, List.map_cons,
      List.map_nil, List.sum_cons, List.sum_nil]
    congr 1
    ring

/-- Witness of amended C29: appending a point of flow rate 7 to the window of
the fifty points of flow rates 0 to 49 evicts the point of flow rate 0, and the
new cumulative flow is the sum over the 49 points kept plus `7 * 5`. -/
theorem cumulative_flow_change_on_append_witness :
    Dashboard.appendPoint (numberedPoints 50) (pointWithFlow "" 7)
        = (numberedPoints 50).tail ++ [pointWithFlow "" 7] ∧
    Dashboard.vazaoAcumulada numericHost
        (Dashboard.appendPoint (numberedPoints 50) (pointWithFlow "" 7))
      = (Dashboard.vazaoAcumulada numericHost (numberedPoints 50).tail).add
          (flowTerm numericHost (pointWithFlow "" 7)) :=
  ⟨((cumulative_flow_change_on_append numericHost (numberedPoints 50) (pointWithFlow "" 7)).2
      (pointWithFlow "" ((0 : ℕ) : ℚ)) (numberedPoints 50).tail
      (by set_option maxRecDepth 100000 in decide) (by decide)).1,
    ((cumulative_flow_change_on_append numericHost (numberedPoints 50) (pointWithFlow "" 7)).2
      (pointWithFlow "" ((0 : ℕ) : ℚ)) (numberedPoints 50).tail
      (by set_option maxRecDepth 100000 in decide) (by decide)).2.1⟩

/-! ## The sentinel in the window -/

theorem processedData_no_sentinel (data : JsObject) :
    (Dashboard.processedData data).temp_ida ≠ JsVal.ofRat (-127) ∧
    (Dashboard.processedData data).temp_retorno ≠ JsVal.ofRat (-127) := by
  constructor
  · simp only [Dashboard.processedData]
    split
    · decide
    · rename_i hne
      intro e
      exact hne ((JsVal.strictEq_ofRat_iff _ _).mpr e)
  · simp only [Dashboard.processedData]
    split
    · decide
    · rename_i hne
      intro e
      exact hne ((JsVal.strictEq_ofRat_iff _ _).mpr e)

theorem reload_no_sentinel (h : Host) (v : JsVal) (hn : v.isNumber = true ∨ v = JsVal.undefined)
    (hv : v ≠ JsVal.ofRat (-127)) :
    (JsVal.num (h.parseFloat (v.or JsVal.null))).or (JsVal.ofRat 0) ≠ JsVal.ofRat (-127) := by
  have hzero : JsVal.ofRat 0 ≠ JsVal.ofRat (-127) := by decide
  cases v with
  | num x =>
    cases x with
    | fin q =>
      by_cases hq : q = 0
      · subst hq
        simp [JsVal.or, JsVal.truthy, Host.parseFloat, JsVal.ofRat]
      · simpa [JsVal.or, JsVal.truthy, Host.parseFloat, JsVal.ofRat, hq] using hv
    | nan => simpa [JsVal.or, JsVal.truthy, Host.parseFloat] using hzero
  | undefined => simpa [JsVal.or, JsVal.truthy, Host.parseFloat] using hzero
  | null => simpa [JsVal.or, JsVal.truthy, Host.parseFloat] using hzero
  | bool b => rcases hn with hn | hn <;> simp [JsVal.isNumber] at hn
  | str s => rcases hn with hn | hn <;> simp [JsVal.isNumber] at hn

theorem processedData_temps_numeric (data : JsObject) (hn : temperaturesNumeric data = true) :
    ((Dashboard.processedData data).temp_ida.isNumber = true ∨
      (Dashboard.processedData data).temp_ida = JsVal.undefined) ∧
    ((Dashboard.processedData data).temp_retorno.isNumber = true ∨
      (Dashboard.processedData data).temp_retorno = JsVal.undefined) := by
  simp only [temperaturesNumeric, Bool.and_eq_true, Bool.or_eq_true, decide_eq_true_eq] at hn
  constructor
  · simp only [Dashboard.processedData]
    split
    · exact Or.inl rfl
    · exact hn.1
  · simp only [Dashboard.processedData]
    split
    · exact Or.inl rfl
    · exact hn.2

theorem persistedRow_no_sentinel (h : Host) (reading_time deviceId : JsVal) (data : JsObject)
    (hn : temperaturesNumeric data = true) :
    hasSentinel (Dashboard.formatRow h (persistedRow reading_time deviceId data)) = false := by
  have h1 := reload_no_sentinel h _ (processedData_temps_numeric data hn).1
    (processedData_no_sentinel data).1
  have h2 := reload_no_sentinel h _ (processedData_temps_numeric data hn).2
    (processedData_no_sentinel data).2
  simp only [hasSentinel, Bool.or_eq_false_iff, decide_eq_false_iff_not]
  exact ⟨h1, h2⟩

theorem historyPoint_no_sentinel (h : Host) (timestamp : String) (data : JsObject) :
    hasSentinel (Dashboard.historyPoint h timestamp (Dashboard.processedData data)) = false := by
  simp only [hasSentinel, Bool.or_eq_false_iff, decide_eq_false_iff_not, Dashboard.historyPoint]
  exact processedData_no_sentinel data

/-- C30 (as stated, refuted): a returned row whose `temp_ida` is -127 is loaded
into the window with `temp_ida` -127, in `Dashboard` and in
`ZeladorDashboard`: the loader applies `parseFloat(x) || 0` and no sentinel
rule. -/
theorem stored_sentinel_reaches_window :
    (Dashboard.loadHistoryFromDatabase numericHost
        (QueryOutcome.data (some [rowWithTempIda (-127)])) sessionWithDevice).historyData.map
        (fun p => p.temp_ida) = [JsVal.ofRat (-127)] ∧
    (ZeladorDashboard.loadHistoryFromDatabase numericHost
        (QueryOutcome.data (some [rowWithTempIda (-127)])) sessionWithDevice).historyData.map
        (fun p => p.temp_ida) = [JsVal.ofRat (-127)] ∧
    (∃ p ∈ (Dashboard.loadHistoryFromDatabase numericHost
        (QueryOutcome.data (some [rowWithTempIda (-127)])) sessionWithDevice).historyData,
      hasSentinel p = true) := by
  have e : (Dashboard.loadHistoryFromDatabase numericHost
      (QueryOutcome.data (some [rowWithTempIda (-127)])) sessionWithDevice).historyData
      = [Dashboard.formatRow numericHost (rowWithTempIda (-127))] :=
    loaded_window numericHost _ sessionWithDevice (by decide) (by decide)
  have ht : (Dashboard.formatRow numericHost (rowWithTempIda (-127))).temp_ida
      = JsVal.ofRat (-127) := by
    simp [Dashboard.formatRow, rowWithTempIda, numericHost, Host.parseFloat, JsVal.ofRat,
      JsVal.or, JsVal.truthy]
  refine ⟨?_, ?_, ?_⟩
  · rw [e]; simp [ht]
  · rw [zelador_loadHistory_eq, e]; simp [ht]
  · rw [e]
    exact ⟨_, List.mem_singleton.mpr rfl, by simp [hasSentinel, ht]⟩

/-- C30 (amended): a window free of the sentinel stays so under a live message,
whatever its payload, and under a history load, in `Dashboard` and in
`ZeladorDashboard`, whose returned rows are rows the pipeline persisted for
messages with numeric (or absent) temperature fields, whatever the outcome of
the load; the initial window is free of it. -/
theorem window_stays_sentinel_free (h : Host) (timestamp : String) (message : Decoded)
    (s : State) (entries : List (JsVal × JsVal × JsObject))
    (hinv : ∀ p ∈ s.historyData, hasSentinel p = false)
    (hnum : ∀ e ∈ entries, temperaturesNumeric e.2.2 = true) :
    (∀ p ∈ (Dashboard.onMessage h timestamp message s).1.historyData, hasSentinel p = false) ∧
    (∀ p ∈ (Dashboard.loadHistoryFromDatabase h
        (QueryOutcome.data (some (entries.map (fun e => persistedRow e.1 e.2.1 e.2.2))))
        s).historyData, hasSentinel p = false) ∧
    (∀ p ∈ (ZeladorDashboard.loadHistoryFromDatabase h
        (QueryOutcome.data (some (entries.map (fun e => persistedRow e.1 e.2.1 e.2.2))))
        s).historyData, hasSentinel p = false) ∧
    (∀ p ∈ (Dashboard.loadHistoryFromDatabase h QueryOutcome.error s).historyData,
      hasSentinel p = false) ∧
    (∀ p ∈ State.initial.historyData, hasSentinel p = false) := by
  have hload : ∀ p ∈ (Dashboard.loadHistoryFromDatabase h
      (QueryOutcome.data (some (entries.map (fun e => persistedRow e.1 e.2.1 e.2.2))))
      s).historyData, hasSentinel p = false := by
    by_cases hd : s.deviceId.truthy = true
    · cases hentries : entries with
      | nil =>
        simpa [Dashboard.loadHistoryFromDatabase, hd] using hinv
      | cons e0 rest =>
        have hne : (e0 :: rest).map (fun e => persistedRow e.1 e.2.1 e.2.2) ≠ [] := by simp
        rw [loaded_window h _ s hd hne]
        intro p hp
        obtain ⟨row, hrow, rfl⟩ := List.mem_map.mp hp
        have hrow' := List.mem_of_mem_take (List.mem_reverse.mp hrow)
        obtain ⟨e, he, rfl⟩ := List.mem_map.mp hrow'
        exact persistedRow_no_sentinel h _ _ _ (hnum e (hentries ▸ he))
    · have hd' : s.deviceId.truthy = false := by simpa using hd
      simpa [Dashboard.loadHistoryFromDatabase, hd'] using hinv
  refine ⟨?_, hload, ?_, ?_, ?_⟩
  · cases message with
    | malformed => simpa [Dashboard.onMessage] using hinv
    | null => simpa [Dashboard.onMessage] using hinv
    | value data =>
      intro p hp
      have hp' : p ∈ s.historyData ++
          [Dashboard.historyPoint h timestamp (Dashboard.processedData data)] :=
        List.mem_of_mem_drop hp
      rcases List.mem_append.mp hp' with hp' | hp'
      · exact hinv p hp'
      · rw [List.mem_singleton.mp hp']
        exact historyPoint_no_sentinel h timestamp data
  · rw [zelador_loadHistory_eq]; exact hload
  · by_cases hd : s.deviceId.truthy = true
    · simpa [Dashboard.loadHistoryFromDatabase, hd] using hinv
    · have hd' : s.deviceId.truthy = false := by simpa using hd
      simpa [Dashboard.loadHistoryFromDatabase, hd'] using hinv
  · intro p hp
    simp [State.initial] at hp

/-- Witness of amended C30: from the initial window, the point appended for the
scenario message (whose `temp_ida` is -127) is free of the sentinel. -/
theorem window_stays_sentinel_free_witness :
    hasSentinel (Dashboard.historyPoint numericHost ""
      (Dashboard.processedData scenarioMessage)) = false :=
  (window_stays_sentinel_free numericHost "" (Decoded.value scenarioMessage) State.initial
    [(JsVal.null, JsVal.null, scenarioMessage)]
    (by intro p hp; simp [State.initial] at hp)
    (by decide)).1
    (Dashboard.historyPoint numericHost "" (Dashboard.processedData scenarioMessage))
    (by simp [Dashboard.onMessage, Dashboard.appendPoint, sliceLast, State.initial,
      Dashboard.maxHistoryPoints])
